import Mathlib

/-!
# Instance provisioning in `lxd/containers_post.go`

A shallow embedding of the storage-pool resolver (`containerFindStoragePool`), of the
creation strategies (`createFromImage`, `createFromNone`, `createFromMigration`,
`createFromCopy` with `clusterCopyContainerInternal`, `createFromBackup`) and of the request
dispatcher (`containersPost`); of the memory and block I/O limits of
`lxd/cgroup/abstraction.go`; and of the ebtables rules of a bridged NIC in
`lxd/iptables/xtables.go` (`generateFilterEbtablesRules`, `matchEbtablesRule`).

Conventions of the embedding:

* A Go `string` is a sequence of bytes; it is a `String` here, read one character per byte,
  so `len(s)` is `s.length` and `s[i:j]` is `goSlice s i j`.
* A Go `map[string]V` is an association list read through `lookupKey`; a nil map reads like
  an empty one. `m[k] = v` is `setKey m k v`.
* Calls into packages that are not part of `containers_post.go` (the database, the storage
  layer, package `shared`) are fields of a record of collaborators, one record per function.
* Side effects on the instance store and the operation registry are recorded as a list of
  `Event`s in program order; the calls of the dispatcher and the steps of the backup work
  function are recorded likewise, as `DispatchStep`s and `BackupStep`s.
-/

namespace Lxd

/-! ## Go values -/

/-- Reading `m[k]` with the comma-ok form: the first binding of `k`. -/
def lookupKey {β : Type} (m : List (String × β)) (k : String) : Option β :=
  List.lookup k m

/-- The assignment `m[k] = v`: replaces the binding of `k`, or adds one. -/
def setKey {β : Type} : List (String × β) → String → β → List (String × β)
  | [], k, v => [(k, v)]
  | (k0, v0) :: m, k, v => if k0 = k then (k, v) :: m else (k0, v0) :: setKey m k v

/-- A device: `map[string]string`. -/
abbrev Device := List (String × String)

/-- A device set: `map[string]map[string]string`. -/
abbrev Devices := List (String × Device)

/-- An instance configuration: `map[string]string`. -/
abbrev Config := List (String × String)

/-- Reading `d[k]` on a `map[string]string`: the empty string when `k` is absent. -/
def prop (d : List (String × String)) (k : String) : String :=
  (lookupKey d k).getD ""

/-- The slice `s[i:j]` of a Go string. -/
def goSlice (s : String) (i j : Nat) : String :=
  String.mk ((s.data.drop i).take (j - i))

/-- The slice `s[i:]` of a Go string. -/
def goSliceFrom (s : String) (i : Nat) : String :=
  String.mk (s.data.drop i)

/-- Errors returned by collaborators; the two sentinel values the code compares against are
constructors of their own, `msg` is an error built with `fmt.Errorf`. -/
inductive Err where
  | ErrNoSuchObject
  | ErrUnknownDriver
  | msg (text : String)
  | other (code : Nat)
  deriving DecidableEq, Repr

/-- The text `err.Error()` of an error: for an error built with `fmt.Errorf` the formatted
text; for the other values a text that stands for the one of their package, which is not
among the sources. -/
def Err.Error : Err → String
  | .ErrNoSuchObject => "No such object"
  | .ErrUnknownDriver => "Unknown driver"
  | .msg text => text
  | .other code => "error " ++ Nat.repr code

/-- Execution class of an operation (`operations.OperationClassTask` / `...Websocket`). -/
inductive OperationClass where
  | Task
  | Websocket
  deriving DecidableEq, Repr

/-- What `operations.OperationCreate` is given: class, resources, metadata and whether a
connect hook is passed. -/
structure Operation where
  opClass : OperationClass
  resources : List (String × List String)
  metadata : Option (List (String × String))
  connect : Bool
  deriving DecidableEq, Repr

/-- The operation a cluster client call returns (`op.Get()`, an `api.Operation`): its id,
and its metadata (for a migration, the websocket secrets). -/
structure RemoteOperation where
  ID : String
  Metadata : List (String × String)
  deriving DecidableEq, Repr

/-- The `response.Response` values built in `containers_post.go`. -/
inductive Response where
  | BadRequest (err : Err)
  | InternalError (err : Err)
  | NotImplemented (err : Err)
  | SmartError (err : Err)
  | OperationResponse (op : Operation)
  | ForwardedOperationResponse (project : String) (op : RemoteOperation)
  deriving DecidableEq, Repr

/-- Whether a response is one of the error responses. -/
def Response.isError : Response → Bool
  | .OperationResponse _ => false
  | .ForwardedOperationResponse _ _ => false
  | _ => true

/-- The `Source` part of `api.InstancesPost` (`api.InstanceSource`). -/
structure InstanceSource where
  SourceType : String := ""
  Mode : String := ""
  Certificate : String := ""
  BaseImage : String := ""
  Operation : String := ""
  Websockets : List (String × String) := []
  Source : String := ""
  Project : String := ""
  Live : Bool := false
  Refresh : Bool := false
  InstanceOnly : Bool := false
  ContainerOnly : Bool := false
  Server : String := ""
  Protocol : String := ""
  Secret : String := ""
  deriving DecidableEq, Repr

/-- The request body `api.InstancesPost`; `none` is a nil map or slice. `InstanceKind` is
the field `Type` (container or virtual machine), `InstanceType` the field of that name. -/
structure InstancesPost where
  Name : String := ""
  Architecture : String := ""
  InstanceKind : String := ""
  InstanceType : String := ""
  Description : String := ""
  Config : Option Config := none
  Devices : Option Devices := none
  Profiles : Option (List String) := none
  Ephemeral : Bool := false
  Stateful : Bool := false
  Source : InstanceSource := {}
  deriving DecidableEq, Repr

/-- The part of `api.Profile` the resolver reads. -/
structure Profile where
  Devices : Devices
  deriving DecidableEq, Repr

/-! ## `containerFindStoragePool` -/

/-- Collaborators of `containerFindStoragePool`: `shared.GetRootDiskDevice` (key, device and
error, as at the call sites), `d.cluster.StoragePoolGetID`, `d.cluster.ProfileGet` and
`d.cluster.StoragePools`. -/
structure PoolLookups where
  GetRootDiskDevice : Devices → String × Device × Option Err
  StoragePoolGetID : String → Except Err Nat
  ProfileGet : String → String → Except Err Profile
  StoragePools : Except Err (List String)

/-- The five values `containerFindStoragePool` returns. -/
structure FoundPool where
  storagePool : String
  storagePoolProfile : String
  localRootDiskDeviceKey : String
  localRootDiskDevice : Device
  resp : Option Response
  deriving DecidableEq, Repr

/-- The error return `"", "", "", nil, resp`. -/
def FoundPool.failed (r : Response) : FoundPool :=
  ⟨"", "", "", [], some r⟩

/-- Whether the pool-existence lookup answers `db.ErrNoSuchObject`. -/
def isNoSuchObject (r : Except Err Nat) : Bool :=
  match r with
  | .error .ErrNoSuchObject => true
  | _ => false

/-- The loop over `req.Profiles` (lines 907-919): threads `storagePool` and
`storagePoolProfile`, returns the error of the first profile that does not load. -/
def profileChain (w : PoolLookups) (project : String) :
    List String → String × String → Except Err (String × String)
  | [], acc => .ok acc
  | pName :: rest, acc =>
    match w.ProfileGet project pName with
    | .error err => .error err
    | .ok p =>
      match w.GetRootDiskDevice p.Devices with
      | (k, v, _) =>
        if k ≠ "" ∧ prop v "pool" ≠ "" then
          -- Keep going as we want the last one in the profile chain
          profileChain w project rest (prop v "pool", pName)
        else
          profileChain w project rest acc

/-- The single-pool fallback (lines 922-936), run when `storagePool` is still empty. -/
def singlePool (w : PoolLookups) : Except Response String :=
  match w.StoragePools with
  | .error .ErrNoSuchObject =>
    .error (.BadRequest (.msg "This LXD instance does not have any storage pools configured"))
  | .error err => .error (.SmartError err)
  | .ok pools =>
    match pools with
    | [p] => .ok p
    | _ => .ok ""

/-- Lines 886-903 of `containerFindStoragePool`: the pool of the request's own root-disk
device, with the key and the device as returned, and `req.Devices` as these lines leave it.
The device returned by `GetRootDiskDevice` is the map stored in `req.Devices`, so clearing
its `pool` clears it there too. -/
def localRootPool (w : PoolLookups) (req : InstancesPost) :
    String × String × Device × Option Devices :=
  -- Grab the container's root device if one is specified
  match w.GetRootDiskDevice (req.Devices.getD []) with
  | (localRootDiskDeviceKey, localRootDiskDevice, _) =>
    let storagePool := if localRootDiskDeviceKey ≠ "" then prop localRootDiskDevice "pool" else ""
    -- Handle copying/moving between two storage-api LXD instances.
    if storagePool ≠ "" ∧ isNoSuchObject (w.StoragePoolGetID storagePool) = true then
      -- Unset the local root disk device storage pool if not found.
      ("", localRootDiskDeviceKey, setKey localRootDiskDevice "pool" "",
        some (setKey (req.Devices.getD []) localRootDiskDeviceKey
          (setKey localRootDiskDevice "pool" "")))
    else
      (storagePool, localRootDiskDeviceKey, localRootDiskDevice, req.Devices)

/-- The function `containerFindStoragePool(d, project, req)`: the five values it returns,
and `req.Devices` as the call leaves it. -/
def containerFindStoragePool (w : PoolLookups) (project : String) (req : InstancesPost) :
    FoundPool × Option Devices :=
  match localRootPool w req with
  | (storagePool, localRootDiskDeviceKey, localRootDiskDevice, devices) =>
    -- If we don't have a valid pool yet, look through profiles
    let chain :=
      if storagePool = "" then profileChain w project (req.Profiles.getD []) (storagePool, "")
      else .ok (storagePool, "")
    match chain with
    | .error err => (FoundPool.failed (.SmartError err), devices)
    | .ok (storagePool, storagePoolProfile) =>
      -- If there is just a single pool in the database, use that
      if storagePool = "" then
        match singlePool w with
        | .error r => (FoundPool.failed r, devices)
        | .ok pool =>
          (⟨pool, storagePoolProfile, localRootDiskDeviceKey, localRootDiskDevice, none⟩,
            devices)
      else
        (⟨storagePool, storagePoolProfile, localRootDiskDeviceKey, localRootDiskDevice, none⟩,
          devices)

/-- Modelled from the spec: `shared.GetRootDiskDevice` (package `shared` is not among the
sources). The spec calls root-disk device "the device entry with path `/`"; the key and the
device are returned when exactly one binding of the map qualifies, and an error otherwise.
The bindings of the map are the entries that `lookupKey` can return. -/
def GetRootDiskDevice (devices : Devices) : String × Device × Option Err :=
  match devices.filter
      (fun e => decide (lookupKey devices e.1 = some e.2) && decide (prop e.2 "path" = "/")) with
  | [(k, d)] => (k, d, none)
  | [] => ("", [], some (.msg "No root device could be found"))
  | _ => ("", [], some (.msg "More than one root device found"))

/-- Modelled from the spec: `shared.StringInSlice` (package `shared` is not among the
sources), the membership test behind "profiles exist" and "the two permitted volatile
keys". -/
def StringInSlice (key : String) (list : List String) : Bool :=
  list.contains key

/-! ## `createFromMigration` -/

/-- Instance types of `instancetype`. -/
inductive InstanceType where
  | Any
  | Container
  | VM
  deriving DecidableEq, Repr

/-- The filesystem migration types the code distinguishes: rsync, and the rest. -/
inductive MigrationFSType where
  | RSYNC
  | native (code : Nat)
  deriving DecidableEq, Repr

/-- An instance handle (`instance.Instance`): its name and whether it is running. -/
structure Instance where
  Name : String
  IsRunning : Bool
  deriving DecidableEq, Repr

/-- The creation arguments `db.InstanceArgs`. -/
structure InstanceArgs where
  Project : String
  Architecture : Nat
  BaseImage : String
  Config : Option Config
  InstType : InstanceType
  Devices : Devices
  Description : String
  Ephemeral : Bool
  Name : String
  Profiles : List String
  Stateful : Bool
  deriving DecidableEq, Repr

/-- The fields of `MigrationSinkArgs` other than the dialer, whose TLS configuration is
checked before the record is built. -/
structure MigrationSinkArgs where
  Url : String
  Instance : Option Instance
  Secrets : List (String × String)
  Push : Bool
  Live : Bool
  InstanceOnly : Bool
  Refresh : Bool
  deriving DecidableEq, Repr

/-- A migration sink, as far as `createFromMigration` reads it: `sink.Metadata()`. -/
structure Sink where
  Metadata : List (String × String)
  deriving DecidableEq, Repr

/-- Effects on the instance store and the operation registry, in program order. -/
inductive Event where
  | createInstance (inst : Instance) (args : InstanceArgs)
  | deleteInstance (inst : Instance)
  | createOperation (op : Operation)
  deriving DecidableEq, Repr

/-- Collaborators of `createFromMigration`, in the order the function calls them. Each of
the three constructors of an instance answers with the new instance, or with the error that
prevented the record from being created. -/
structure MigrationCalls where
  pools : PoolLookups
  ArchitectureId : String → Except Err Nat
  instancetypeNew : String → Except Err InstanceType
  Profiles : String → Except Err (List String)
  LoadByProjectAndName : String → String → Except Err Instance
  GetPoolByName : String → Option Err
  instanceCreateInternal : InstanceArgs → Except Err Instance
  ImageGet : String → String → Option Err
  instanceCreateAsEmpty : InstanceArgs → Except Err Instance
  instanceLoad : InstanceArgs → Except Err Devices
  storagePoolInit : String → Except Err MigrationFSType
  instanceCreateFromImage : InstanceArgs → String → Except Err Instance
  pemDecode : String → Option String
  ParseCertificate : String → Except Err String
  GetTLSConfig : Option String → Except Err String
  NewMigrationSink : MigrationSinkArgs → Except Err Sink
  OperationCreate : Operation → Option Err

/-- The name `fmt.Sprintf("root%d", i)`. -/
def sprintfRoot (i : Nat) : String :=
  "root" ++ Nat.repr i

/-- The probe loop `for i := 0; i < 100; i++` (lines 224-231): `n` is the number of
iterations left, `i` the loop counter. Leaving the loop, by `break` or because `i` reached
100, yields the current `rootDevName`. The test `args.Devices[rootDevName] == nil` is "the
name is not a key": `NewDevices` stores a non-nil device under every key. -/
def probeRootDevName (devices : Devices) : Nat → Nat → String → String
  | 0, _, rootDevName => rootDevName
  | n + 1, i, rootDevName =>
    if lookupKey devices rootDevName = none then rootDevName
    else probeRootDevName devices n (i + 1) (sprintfRoot i)

/-- The device synthesized for the root disk (lines 214-217). -/
def rootDev (storagePool : String) : Device :=
  [("type", "disk"), ("path", "/"), ("pool", storagePool)]

/-- Lines 212-236: give the instance a local root disk device with a pool property, or set
the pool on the local root disk device that lacks one. `args.Devices` is never nil here, and
line 235 writes into the device stored under the key that `GetRootDiskDevice` returned for
the request devices, of which `args.Devices` is a copy. -/
def setRootDiskPool (devices : Devices) (found : FoundPool) : Devices :=
  if found.localRootDiskDeviceKey = "" ∧ found.storagePoolProfile = "" then
    -- Make sure that we do not overwrite a device the user is currently using under the
    -- name "root".
    setKey devices (probeRootDevName devices 100 0 "root") (rootDev found.storagePool)
  else if found.localRootDiskDeviceKey ≠ "" ∧ prop found.localRootDiskDevice "pool" = "" then
    setKey devices found.localRootDiskDeviceKey
      (setKey ((lookupKey devices found.localRootDiskDeviceKey).getD []) "pool"
        found.storagePool)
  else devices

/-- Lines 162-165: `req.Profiles` is set to `["default"]` when it is nil. -/
def prefillProfiles (req : InstancesPost) : InstancesPost :=
  match req.Profiles with
  | none => { req with Profiles := some ["default"] }
  | some _ => req

/-- What the validation part of `createFromMigration` hands on: the creation arguments, the
resolved pool and the request as it stands (profiles pre-filled, devices as the resolver left
them). -/
structure MigrationPlan where
  args : InstanceArgs
  storagePool : String
  req : InstancesPost
  deriving DecidableEq, Repr

/-- Lines 150-236 of `createFromMigration`: validation, creation arguments, pool resolution
and the root disk device. `deviceConfig.NewDevices` copies the request devices, so
`args.Devices` starts from their value before the resolver runs. -/
def migrationPlan (w : MigrationCalls) (project : String) (req : InstancesPost) :
    Except Response MigrationPlan :=
  -- Validate migration mode.
  if req.Source.Mode ≠ "pull" ∧ req.Source.Mode ≠ "push" then
    .error (.NotImplemented (.msg ("Mode '" ++ req.Source.Mode ++ "' not implemented")))
  else
    -- Parse the architecture name
    match w.ArchitectureId req.Architecture with
    | .error err => .error (.BadRequest err)
    | .ok architecture =>
      -- Pre-fill default profile.
      let req1 := prefillProfiles req
      let reqProfiles := req1.Profiles.getD []
      match w.instancetypeNew req.InstanceKind with
      | .error err => .error (.BadRequest err)
      | .ok dbType =>
        if dbType ≠ .Container then .error (.BadRequest (.msg "Instance type not container"))
        else
          -- Early profile validation.
          match w.Profiles project with
          | .error err => .error (.InternalError err)
          | .ok profiles =>
            match reqProfiles.find? (fun profile => !StringInSlice profile profiles) with
            | some profile =>
              .error (.BadRequest (.msg ("Requested profile '" ++ profile ++ "' doesn't exist")))
            | none =>
              match containerFindStoragePool w.pools project req1 with
              | (found, devices) =>
                match found.resp with
                | some resp => .error resp
                | none =>
                  if found.storagePool = "" then
                    .error (.BadRequest
                      (.msg "Can't find a storage pool for the instance to use"))
                  else
                    .ok {
                      args := {
                        Project := project
                        Architecture := architecture
                        BaseImage := req.Source.BaseImage
                        Config := req.Config
                        InstType := dbType
                        Devices := setRootDiskPool (req.Devices.getD []) found
                        Description := req.Description
                        Ephemeral := req.Ephemeral
                        Name := req.Name
                        Profiles := reqProfiles
                        Stateful := req.Stateful }
                      storagePool := found.storagePool
                      req := { req1 with Devices := devices } }

/-- Lines 240-249, the early check for refresh: whether refresh stays in effect, and
the instance loaded for it. -/
def earlyRefresh (w : MigrationCalls) (project : String) (req : InstancesPost) :
    Except Response (Bool × Option Instance) :=
  if req.Source.Refresh then
    -- Check if the instance exists.
    match w.LoadByProjectAndName project req.Name with
    | .error _ => .ok (false, none)
    | .ok inst =>
      if inst.IsRunning then .error (.BadRequest (.msg "Cannot refresh a running container"))
      else .ok (true, some inst)
  else .ok (false, none)

/-- Lines 260-337, taken when refresh is not in effect: the instance record is created by
one of the three constructors, or the request is answered with an error. `instanceLoad`
stands for loading the future instance and cloning its expanded devices (lines 299-304). -/
def createRecord (w : MigrationCalls) (req : InstancesPost) (args : InstanceArgs)
    (storagePool : String) : Except Response Instance :=
  -- Check if we can load new storage layer for pool driver type.
  match w.GetPoolByName storagePool with
  | some .ErrUnknownDriver =>
    match w.ImageGet args.Project req.Source.BaseImage with
    | some _ =>
      match w.instanceCreateAsEmpty args with
      | .error err => .error (.InternalError err)
      | .ok inst => .ok inst
    | none =>
      -- Retrieve the future storage pool.
      match w.instanceLoad args with
      | .error err => .error (.InternalError err)
      | .ok expandedDevices =>
        match w.pools.GetRootDiskDevice expandedDevices with
        | (_, _, some err) => .error (.InternalError err)
        | (_, rootDiskDevice, none) =>
          if prop rootDiskDevice "pool" = "" then
            .error (.BadRequest
              (.msg "The container's root device is missing the pool property"))
          else
            match w.storagePoolInit (prop rootDiskDevice "pool") with
            | .error err => .error (.InternalError err)
            | .ok migrationType =>
              if migrationType = .RSYNC then
                match w.instanceCreateFromImage args req.Source.BaseImage with
                | .error err => .error (.InternalError err)
                | .ok inst => .ok inst
              else
                match w.instanceCreateAsEmpty args with
                | .error err => .error (.InternalError err)
                | .ok inst => .ok inst
  | some err => .error (.InternalError err)
  | none =>
    -- Create the instance DB records only and let the storage layer populate the storage
    -- devices.
    match w.instanceCreateInternal args with
    | .error err => .error (.InternalError err)
    | .ok inst => .ok inst

/-- Lines 339-350: the certificate of the source, when the request carries one. -/
def sourceCertificate (w : MigrationCalls) (req : InstancesPost) :
    Except Response (Option String) :=
  if req.Source.Certificate ≠ "" then
    match w.pemDecode req.Source.Certificate with
    | none => .error (.InternalError (.msg "Invalid certificate"))
    | some certBlock =>
      match w.ParseCertificate certBlock with
      | .error err => .error (.InternalError err)
      | .ok cert => .ok (some cert)
  else .ok none

/-- Lines 339-378: certificate, TLS configuration and the migration sink. -/
def newSink (w : MigrationCalls) (req : InstancesPost) (refresh : Bool)
    (inst : Option Instance) : Except Response Sink :=
  match sourceCertificate w req with
  | .error r => .error r
  | .ok cert =>
    match w.GetTLSConfig cert with
    | .error err => .error (.InternalError err)
    | .ok _ =>
      match w.NewMigrationSink {
          Url := req.Source.Operation
          Instance := inst
          Secrets := req.Source.Websockets
          Push := decide (req.Source.Mode = "push")
          Live := req.Source.Live
          InstanceOnly := req.Source.InstanceOnly || req.Source.ContainerOnly
          Refresh := refresh } with
      | .error err => .error (.InternalError err)
      | .ok sink => .ok sink

/-- The operation `createFromMigration` registers (lines 403-418). -/
def migrationOperation (req : InstancesPost) (sink : Sink) : Operation :=
  let resources := [("instances", [req.Name]), ("containers", [req.Name])]
  if req.Source.Mode = "push" then
    { opClass := .Websocket, resources := resources, metadata := some sink.Metadata,
      connect := true }
  else
    { opClass := .Task, resources := resources, metadata := none, connect := false }

/-- The state of `createFromMigration` at a return statement below line 251: the response,
the variables the deferred function reads (`revert`, `inst`), and the effects so far. -/
structure MigrationExit where
  resp : Response
  revert : Bool
  inst : Option Instance
  events : List Event
  deriving DecidableEq, Repr

/-- Lines 258-421 of `createFromMigration`, up to the return statement taken. -/
def migrationBody (w : MigrationCalls) (plan : MigrationPlan) (refresh : Bool)
    (inst0 : Option Instance) : MigrationExit :=
  let created : Except Response (Option Instance × List Event) :=
    if refresh = false then
      match createRecord w plan.req plan.args plan.storagePool with
      | .error r => .error r
      | .ok inst => .ok (some inst, [Event.createInstance inst plan.args])
    else .ok (inst0, [])
  match created with
  | .error r => ⟨r, true, none, []⟩
  | .ok (inst, events) =>
    match newSink w plan.req refresh inst with
    | .error r => ⟨r, true, inst, events⟩
    | .ok sink =>
      match w.OperationCreate (migrationOperation plan.req sink) with
      | some err => ⟨.InternalError err, true, inst, events⟩
      | none =>
        ⟨.OperationResponse (migrationOperation plan.req sink), false, inst,
          events ++ [Event.createOperation (migrationOperation plan.req sink)]⟩

/-- The deferred function of lines 252-256, run at every return below it. -/
def deferredRevert (refresh : Bool) (e : MigrationExit) : List Event :=
  match e.inst with
  | some inst => if e.revert ∧ refresh = false then [Event.deleteInstance inst] else []
  | none => []

/-- The function `createFromMigration(d, project, req)`: its response and its effects. -/
def createFromMigration (w : MigrationCalls) (project : String) (req : InstancesPost) :
    Response × List Event :=
  match migrationPlan w project req with
  | .error r => (r, [])
  | .ok plan =>
    match earlyRefresh w project plan.req with
    | .error r => (r, [])
    | .ok (refresh, inst0) =>
      let e := migrationBody w plan refresh inst0
      (e.resp, e.events ++ deferredRevert refresh e)

/-- What the work function `run` captures when `createFromMigration` registers its
operation: the value of `req.Source.Refresh` after the early check, and `inst`. -/
def migrationCaptured (w : MigrationCalls) (project : String) (req : InstancesPost) :
    Option (Bool × Option Instance) :=
  match migrationPlan w project req with
  | .error _ => none
  | .ok plan =>
    match earlyRefresh w project plan.req with
    | .error _ => none
    | .ok (refresh, inst0) =>
      if (migrationBody w plan refresh inst0).revert = false then
        some (refresh, (migrationBody w plan refresh inst0).inst)
      else none

/-- The work function `run` of `createFromMigration` (lines 380-401), given what it
captures (`req.Source.Refresh`, `inst`) and the answers of `sink.Do` and of
`inst.DeferTemplateApply("copy")`: its error and its effects. -/
def migrationRun (refresh : Bool) (inst : Option Instance) (sinkDo : Option Err)
    (deferTemplateApply : String → Option Err) : Option Err × List Event :=
  let body : Option Err × Bool :=
    -- And finally run the migration.
    match sinkDo with
    | some err => (some (.msg ("Error transferring container data: " ++ err.Error)), true)
    | none =>
      match deferTemplateApply "copy" with
      | some err => (some err, true)
      | none => (none, false)
  match body with
  | (err, opRevert) =>
    (err, match inst with
      | some i => if opRevert ∧ refresh = false then [Event.deleteInstance i] else []
      | none => [])

/-! ## `createFromCopy`: config and devices override -/

/-- The test of line 492 that makes the copy skip a source config key. -/
def skipVolatile (key : String) : Bool :=
  decide (key.length > 8) && decide (goSlice key 0 8 = "volatile") &&
    !StringInSlice (goSliceFrom key 9) ["base_image", "last_state.idmap"]

/-- The loop of lines 491-504 over the source config, from the request config. -/
def configOverrideLoop : Config → Config → Config
  | [], reqConfig => reqConfig
  | (key, value) :: rest, reqConfig =>
    if skipVolatile key = true then configOverrideLoop rest reqConfig
    else if (lookupKey reqConfig key).isSome then configOverrideLoop rest reqConfig
    else configOverrideLoop rest (setKey reqConfig key value)

/-- Lines 485-504, the config override: `req.Config` after the merge. -/
def configOverride (sourceConfig : Config) (reqConfig : Option Config) : Config :=
  configOverrideLoop sourceConfig (reqConfig.getD [])

/-- The loop of lines 513-520 over the source devices, from the request devices. -/
def devicesOverrideLoop : Devices → Devices → Devices
  | [], reqDevices => reqDevices
  | (key, value) :: rest, reqDevices =>
    if (lookupKey reqDevices key).isSome then devicesOverrideLoop rest reqDevices
    else devicesOverrideLoop rest (setKey reqDevices key value)

/-- Lines 506-520, the devices override: `req.Devices` after the merge. -/
def devicesOverride (sourceDevices : Devices) (reqDevices : Option Devices) : Devices :=
  devicesOverrideLoop sourceDevices (reqDevices.getD [])

/-! ## Vocabulary of the statements -/

/-- The condition of the claim on the copy route: clustering is enabled, the source is on
another member, and the pools differ or the source pool's driver is not `ceph`. -/
def copyNeedsMigration (clustered : Bool) (serverName location sourcePool destPool
    driver : String) : Prop :=
  clustered = true ∧ serverName ≠ location ∧ (sourcePool ≠ destPool ∨ driver ≠ "ceph")

/-- A profile defines a root-disk device with a non-empty pool (the test of line 914). -/
def definesRootPool (w : PoolLookups) (p : Profile) : Prop :=
  (w.GetRootDiskDevice p.Devices).1 ≠ "" ∧ prop (w.GetRootDiskDevice p.Devices).2.1 "pool" ≠ ""

/-- The request's own root-disk device gives no usable pool: there is no such device, or
it has no pool, or the pool-existence lookup of its pool reports "no such object". -/
def noLocalPool (w : PoolLookups) (req : InstancesPost) : Prop :=
  (w.GetRootDiskDevice (req.Devices.getD [])).1 = "" ∨
  prop (w.GetRootDiskDevice (req.Devices.getD [])).2.1 "pool" = "" ∨
  isNoSuchObject
    (w.StoragePoolGetID (prop (w.GetRootDiskDevice (req.Devices.getD [])).2.1 "pool")) = true

/-- A cluster given by its storage pools and its profiles, with the root-disk lookup of the
spec: a pool exists when it is listed, a profile loads when it is defined, and listing the
pools of a cluster without pools reports "no such object". -/
def clusterOf (pools : List String) (profiles : List (String × Profile)) : PoolLookups where
  GetRootDiskDevice := GetRootDiskDevice
  StoragePoolGetID := fun p => if p ∈ pools then .ok 1 else .error .ErrNoSuchObject
  ProfileGet := fun _ name =>
    match lookupKey profiles name with
    | some p => .ok p
    | none => .error .ErrNoSuchObject
  StoragePools := if pools = [] then .error .ErrNoSuchObject else .ok pools

/-- What the code relies on from `shared.GetRootDiskDevice`: a non-empty key is a key of
the given device set, returned with the device stored under it, and that device has path
`/`. -/
def RootDiskContract (grd : Devices → String × Device × Option Err) : Prop :=
  ∀ devices k d e, grd devices = (k, d, e) → k ≠ "" →
    lookupKey devices k = some d ∧ prop d "path" = "/"

/-- A device set contains a root-disk device (path `/`) whose `pool` is non-empty. -/
def hasRootPool (devices : Devices) : Prop :=
  ∃ k d, lookupKey devices k = some d ∧ prop d "path" = "/" ∧ prop d "pool" ≠ ""

/-- Collaborators of `createFromMigration` that all succeed, over the given pool lookups:
every profile of the list exists, the storage layer loads the pool, the instance record is
created under the requested name, and the sink publishes no secrets. -/
def callsOf (pools : PoolLookups) (profiles : List String) : MigrationCalls where
  pools := pools
  ArchitectureId := fun _ => .ok 2
  instancetypeNew := fun t => if t = "virtual-machine" then .ok .VM else .ok .Container
  Profiles := fun _ => .ok profiles
  LoadByProjectAndName := fun _ _ => .error .ErrNoSuchObject
  GetPoolByName := fun _ => none
  instanceCreateInternal := fun args => .ok ⟨args.Name, false⟩
  ImageGet := fun _ _ => some .ErrNoSuchObject
  instanceCreateAsEmpty := fun args => .ok ⟨args.Name, false⟩
  instanceLoad := fun args => .ok args.Devices
  storagePoolInit := fun _ => .ok .RSYNC
  instanceCreateFromImage := fun args _ => .ok ⟨args.Name, false⟩
  pemDecode := fun c => if c = "bad" then none else some c
  ParseCertificate := fun b => .ok b
  GetTLSConfig := fun _ => .ok "tls"
  NewMigrationSink := fun _ => .ok ⟨[]⟩
  OperationCreate := fun _ => none

/-- A network device, as a user may define it under any name. -/
def nicDevice : Device :=
  [("type", "nic"), ("nictype", "bridged"), ("parent", "lxdbr0")]

/-- A device set that defines `root`, `root0`, ..., `root99`, none of them a root disk. -/
def crowdedDevices : Devices :=
  ("root", nicDevice) :: (List.range 100).map (fun i => (sprintfRoot i, nicDevice))

/-- A profile whose only device is a root disk on the given pool. -/
def rootProfile (pool : String) : Profile :=
  ⟨[("root", [("type", "disk"), ("path", "/"), ("pool", pool)])]⟩

/-! ## `createFromCopy` and `clusterCopyContainerInternal` -/

/-- The call `errors.Wrap(err, context)`: an `Err` stands for the cause of an error
(`errors.Cause`), which wrapping keeps. -/
def errorsWrap (err : Err) (_context : String) : Err :=
  err

/-- The source instance of a copy, as far as `createFromCopy` and
`clusterCopyContainerInternal` read it through `instance.Instance`. -/
structure SourceInstance where
  Name : String
  Project : String
  Location : String
  InstType : InstanceType
  Architecture : Nat
  IsRunning : Bool
  ExpandedDevices : Devices
  LocalConfig : Config
  LocalDevices : Devices
  Profiles : List String
  deriving DecidableEq, Repr

/-- Collaborators of `createFromCopy` and `clusterCopyContainerInternal`, besides those of
`createFromMigration`: loading an instance, `cluster.Enabled`, `tx.NodeName`,
`d.cluster.StoragePoolGet` (the driver of the pool), `tx.ContainerNodeAddress`,
`cluster.Connect`, the two migration calls of the cluster client, the public key of the
network certificate, and `shared.IsSnapshot` / `shared.InstanceGetParentAndSnapshotName`. -/
structure CopyCalls where
  migration : MigrationCalls
  LoadByProjectAndName : String → String → Except Err SourceInstance
  Enabled : Except Err Bool
  NodeName : Except Err String
  StoragePoolGet : String → Except Err String
  ContainerNodeAddress : String → String → InstanceType → Except Err String
  Connect : String → Option Err
  MigrateInstanceSnapshot : String → String → Bool → String → Except Err RemoteOperation
  MigrateInstance : String → Bool → Bool → String → Except Err RemoteOperation
  NetworkCertPublicKey : String
  IsSnapshot : String → Bool
  InstanceGetParentAndSnapshotName : String → String × String

/-- Where `createFromCopy` goes after lines 440-483: an error response, the migration path
or the local copy path, with the request as these lines leave it. -/
inductive CopyRoute where
  | reject (resp : Response)
  | migrate (req : InstancesPost)
  | copy (req : InstancesPost)
  deriving DecidableEq, Repr

/-- Lines 440-483 of `createFromCopy`: check if we need to redirect to migration. -/
def copyRoute (w : CopyCalls) (project : String) (req : InstancesPost)
    (source : SourceInstance) : CopyRoute :=
  match w.Enabled with
  | .error err => .reject (.SmartError err)
  | .ok clustered =>
    -- When clustered, use the node name, otherwise use the hostname.
    if clustered = true then
      match w.NodeName with
      | .error err => .reject (.SmartError err)
      | .ok serverName =>
        if serverName ≠ source.Location then
          -- Check if we are copying from a ceph-based container.
          let sourcePoolName :=
            prop (w.migration.pools.GetRootDiskDevice source.ExpandedDevices).2.1 "pool"
          match containerFindStoragePool w.migration.pools project req with
          | (found, devices) =>
            match found.resp with
            | some resp => .reject resp
            | none =>
              if sourcePoolName ≠ found.storagePool then
                -- Redirect to migration
                .migrate { req with Devices := devices }
              else
                match w.StoragePoolGet sourcePoolName with
                | .error err =>
                  .reject (.SmartError (errorsWrap err "Failed to fetch container's pool info"))
                | .ok driver =>
                  if driver ≠ "ceph" then
                    -- Redirect to migration
                    .migrate { req with Devices := devices }
                  else .copy { req with Devices := devices }
        else .copy req
    else .copy req

/-- Lines 1013-1020 of `clusterCopyContainerInternal`: reset the source for a migration. -/
def migrationRequest (req : InstancesPost) (certificate nodeAddress : String)
    (opAPI : RemoteOperation) : InstancesPost :=
  { req with
    Source := { req.Source with
      SourceType := "migration"
      Certificate := certificate
      Mode := "pull"
      Operation := "https://" ++ nodeAddress ++ "/1.0/operations/" ++ opAPI.ID
      Websockets := opAPI.Metadata
      Source := ""
      Project := "" } }

/-- The function `clusterCopyContainerInternal(d, source, project, req)`: its response and
its effects on the local instance store and operation registry. -/
def clusterCopyContainerInternal (w : CopyCalls) (source : SourceInstance)
    (project : String) (req : InstancesPost) : Response × List Event :=
  -- Locate the source of the container
  match w.ContainerNodeAddress project req.Source.Source source.InstType with
  | .error err =>
    (.SmartError (errorsWrap err "Failed to get address of container's node"), [])
  | .ok nodeAddress =>
    if nodeAddress = "" then
      (.BadRequest (.msg "The container source is currently offline"), [])
    else
      -- Connect to the container source
      match w.Connect nodeAddress with
      | some err => (.SmartError err, [])
      | none =>
        -- Setup websockets
        let migrate : Except Err RemoteOperation :=
          if w.IsSnapshot req.Source.Source = true then
            w.MigrateInstanceSnapshot (w.InstanceGetParentAndSnapshotName req.Source.Source).1
              (w.InstanceGetParentAndSnapshotName req.Source.Source).2 req.Source.Live req.Name
          else
            w.MigrateInstance req.Source.Source req.Source.Live
              (req.Source.InstanceOnly || req.Source.ContainerOnly) req.Name
        match migrate with
        | .error err => (.SmartError err, [])
        | .ok opAPI =>
          -- Run the migration
          createFromMigration w.migration project
            (migrationRequest req w.NetworkCertPublicKey nodeAddress opAPI)

/-- Lines 485-590 of `createFromCopy`, the local copy path: checks and the registration of
the copy operation. The config, devices and profiles overrides of lines 485-525 only feed
the creation arguments of the work function, which are `copyArgs`. -/
def copyLocal (w : CopyCalls) (project : String) (req : InstancesPost)
    (source : SourceInstance) : Response × List Event :=
  if req.Stateful = true ∧ (w.InstanceGetParentAndSnapshotName source.Name).1 ≠ req.Name then
    (.BadRequest (.msg ("Copying stateful containers requires that source \"" ++
      (w.InstanceGetParentAndSnapshotName source.Name).1 ++ "\" and target \"" ++ req.Name ++
      "\" name be identical")), [])
  else
    -- Early check for refresh
    let running : Bool :=
      if req.Source.Refresh = true then
        match w.LoadByProjectAndName project req.Name with
        | .error _ => false
        | .ok c => c.IsRunning
      else false
    if running = true then (.BadRequest (.msg "Cannot refresh a running container"), [])
    else
      match w.migration.instancetypeNew req.InstanceKind with
      | .error err => (.BadRequest err, [])
      | .ok dbType =>
        if dbType ≠ .Any ∧ dbType ≠ source.InstType then
          (.BadRequest (.msg
            "Instance type should not be specified or should match source type"), [])
        else
          let op : Operation :=
            { opClass := .Task
              resources := [("instances", [req.Name, req.Source.Source]),
                ("containers", [req.Name, req.Source.Source])]
              metadata := none
              connect := false }
          match w.migration.OperationCreate op with
          | some err => (.InternalError err, [])
          | none => (.OperationResponse op, [Event.createOperation op])

/-- The creation arguments that the work function of `copyLocal` hands to
`instanceCreateAsCopy` (lines 557-569). -/
def copyArgs (project : String) (req : InstancesPost) (source : SourceInstance) :
    InstanceArgs :=
  { Project := project
    Architecture := source.Architecture
    BaseImage := req.Source.BaseImage
    Config := some (configOverride source.LocalConfig req.Config)
    InstType := source.InstType
    Devices := devicesOverride source.LocalDevices req.Devices
    Description := req.Description
    Ephemeral := req.Ephemeral
    Name := req.Name
    Profiles := match req.Profiles with
      | none => source.Profiles
      | some ps => ps
    Stateful := req.Stateful }

/-- The work function `run` of the local copy (lines 571-578), over `instanceCreateAsCopy`,
the request, the creation arguments and the source it captures, and `req.Source.Refresh` as
the early check left it: the error it returns. -/
def copyRun
    (instanceCreateAsCopy : InstanceArgs → SourceInstance → Bool → Bool → Except Err Instance)
    (req : InstancesPost) (args : InstanceArgs) (source : SourceInstance) (refresh : Bool) :
    Option Err :=
  let instanceOnly := req.Source.InstanceOnly || req.Source.ContainerOnly
  match instanceCreateAsCopy args source instanceOnly refresh with
  | .error err => some err
  | .ok _ => none

/-- The function `createFromCopy(d, project, req)`: its response and its effects. -/
def createFromCopy (w : CopyCalls) (project : String) (req : InstancesPost) :
    Response × List Event :=
  if req.Source.Source = "" then
    (.BadRequest (.msg "must specify a source container"), [])
  else
    let sourceProject := if req.Source.Project = "" then project else req.Source.Project
    match w.LoadByProjectAndName sourceProject req.Source.Source with
    | .error err => (.SmartError err, [])
    | .ok source =>
      match copyRoute w project req source with
      | .reject resp => (resp, [])
      | .migrate req1 => clusterCopyContainerInternal w source project req1
      | .copy req1 => copyLocal w project req1 source

/-- What the work function `run` of the local copy path captures when `createFromCopy`
registers its operation (lines 557-578): the creation arguments `args`, built from the
request as the overrides of lines 485-525 leave it, and the source. It is `none` where
`createFromCopy` registers no copy operation: on an error, and on the migration path, which
returns at lines 467-481 before the overrides. -/
def copyCaptured (w : CopyCalls) (project : String) (req : InstancesPost) :
    Option (InstanceArgs × SourceInstance) :=
  if req.Source.Source = "" then none
  else
    let sourceProject := if req.Source.Project = "" then project else req.Source.Project
    match w.LoadByProjectAndName sourceProject req.Source.Source with
    | .error _ => none
    | .ok source =>
      match copyRoute w project req source with
      | .reject _ => none
      | .migrate _ => none
      | .copy req1 =>
        match (copyLocal w project req1 source).1 with
        | .OperationResponse _ => some (copyArgs project req1 source, source)
        | _ => none

/-- Collaborators of a copy in a cluster whose local member is `serverName`, over the given
pool lookups and pool drivers: the source is found where the table of instances says, every
member is reachable, and the remote migration answers with the given operation. -/
def copyCallsOf (pools : PoolLookups) (drivers : List (String × String))
    (serverName : String) (instances : List (String × SourceInstance))
    (opAPI : RemoteOperation) : CopyCalls where
  migration := callsOf pools ["default"]
  LoadByProjectAndName := fun _ name =>
    match lookupKey instances name with
    | some inst => .ok inst
    | none => .error .ErrNoSuchObject
  Enabled := .ok true
  NodeName := .ok serverName
  StoragePoolGet := fun pool =>
    match lookupKey drivers pool with
    | some driver => .ok driver
    | none => .error .ErrNoSuchObject
  ContainerNodeAddress := fun _ name _ =>
    match lookupKey instances name with
    | some inst => .ok (inst.Location ++ ":8443")
    | none => .error .ErrNoSuchObject
  Connect := fun _ => none
  MigrateInstanceSnapshot := fun _ _ _ _ => .ok opAPI
  MigrateInstance := fun _ _ _ _ => .ok opAPI
  NetworkCertPublicKey := "PUBLIC KEY"
  IsSnapshot := fun name => name.data.contains '/'
  InstanceGetParentAndSnapshotName := fun name => (name, "")

/-- A stopped container of project `default` on the given member, with a root disk on the
given pool. -/
def containerOn (name location pool : String) : SourceInstance :=
  { Name := name, Project := "default", Location := location, InstType := .Container,
    Architecture := 2, IsRunning := false,
    ExpandedDevices := [("root", [("type", "disk"), ("path", "/"), ("pool", pool)])],
    LocalConfig := [("volatile.base_image", "8f3a"), ("limits.cpu", "2")],
    LocalDevices := [], Profiles := ["default"] }

/-! ## `createFromImage` and `createFromNone` -/

/-- Collaborators of `createFromImage` and `createFromNone`: `instance.ResolveImage`,
`instancetype.New`, `osarch.ArchitectureId` and `operations.OperationCreate`. -/
structure ImageCalls where
  ResolveImage : String → InstanceSource → Except Err String
  instancetypeNew : String → Except Err InstanceType
  ArchitectureId : String → Except Err Nat
  OperationCreate : Operation → Option Err

/-- The operation registered by `createFromImage` and `createFromNone`. -/
def createOperation (req : InstancesPost) : Operation :=
  { opClass := .Task
    resources := [("instances", [req.Name]), ("containers", [req.Name])]
    metadata := none
    connect := false }

/-- The function `createFromImage(d, project, req)`: its response and its effects. The
image is downloaded and the instance created by the work function of the operation. -/
def createFromImage (w : ImageCalls) (project : String) (req : InstancesPost) :
    Response × List Event :=
  match w.ResolveImage project req.Source with
  | .error err => (.BadRequest err, [])
  | .ok _ =>
    match w.instancetypeNew req.InstanceKind with
    | .error err => (.BadRequest err, [])
    | .ok _ =>
      match w.OperationCreate (createOperation req) with
      | some err => (.InternalError err, [])
      | none => (.OperationResponse (createOperation req),
          [Event.createOperation (createOperation req)])

/-- The function `createFromNone(d, project, req)`: its response and its effects. -/
def createFromNone (w : ImageCalls) (_project : String) (req : InstancesPost) :
    Response × List Event :=
  match w.instancetypeNew req.InstanceKind with
  | .error err => (.BadRequest err, [])
  | .ok _ =>
    let architecture : Except Response Nat :=
      if req.Architecture ≠ "" then
        match w.ArchitectureId req.Architecture with
        | .error err => .error (.InternalError err)
        | .ok a => .ok a
      else .ok 0
    match architecture with
    | .error r => (r, [])
    | .ok _ =>
      match w.OperationCreate (createOperation req) with
      | some err => (.InternalError err, [])
      | none => (.OperationResponse (createOperation req),
          [Event.createOperation (createOperation req)])

/-- The part of `api.Image` the work function of `createFromImage` reads. -/
structure ImageInfo where
  Architecture : String
  Fingerprint : String
  deriving DecidableEq, Repr

/-- Collaborators of the work function of `createFromImage`: `cluster.ConfigGetBool`,
`d.ImageDownload` (for the server, the protocol, the certificate, the secret, the hash, the
image type and the auto-update flag), `d.cluster.ImageGet`, `osarch.ArchitectureId` and
`instanceCreateFromImage` (its error). -/
structure ImageRunCalls where
  ConfigGetBool : String → Except Err Bool
  ImageDownload : String → String → String → String → String → String → Bool →
    Except Err ImageInfo
  ImageGet : String → String → Except Err ImageInfo
  ArchitectureId : String → Except Err Nat
  instanceCreateFromImage : InstanceArgs → String → Option Err

/-- The work function `run` of `createFromImage` (lines 49-94), given the hash and the
instance type resolved before it was registered: the error it returns. -/
def imageRun (w : ImageRunCalls) (project : String) (req : InstancesPost) (hash : String)
    (dbType : InstanceType) : Option Err :=
  let info : Except Err ImageInfo :=
    if req.Source.Server ≠ "" then
      match w.ConfigGetBool "images.auto_update_cached" with
      | .error err => .error err
      | .ok autoUpdate =>
        -- Detect image type based on instance type requested.
        let imgType := if req.InstanceKind = "virtual-machine" then "virtual-machine"
          else "container"
        w.ImageDownload req.Source.Server req.Source.Protocol req.Source.Certificate
          req.Source.Secret hash imgType autoUpdate
    else w.ImageGet project hash
  match info with
  | .error err => some err
  | .ok info =>
    match w.ArchitectureId info.Architecture with
    | .error err => some err
    | .ok architecture =>
      w.instanceCreateFromImage
        { Project := project
          Architecture := architecture
          BaseImage := ""
          Config := req.Config
          InstType := dbType
          Devices := req.Devices.getD []
          Description := req.Description
          Ephemeral := req.Ephemeral
          Name := req.Name
          Profiles := req.Profiles.getD []
          Stateful := false }
        info.Fingerprint

/-- The work function `run` of `createFromNone` (lines 133-136), over
`instanceCreateAsEmpty` and the creation arguments it captures: the error it returns. -/
def noneRun (instanceCreateAsEmpty : InstanceArgs → Except Err Instance)
    (args : InstanceArgs) : Option Err :=
  match instanceCreateAsEmpty args with
  | .error err => some err
  | .ok _ => none

/-! ## `createFromBackup` -/

/-- The backup information `backup.Info`, as far as `createFromBackup` reads it. -/
structure BackupInfo where
  Name : String
  Project : String
  Pool : String
  HasBinaryFormat : Bool
  deriving DecidableEq, Repr

/-- Collaborators of `createFromBackup`: the temporary files and the upload
(`ioutil.TempFile`, `io.Copy`), `shared.DetectCompressionFile` (the algorithm it reports),
the decompression command, `backup.GetInfo`, `StoragePoolGet` (its error), `ProfileGet`,
`shared.GetRootDiskDevice` and `operations.OperationCreate`. -/
structure BackupCalls where
  TempFile : String → Option Err
  Copy : Option Err
  DetectCompressionFile : Except Err String
  RunCommandWithFds : Option Err
  GetInfo : Except Err BackupInfo
  StoragePoolGet : String → Option Err
  ProfileGet : String → String → Except Err Profile
  GetRootDiskDevice : Devices → String × Device × Option Err
  OperationCreate : Operation → Option Err

/-- Lines 592-639 of `createFromBackup`: the upload is stored in a temporary file, and a
squashfs upload is converted to a tarball. -/
def backupUpload (w : BackupCalls) : Option Response :=
  -- Create temporary file to store uploaded backup data.
  match w.TempFile "lxd_backup_" with
  | some err => some (.InternalError err)
  | none =>
    -- Stream uploaded backup data into temporary file.
    match w.Copy with
    | some err => some (.InternalError err)
    | none =>
      -- Detect squashfs compression and convert to tarball.
      match w.DetectCompressionFile with
      | .error err => some (.InternalError err)
      | .ok algo =>
        if algo = ".squashfs" then
          -- Create temporary file to store the decompressed tarball in.
          match w.TempFile "lxd_decompress_" with
          | some err => some (.InternalError err)
          | none =>
            -- Decompress to tarData temporary file.
            match w.RunCommandWithFds with
            | some err => some (.InternalError err)
            | none => none
        else none

/-- Lines 648-680 of `createFromBackup`: the project and the pool of the backup
information, or the error response. `errors.Cause(err) == db.ErrNoSuchObject` is the test
that the cause is that error. -/
def backupPool (w : BackupCalls) (info : BackupInfo) (project pool : String) :
    Except Response BackupInfo :=
  let bInfo : BackupInfo := { info with Project := project }
  -- Override pool.
  let bInfo : BackupInfo := if pool ≠ "" then { bInfo with Pool := pool } else bInfo
  -- Check storage pool exists.
  match w.StoragePoolGet bInfo.Pool with
  | some .ErrNoSuchObject =>
    -- The storage pool doesn't exist. If backup is in binary format (so we cannot alter
    -- the backup.yaml) or the pool has been specified directly from the user restoring
    -- the backup then we cannot proceed so return an error.
    if bInfo.HasBinaryFormat = true ∨ pool ≠ "" then
      .error (.InternalError (errorsWrap .ErrNoSuchObject "Storage pool not found"))
    else
      -- Otherwise try and restore to the project's default profile pool.
      match w.ProfileGet bInfo.Project "default" with
      | .error err => .error (.InternalError (errorsWrap err "Failed to get default profile"))
      | .ok profile =>
        match w.GetRootDiskDevice profile.Devices with
        | (_, _, some err) =>
          .error (.InternalError (errorsWrap err "Failed to get root disk device"))
        | (_, v, none) =>
          -- Use the default-profile's root pool.
          .ok { bInfo with Pool := prop v "pool" }
  | some err => .error (.InternalError err)
  | none => .ok bInfo

/-- Lines 592-680 of `createFromBackup`: the backup information the work function will
receive, or the error response. -/
def backupPlan (w : BackupCalls) (project pool : String) : Except Response BackupInfo :=
  match backupUpload w with
  | some r => .error r
  | none =>
    -- Parse the backup information.
    match w.GetInfo with
    | .error err => .error (.BadRequest err)
    | .ok info => backupPool w info project pool

/-- The operation registered by `createFromBackup`. -/
def backupOperation (bInfo : BackupInfo) : Operation :=
  { opClass := .Task
    resources := [("instances", [bInfo.Name]), ("containers", [bInfo.Name])]
    metadata := none
    connect := false }

/-- The function `createFromBackup(d, project, data, pool)`: its response and its effects
on the operation registry. -/
def createFromBackup (w : BackupCalls) (project pool : String) : Response × List Event :=
  match backupPlan w project pool with
  | .error r => (r, [])
  | .ok bInfo =>
    match w.OperationCreate (backupOperation bInfo) with
    | some err => (.InternalError err, [])
    | none => (.OperationResponse (backupOperation bInfo),
        [Event.createOperation (backupOperation bInfo)])

/-- The backup information captured by the work function when `createFromBackup` registers
its operation: what the import step will be handed. -/
def backupCaptured (w : BackupCalls) (project pool : String) : Option BackupInfo :=
  match backupPlan w project pool with
  | .error _ => none
  | .ok bInfo =>
    match w.OperationCreate (backupOperation bInfo) with
    | some _ => none
    | none => some bInfo

/-- The hooks returned by `instanceCreateFromBackup`: the post hook (nil, or its answer for
the instance it is given) and whether a revert hook is returned. -/
structure BackupHooks where
  postHook : Option (Instance → Option Err)
  revertHook : Bool

/-- Collaborators of the work function of `createFromBackup`: the import step
`instanceCreateFromBackup`, `json.Marshal`, `internalImport` (the string of its response,
for a name and a project) and `instance.LoadByProjectAndName`. -/
structure BackupRunCalls where
  instanceCreateFromBackup : BackupInfo → Except Err BackupHooks
  Marshal : Option Err
  internalImport : String → String → String
  LoadByProjectAndName : String → String → Except Err Instance

/-- What the work function of `createFromBackup` does, in program order. -/
inductive BackupStep where
  | instanceCreateFromBackup (bInfo : BackupInfo)
  | internalImport (name : String)
  | postHook (inst : Instance)
  | revertHook
  | closeFile
  deriving DecidableEq, Repr

/-- Lines 702-737 of the work function: the steps after the import, with the value of
`revert` at the return statement taken. -/
def backupAfterImport (w : BackupRunCalls) (project : String) (bInfo : BackupInfo)
    (hooks : BackupHooks) : Option Err × Bool × List BackupStep :=
  match w.Marshal with
  | some err => (some (errorsWrap err "Marshal internal import request"), true, [])
  | none =>
    if w.internalImport bInfo.Name project ≠ "success" then
      (some (.msg ("Internal import request: " ++ w.internalImport bInfo.Name project)),
        true, [.internalImport bInfo.Name])
    else
      match w.LoadByProjectAndName project bInfo.Name with
      | .error err => (some (errorsWrap err "Load instance"), true,
          [.internalImport bInfo.Name])
      | .ok c =>
        -- Run the storage post hook to perform any final actions now that the instance
        -- has been created in the database.
        match hooks.postHook with
        | some hook =>
          match hook c with
          | some err => (some (errorsWrap err "Post hook"), true,
              [.internalImport bInfo.Name, .postHook c])
          | none => (none, false, [.internalImport bInfo.Name, .postHook c])
        | none => (none, false, [.internalImport bInfo.Name])

/-- The work function `run` of `createFromBackup` (lines 682-738): its error and what it
did. The deferred functions run last registered first: the revert, then closing the file. -/
def backupRun (w : BackupRunCalls) (project : String) (bInfo : BackupInfo) :
    Option Err × List BackupStep :=
  -- Dump tarball to storage.
  match w.instanceCreateFromBackup bInfo with
  | .error err =>
    (some (errorsWrap err "Create instance from backup"),
      [.instanceCreateFromBackup bInfo, .closeFile])
  | .ok hooks =>
    match backupAfterImport w project bInfo hooks with
    | (err, revert, steps) =>
      (err, [.instanceCreateFromBackup bInfo] ++ steps ++
        (if revert = true ∧ hooks.revertHook = true then [.revertHook] else []) ++
        [.closeFile])

/-! ## `containersPost` -/

/-- What `containersPost` reads from the HTTP request: the project, the `Content-Type` and
`X-LXD-pool` headers, the decoded body (or the decoding error) and the `target` query
parameter. -/
structure HttpRequest where
  project : String := "default"
  ContentType : String := ""
  PoolHeader : String := ""
  body : Except Err InstancesPost := .ok {}
  target : String := ""

/-- Collaborators of `containersPost`: `tx.NodeWithLeastContainers`, `cluster.ResolveTarget`,
`cluster.Connect`, `client.CreateInstance` (for the address connected to),
`d.cluster.StoragePools`, `tx.InstanceNames`, the names generated by
`strings.ToLower(petname.Generate(2, "-"))` in the order they are drawn,
`instanceParseType`, and `strings.Contains(name, shared.SnapshotDelimiter)`. -/
structure DispatchCalls where
  NodeWithLeastContainers : Except Err String
  ResolveTarget : String → Except Err String
  Connect : String → Option Err
  CreateInstance : String → InstancesPost → Except Err RemoteOperation
  StoragePools : Except Err (List String)
  InstanceNames : String → Except Err (List String)
  Generate : Nat → String
  instanceParseType : String → Except Err Config
  hasSnapshotDelimiter : String → Bool

/-- The five creation strategies `containersPost` hands a request to. -/
structure Strategies where
  createFromImage : String → InstancesPost → Response × List Event
  createFromNone : String → InstancesPost → Response × List Event
  createFromMigration : String → InstancesPost → Response × List Event
  createFromCopy : String → InstancesPost → Response × List Event
  createFromBackup : String → String → Response × List Event

/-- The calls `containersPost` makes, in program order. -/
inductive DispatchStep where
  | nodeWithLeastContainers
  | resolveTarget (target : String)
  | connect (address : String)
  | createInstance (address : String) (req : InstancesPost)
  | storagePools
  | instanceNames
  | generate (i : Nat)
  | instanceParseType
  | createFromImage
  | createFromNone
  | createFromMigration
  | createFromCopy
  | createFromBackup
  deriving DecidableEq, Repr

/-- What `containersPost` answers and does: its response, its own calls, and the effects of
the strategy it handed the request to. -/
structure Dispatched where
  resp : Response
  steps : List DispatchStep
  events : List Event
  deriving DecidableEq, Repr

/-- Lines 769-784: the target member, picked by `NodeWithLeastContainers` when the request
names none. -/
def pickTarget (w : DispatchCalls) (r : HttpRequest) :
    Except Response String × List DispatchStep :=
  if r.target = "" then
    -- If no target node was specified, pick the node with the least number of containers.
    match w.NodeWithLeastContainers with
    | .error err => (.error (.SmartError err), [.nodeWithLeastContainers])
    | .ok targetNode => (.ok targetNode, [.nodeWithLeastContainers])
  else (.ok r.target, [])

/-- Lines 786-810: the response returned from inside `if targetNode != ""`, or `none` when
the function goes on locally. -/
def forwardRequest (w : DispatchCalls) (project targetNode : String) (req : InstancesPost) :
    Option Response × List DispatchStep :=
  if targetNode ≠ "" then
    match w.ResolveTarget targetNode with
    | .error err => (some (.SmartError err), [.resolveTarget targetNode])
    | .ok address =>
      if address ≠ "" then
        match w.Connect address with
        | some err => (some (.SmartError err), [.resolveTarget targetNode, .connect address])
        | none =>
          match w.CreateInstance address req with
          | .error err =>
            (some (.SmartError err),
              [.resolveTarget targetNode, .connect address, .createInstance address req])
          | .ok opAPI =>
            (some (.ForwardedOperationResponse project opAPI),
              [.resolveTarget targetNode, .connect address, .createInstance address req])
      else (none, [.resolveTarget targetNode])
  else (none, [])

/-- The loop of lines 829-840: `i` is the loop counter, the first argument bounds the number
of iterations. The loop returns in its 101st iteration at the latest, so 101 iterations are
enough; the case of none left is never reached from there. -/
def generateName (gen : Nat → String) (names : List String) :
    Nat → Nat → Except Response String × List DispatchStep
  | 0, _ =>
    (.error (.InternalError (.msg "Couldn't generate a new unique name after 100 tries")), [])
  | n + 1, i =>
    if StringInSlice (gen (i + 1)) names = false then (.ok (gen (i + 1)), [.generate (i + 1)])
    else if i + 1 > 100 then
      (.error (.InternalError (.msg "Couldn't generate a new unique name after 100 tries")),
        [.generate (i + 1)])
    else
      match generateName gen names n (i + 1) with
      | (r, steps) => (r, .generate (i + 1) :: steps)

/-- The loop of lines 859-863: a key of the instance type's configuration is set where the
request's config gives the empty string for it. -/
def typeConfigLoop : Config → Config → Config
  | [], reqConfig => reqConfig
  | (k, v) :: rest, reqConfig =>
    if prop reqConfig k = "" then typeConfigLoop rest (setKey reqConfig k v)
    else typeConfigLoop rest reqConfig

/-- Lines 812-868: the local preparation of the request, up to the strategy switch. -/
def prepareRequest (w : DispatchCalls) (project : String) (req : InstancesPost) :
    Except Response InstancesPost × List DispatchStep :=
  -- If no storage pool is found, error out.
  let noPool : Bool :=
    match w.StoragePools with
    | .error _ => true
    | .ok pools => decide (pools.length = 0)
  if noPool = true then
    (.error (.BadRequest (.msg "No storage pool found. Please create a new storage pool")),
      [.storagePools])
  else
    let named : Except Response String × List DispatchStep :=
      if req.Name = "" then
        match w.InstanceNames project with
        | .error err => (.error (.SmartError err), [.instanceNames])
        | .ok names =>
          match generateName w.Generate names 101 0 with
          | (r, steps) => (r, .instanceNames :: steps)
      else (.ok req.Name, [])
    match named with
    | (.error r, steps) => (.error r, .storagePools :: steps)
    | (.ok name, steps) =>
      let devices : Devices := req.Devices.getD []
      let config : Config := req.Config.getD []
      let typed : Except Response Config × List DispatchStep :=
        if req.InstanceType ≠ "" then
          match w.instanceParseType req.InstanceType with
          | .error err => (.error (.BadRequest err), [.instanceParseType])
          | .ok conf => (.ok (typeConfigLoop conf config), [.instanceParseType])
        else (.ok config, [])
      match typed with
      | (.error r, steps1) => (.error r, .storagePools :: (steps ++ steps1))
      | (.ok config1, steps1) =>
        if w.hasSnapshotDelimiter name = true then
          (.error (.BadRequest
            (.msg "Invalid container name: '/' is reserved for snapshots")),
            .storagePools :: (steps ++ steps1))
        else
          (.ok { req with Name := name, Devices := some devices, Config := some config1 },
            .storagePools :: (steps ++ steps1))

/-- The switch of lines 870-881 on `req.Source.Type`. -/
def dispatchSource (s : Strategies) (project : String) (req : InstancesPost) :
    Response × List DispatchStep × List Event :=
  if req.Source.SourceType = "image" then
    ((s.createFromImage project req).1, [.createFromImage], (s.createFromImage project req).2)
  else if req.Source.SourceType = "none" then
    ((s.createFromNone project req).1, [.createFromNone], (s.createFromNone project req).2)
  else if req.Source.SourceType = "migration" then
    ((s.createFromMigration project req).1, [.createFromMigration],
      (s.createFromMigration project req).2)
  else if req.Source.SourceType = "copy" then
    ((s.createFromCopy project req).1, [.createFromCopy], (s.createFromCopy project req).2)
  else
    (.BadRequest (.msg ("Unknown source type " ++ req.Source.SourceType)), [], [])

/-- The function `containersPost(d, r)`. -/
def containersPost (w : DispatchCalls) (s : Strategies) (r : HttpRequest) : Dispatched :=
  -- If we're getting binary content, process separately
  if r.ContentType = "application/octet-stream" then
    ⟨(s.createFromBackup r.project r.PoolHeader).1, [.createFromBackup],
      (s.createFromBackup r.project r.PoolHeader).2⟩
  else
    -- Parse the request
    match r.body with
    | .error err => ⟨.BadRequest err, [], []⟩
    | .ok req =>
      match pickTarget w r with
      | (.error resp, steps) => ⟨resp, steps, []⟩
      | (.ok targetNode, steps) =>
        match forwardRequest w r.project targetNode req with
        | (some resp, steps1) => ⟨resp, steps ++ steps1, []⟩
        | (none, steps1) =>
          match prepareRequest w r.project req with
          | (.error resp, steps2) => ⟨resp, steps ++ steps1 ++ steps2, []⟩
          | (.ok req1, steps2) =>
            match dispatchSource s r.project req1 with
            | (resp, steps3, events) => ⟨resp, steps ++ steps1 ++ steps2 ++ steps3, events⟩

/-- The strategies of `containers_post.go`, over their collaborators. -/
def strategiesOf (image : ImageCalls) (copy : CopyCalls) (backup : BackupCalls) :
    Strategies where
  createFromImage := createFromImage image
  createFromNone := createFromNone image
  createFromMigration := createFromMigration copy.migration
  createFromCopy := createFromCopy copy
  createFromBackup := createFromBackup backup

/-- A step of `containersPost` that talks to another cluster member: opening the client or
reissuing the request there. -/
def DispatchStep.isRemote : DispatchStep → Bool
  | .connect _ => true
  | .createInstance _ _ => true
  | _ => false

/-- A step of the local handling of a request by `containersPost`: the storage-pool check,
the name generation, the instance type, and the creation strategies. -/
def DispatchStep.isLocal : DispatchStep → Bool
  | .storagePools => true
  | .instanceNames => true
  | .generate _ => true
  | .instanceParseType => true
  | .createFromImage => true
  | .createFromNone => true
  | .createFromMigration => true
  | .createFromCopy => true
  | .createFromBackup => true
  | _ => false

/-- Collaborators of `containersPost` in a cluster given by the addresses of its members
(the empty address for the local one), the member with the fewest instances, the storage
pools and the instance names in use: every member is reachable and accepts the request. -/
def dispatchCallsOf (members : List (String × String)) (least : String)
    (pools names : List String) : DispatchCalls where
  NodeWithLeastContainers := .ok least
  ResolveTarget := fun target =>
    match lookupKey members target with
    | some address => .ok address
    | none => .error .ErrNoSuchObject
  Connect := fun _ => none
  CreateInstance := fun address req => .ok ⟨"op-" ++ req.Name ++ "@" ++ address, []⟩
  StoragePools := .ok pools
  InstanceNames := fun _ => .ok names
  Generate := fun i => "pet-" ++ Nat.repr i
  instanceParseType := fun _ => .ok []
  hasSnapshotDelimiter := fun name => name.data.contains '/'

/-- Collaborators of `createFromImage` and `createFromNone` that all succeed. -/
def imageCallsOf : ImageCalls where
  ResolveImage := fun _ _ => .ok "8f3a"
  instancetypeNew := fun t => if t = "virtual-machine" then .ok .VM else .ok .Container
  ArchitectureId := fun _ => .ok 2
  OperationCreate := fun _ => none

/-- Collaborators of `createFromBackup` for an uploaded tarball with the given backup
information, in a project with the given storage pools and `default` profile. -/
def backupCallsOf (info : BackupInfo) (pools : List String) (defaultProfile : Profile) :
    BackupCalls where
  TempFile := fun _ => none
  Copy := none
  DetectCompressionFile := .ok ".tar"
  RunCommandWithFds := none
  GetInfo := .ok info
  StoragePoolGet := fun pool => if pool ∈ pools then none else some .ErrNoSuchObject
  ProfileGet := fun _ name =>
    if name = "default" then .ok defaultProfile else .error .ErrNoSuchObject
  GetRootDiskDevice := GetRootDiskDevice
  OperationCreate := fun _ => none

/-- The strategies of a single member `node1` with the pool `default`. -/
def strategiesOfNode1 : Strategies :=
  strategiesOf imageCallsOf
    (copyCallsOf (clusterOf ["default"] [("default", rootProfile "default")])
      [("default", "zfs")] "node1" [] ⟨"op-1", []⟩)
    (backupCallsOf ⟨"c1", "default", "default", false⟩ ["default"] (rootProfile "default"))

/-- The pool selected for a backup before its existence is checked: the caller's when it is
non-empty, the manifest's otherwise. -/
def selectedPool (info : BackupInfo) (pool : String) : String :=
  if pool ≠ "" then pool else info.Pool

/-- A step after the import fails in the work function of `createFromBackup`: marshalling
the request, the internal import not answering `success`, loading the instance, or the
storage post hook. -/
def laterStepFails (w : BackupRunCalls) (project : String) (bInfo : BackupInfo)
    (hooks : BackupHooks) : Prop :=
  w.Marshal ≠ none ∨ w.internalImport bInfo.Name project ≠ "success" ∨
    (∃ err, w.LoadByProjectAndName project bInfo.Name = .error err) ∨
    (∃ hook c, hooks.postHook = some hook ∧
      w.LoadByProjectAndName project bInfo.Name = .ok c ∧ hook c ≠ none)

/-- Collaborators of the backup work function: the import returns a post hook with the
given answer and a revert hook, the internal import answers with the given string, and the
instance loads. -/
def backupRunCallsOf (postHook : Option Err) (importAnswer : String) : BackupRunCalls where
  instanceCreateFromBackup := fun _ => .ok ⟨some (fun _ => postHook), true⟩
  Marshal := none
  internalImport := fun _ _ => importAnswer
  LoadByProjectAndName := fun _ name => .ok ⟨name, false⟩

/-! ## `cgroup`: the memory and block I/O limits -/

/-- The version `cgControllers` records for a controller: the three values
`abstraction.go` names, and any other value of the type. -/
inductive Backend where
  | Unavailable
  | V1
  | V2
  | unknown (n : Nat)
  deriving DecidableEq, Repr

/-- Errors of package `cgroup`: the two sentinel values the abstraction returns, and an
error of the `ReadWriter`. -/
inductive CGroupError where
  | ErrControllerMissing
  | ErrUnknownVersion
  | readWriter (text : String)
  deriving DecidableEq, Repr

/-- Modelled from the spec: the `ReadWriter` behind a `CGroup` (the interface and its
implementations are not among the sources), as a store keyed by version, controller and
key. -/
structure ReadWriter where
  store : Backend → String → String → Option String

/-- Modelled from the spec: `ReadWriter.Get(version, controller, key)`, the value stored
under the key, and an error where nothing is stored. -/
def ReadWriter.Get (s : ReadWriter) (version : Backend) (controller key : String) :
    Except CGroupError String :=
  match s.store version controller key with
  | some value => .ok value
  | none => .error (.readWriter ("no value for " ++ key))

/-- Modelled from the spec: `ReadWriter.Set(version, controller, key, value)`, which stores
the value under the key and returns no error; the result is the store after the call. -/
def ReadWriter.Set (s : ReadWriter) (version : Backend) (controller key value : String) :
    Option CGroupError × ReadWriter :=
  (none, ⟨fun v c k =>
    if v = version ∧ c = controller ∧ k = key then some value else s.store v c k⟩)

/-- The main cgroup abstraction, `CGroup`; its field `rw` is written `readWriter`. -/
structure CGroup where
  readWriter : ReadWriter

/-- The result of a setter of `CGroup`: the error it returns and the `CGroup` after it. -/
def CGroup.after (r : Option CGroupError × ReadWriter) : Option CGroupError × CGroup :=
  (r.1, ⟨r.2⟩)

/-- The method `GetMemorySoftLimit`; `cgControllers` is the package-level map. -/
def CGroup.GetMemorySoftLimit (cgControllers : String → Backend) (cg : CGroup) :
    Except CGroupError String :=
  let version := cgControllers "memory"
  match version with
  | .Unavailable => .error .ErrControllerMissing
  | .V1 => cg.readWriter.Get version "memory" "memory.soft_limit_in_bytes"
  | .V2 => cg.readWriter.Get version "memory" "memory.low"
  | _ => .error .ErrUnknownVersion

/-- The method `SetMemorySoftLimit`. -/
def CGroup.SetMemorySoftLimit (cgControllers : String → Backend) (cg : CGroup)
    (softLim : String) : Option CGroupError × CGroup :=
  -- Confirm we have the controller
  let version := cgControllers "memory"
  match version with
  | .Unavailable => (some .ErrControllerMissing, cg)
  | .V1 =>
    if softLim = "-1" then
      CGroup.after (cg.readWriter.Set version "memory" "memory.soft_limit_in_bytes" "max")
    else CGroup.after (cg.readWriter.Set version "memory" "memory.soft_limit_in_bytes" softLim)
  | .V2 =>
    if softLim = "-1" then
      CGroup.after (cg.readWriter.Set version "memory" "memory.low" "max")
    else CGroup.after (cg.readWriter.Set version "memory" "memory.low" softLim)
  | _ => (some .ErrUnknownVersion, cg)

/-- The method `GetMaxMemory`. -/
def CGroup.GetMaxMemory (cgControllers : String → Backend) (cg : CGroup) :
    Except CGroupError String :=
  let version := cgControllers "memory"
  match version with
  | .Unavailable => .error .ErrControllerMissing
  | .V1 => cg.readWriter.Get version "memory" "memory.limit_in_bytes"
  | .V2 => cg.readWriter.Get version "memory" "memory.max"
  | _ => .error .ErrUnknownVersion

/-- The method `SetMemoryMaxUsage`. -/
def CGroup.SetMemoryMaxUsage (cgControllers : String → Backend) (cg : CGroup)
    (max : String) : Option CGroupError × CGroup :=
  -- Confirm we have the controller
  let version := cgControllers "memory"
  match version with
  | .Unavailable => (some .ErrControllerMissing, cg)
  | .V1 => CGroup.after (cg.readWriter.Set version "memory" "memory.limit_in_bytes" max)
  | .V2 => CGroup.after (cg.readWriter.Set version "memory" "memory.max" max)
  | _ => (some .ErrUnknownVersion, cg)

/-- The method `SetMemorySwapMax`. -/
def CGroup.SetMemorySwapMax (cgControllers : String → Backend) (cg : CGroup)
    (max : String) : Option CGroupError × CGroup :=
  -- Confirm we have the controller
  let version := cgControllers "memory"
  match version with
  | .Unavailable => (some .ErrControllerMissing, cg)
  | .V1 =>
    if max = "-1" then
      CGroup.after (cg.readWriter.Set version "memory" "memory.memsw.limit_in_bytes" "max")
    else CGroup.after (cg.readWriter.Set version "memory" "memory.memsw.limit_in_bytes" max)
  | .V2 =>
    if max = "-1" then
      CGroup.after (cg.readWriter.Set version "memory" "memory.swap.max" "max")
    else CGroup.after (cg.readWriter.Set version "memory" "memory.swap.max" max)
  | _ => (some .ErrUnknownVersion, cg)

/-- The method `GetMemorySwapLimit`. -/
def CGroup.GetMemorySwapLimit (cgControllers : String → Backend) (cg : CGroup) :
    Except CGroupError String :=
  let version := cgControllers "memory"
  match version with
  | .Unavailable => .error .ErrControllerMissing
  | .V1 => cg.readWriter.Get version "memory" "memory.memsw.limit_in_bytes"
  | .V2 => cg.readWriter.Get version "memory" "memory.swap.max"
  | _ => .error .ErrUnknownVersion

/-- The method `GetBlkioWeight`. -/
def CGroup.GetBlkioWeight (cgControllers : String → Backend) (cg : CGroup) :
    Except CGroupError String :=
  -- Confirm we have the controller
  let version := cgControllers "blkio"
  match version with
  | .Unavailable => .error .ErrControllerMissing
  | .V1 => cg.readWriter.Get version "blkio" "blkio.weight"
  | _ => .error .ErrUnknownVersion

/-- The method `SetBlkioWeight`. -/
def CGroup.SetBlkioWeight (cgControllers : String → Backend) (cg : CGroup)
    (value : String) : Option CGroupError × CGroup :=
  let version := cgControllers "blkio"
  match version with
  | .Unavailable => (some .ErrControllerMissing, cg)
  | .V1 => CGroup.after (cg.readWriter.Set version "blkio" "blkio.weight" value)
  | _ => (some .ErrUnknownVersion, cg)

/-- An empty cgroup store. -/
def emptyCGroup : CGroup :=
  ⟨⟨fun _ _ _ => none⟩⟩

/-! ## `iptables`: the ebtables rules of a bridged NIC -/

/-- The function `generateFilterEbtablesRules(m, ipv4, ipv6)`. `IsTrue` is `shared.IsTrue`;
an address is `none` for a nil `net.IP` and otherwise the text `String()` gives for it. -/
def generateFilterEbtablesRules (IsTrue : String → Bool) (m : Device)
    (ipv4 ipv6 : Option String) : List (List String) :=
  -- MAC source filtering rules.
  let rules : List (List String) := [
    ["ebtables", "-t", "filter", "-A", "INPUT", "-s", "!", prop m "hwaddr", "-i",
      prop m "host_name", "-j", "DROP"],
    ["ebtables", "-t", "filter", "-A", "FORWARD", "-s", "!", prop m "hwaddr", "-i",
      prop m "host_name", "-j", "DROP"]]
  let rules4 : List (List String) :=
    match ipv4 with
    | some ipv4String =>
      if IsTrue (prop m "security.ipv4_filtering") = true then
        rules ++ [
          -- Prevent ARP MAC spoofing.
          ["ebtables", "-t", "filter", "-A", "INPUT", "-p", "ARP", "-i", prop m "host_name",
            "--arp-mac-src", "!", prop m "hwaddr", "-j", "DROP"],
          ["ebtables", "-t", "filter", "-A", "FORWARD", "-p", "ARP", "-i", prop m "host_name",
            "--arp-mac-src", "!", prop m "hwaddr", "-j", "DROP"],
          -- Prevent ARP IP spoofing.
          ["ebtables", "-t", "filter", "-A", "INPUT", "-p", "ARP", "-i", prop m "host_name",
            "--arp-ip-src", "!", ipv4String, "-j", "DROP"],
          ["ebtables", "-t", "filter", "-A", "FORWARD", "-p", "ARP", "-i", prop m "host_name",
            "--arp-ip-src", "!", ipv4String, "-j", "DROP"],
          -- Allow DHCPv4 to the host only.
          ["ebtables", "-t", "filter", "-A", "INPUT", "-p", "IPv4", "-s", prop m "hwaddr",
            "-i", prop m "host_name", "--ip-src", "0.0.0.0", "--ip-dst", "255.255.255.255",
            "--ip-proto", "udp", "--ip-dport", "67", "-j", "ACCEPT"],
          -- IP source filtering rules.
          ["ebtables", "-t", "filter", "-A", "INPUT", "-p", "IPv4", "-i", prop m "host_name",
            "--ip-src", "!", ipv4String, "-j", "DROP"],
          ["ebtables", "-t", "filter", "-A", "FORWARD", "-p", "IPv4", "-i", prop m "host_name",
            "--ip-src", "!", ipv4String, "-j", "DROP"]]
      else rules
    | none => rules
  match ipv6 with
  | some ipv6String =>
    if IsTrue (prop m "security.ipv6_filtering") = true then
      rules4 ++ [
        -- Allow DHCPv6 and Router Solicitation to the host only.
        ["ebtables", "-t", "filter", "-A", "INPUT", "-p", "IPv6", "-s", prop m "hwaddr", "-i",
          prop m "host_name", "--ip6-src", "fe80::/ffc0::", "--ip6-dst",
          "ff02::1:2/ffff:ffff:ffff:ffff:ffff:ffff:ffff:ffff", "--ip6-proto", "udp",
          "--ip6-dport", "547", "-j", "ACCEPT"],
        ["ebtables", "-t", "filter", "-A", "INPUT", "-p", "IPv6", "-s", prop m "hwaddr", "-i",
          prop m "host_name", "--ip6-src", "fe80::/ffc0::", "--ip6-dst",
          "ff02::2/ffff:ffff:ffff:ffff:ffff:ffff:ffff:ffff", "--ip6-proto", "ipv6-icmp",
          "--ip6-icmp-type", "router-solicitation", "-j", "ACCEPT"],
        -- IP source filtering rules.
        ["ebtables", "-t", "filter", "-A", "INPUT", "-p", "IPv6", "-i", prop m "host_name",
          "--ip6-src", "!", ipv6String ++ "/ffff:ffff:ffff:ffff:ffff:ffff:ffff:ffff", "-j",
          "DROP"],
        ["ebtables", "-t", "filter", "-A", "FORWARD", "-p", "IPv6", "-i", prop m "host_name",
          "--ip6-src", "!", ipv6String ++ "/ffff:ffff:ffff:ffff:ffff:ffff:ffff:ffff", "-j",
          "DROP"]]
    else rules4
  | none => rules4

/-- The function `matchEbtablesRule(activeRule, matchRule, deleteMode)`: the loop walks the
indices of `matchRule` and reads `activeRule` at each of them. The result is `none` where
the loop reads `activeRule` at an index out of range, and otherwise the value returned
together with `activeRule` as the call leaves it. -/
def matchEbtablesRule : List String → List String → Bool → Option (Bool × List String)
  | activeRule, [], _ => some (true, activeRule)
  | [], _ :: _, _ => none
  | a :: activeRule, m :: matchRule, deleteMode =>
    -- Active rules will be dumped in "add" format, we need to detect this and switch it
    -- to "delete" mode if requested.
    if deleteMode = true ∧ (a = "-A" ∨ a = "-D") then
      match matchEbtablesRule activeRule matchRule deleteMode with
      | none => none
      | some (result, active) => some (result, "-D" :: active)
    -- Check the match rule field matches the active rule field.
    else if a ≠ m then some (false, a :: activeRule)
    else
      match matchEbtablesRule activeRule matchRule deleteMode with
      | none => none
      | some (result, active) => some (result, a :: active)

/-- A stand-in for `shared.IsTrue` (package `shared` is not among the sources), for the
examples. -/
def sampleIsTrue (value : String) : Bool :=
  value = "true" || value = "1" || value = "yes" || value = "on"

/-- A bridged NIC with both IP filters switched on. -/
def filteredNic : Device :=
  [("hwaddr", "00:16:3e:aa:bb:cc"), ("host_name", "veth1a2b"),
    ("security.ipv4_filtering", "true"), ("security.ipv6_filtering", "true")]

/-- The target member of a request, in the words of the claims: the member its `target`
parameter names, or, when it names none, the member `NodeWithLeastContainers` picks. -/
def targetMember (w : DispatchCalls) (r : HttpRequest) (targetNode : String) : Prop :=
  (r.target ≠ "" ∧ targetNode = r.target) ∨
    (r.target = "" ∧ w.NodeWithLeastContainers = .ok targetNode)

/-- Collaborators of the work function of `createFromImage` that all succeed: the image is
found, locally or on the server, for the architecture `x86_64`. -/
def imageRunCallsOf : ImageRunCalls where
  ConfigGetBool := fun _ => .ok true
  ImageDownload := fun _ _ _ _ hash _ _ => .ok ⟨"x86_64", hash⟩
  ImageGet := fun _ hash => .ok ⟨"x86_64", hash⟩
  ArchitectureId := fun _ => .ok 2
  instanceCreateFromImage := fun _ _ => none

/-! ## Properties of the storage-pool resolver -/

theorem profileChain_append (w : PoolLookups) (project : String) (pre post : List String)
    (acc : String × String) :
    profileChain w project (pre ++ post) acc =
      (match profileChain w project pre acc with
        | .error err => .error err
        | .ok acc1 => profileChain w project post acc1) := by
  induction pre generalizing acc with
  | nil => simp [profileChain]
  | cons pName rest ih =>
    simp only [List.cons_append, profileChain]
    cases hp : w.ProfileGet project pName with
    | error err => simp
    | ok p =>
      simp only
      split <;> exact ih _

theorem profileChain_loads (w : PoolLookups) (project : String) (ps : List String)
    (acc : String × String)
    (hload : ∀ n ∈ ps, ∃ p, w.ProfileGet project n = .ok p) :
    ∃ acc1, profileChain w project ps acc = .ok acc1 := by
  induction ps generalizing acc with
  | nil => exact ⟨acc, rfl⟩
  | cons pName rest ih =>
    obtain ⟨p, hp⟩ := hload pName (List.mem_cons_self _ _)
    have hrest : ∀ n ∈ rest, ∃ p, w.ProfileGet project n = .ok p :=
      fun n hn => hload n (List.mem_cons_of_mem _ hn)
    simp only [profileChain, hp]
    split <;> exact ih _ hrest

theorem profileChain_skips (w : PoolLookups) (project : String) (ps : List String)
    (acc : String × String)
    (hload : ∀ n ∈ ps, ∃ p, w.ProfileGet project n = .ok p)
    (hnone : ∀ n ∈ ps, ∀ p, w.ProfileGet project n = .ok p → ¬ definesRootPool w p) :
    profileChain w project ps acc = .ok acc := by
  induction ps generalizing acc with
  | nil => rfl
  | cons pName rest ih =>
    obtain ⟨p, hp⟩ := hload pName (List.mem_cons_self _ _)
    have hrest : ∀ n ∈ rest, ∃ p, w.ProfileGet project n = .ok p :=
      fun n hn => hload n (List.mem_cons_of_mem _ hn)
    have hnrest : ∀ n ∈ rest, ∀ p, w.ProfileGet project n = .ok p → ¬ definesRootPool w p :=
      fun n hn => hnone n (List.mem_cons_of_mem _ hn)
    have hnot := hnone pName (List.mem_cons_self _ _) p hp
    simp only [profileChain, hp]
    rw [if_neg (show ¬ (_ ∧ _) from hnot)]
    exact ih acc hrest hnrest

theorem profileChain_last (w : PoolLookups) (project : String) (pre post : List String)
    (pName : String) (p : Profile) (acc : String × String)
    (hload : ∀ n ∈ pre ++ pName :: post, ∃ q, w.ProfileGet project n = .ok q)
    (hp : w.ProfileGet project pName = .ok p) (hdef : definesRootPool w p)
    (hpost : ∀ n ∈ post, ∀ q, w.ProfileGet project n = .ok q → ¬ definesRootPool w q) :
    profileChain w project (pre ++ pName :: post) acc =
      .ok (prop (w.GetRootDiskDevice p.Devices).2.1 "pool", pName) := by
  have hpre : ∀ n ∈ pre, ∃ q, w.ProfileGet project n = .ok q :=
    fun n hn => hload n (List.mem_append_left _ hn)
  have hpostload : ∀ n ∈ post, ∃ q, w.ProfileGet project n = .ok q :=
    fun n hn => hload n (List.mem_append_right _ (List.mem_cons_of_mem _ hn))
  obtain ⟨acc1, hacc1⟩ := profileChain_loads w project pre acc hpre
  rw [profileChain_append, hacc1]
  simp only [profileChain, hp]
  rw [if_pos (show _ ∧ _ from hdef)]
  exact profileChain_skips w project post _ hpostload hpost

/-- C1: a request whose device map holds a root-disk device with a non-empty pool `p` that
the pool-existence lookup does not report as "no such object" resolves to `p`, with an empty
supplying-profile name, that device's key and no error response, for every profile list and
every content of the profiles; the request devices are left as they are. -/
theorem containerFindStoragePool_local_pool (w : PoolLookups) (project : String)
    (req : InstancesPost) (k : String) (dev : Device) (e : Option Err) (p : String)
    (hroot : w.GetRootDiskDevice (req.Devices.getD []) = (k, dev, e))
    (hk : k ≠ "") (hp : prop dev "pool" = p) (hne : p ≠ "")
    (hexists : isNoSuchObject (w.StoragePoolGetID p) = false) :
    containerFindStoragePool w project req = (⟨p, "", k, dev, none⟩, req.Devices) := by
  simp [containerFindStoragePool, localRootPool, hroot, hk, hp, hne, hexists]

theorem containerFindStoragePool_local_pool_witness :
    containerFindStoragePool (clusterOf ["fast", "slow"] [("default", rootProfile "slow")])
        "default"
        { Devices := some [("disk0", [("type", "disk"), ("path", "/"), ("pool", "fast")])],
          Profiles := some ["default"] } =
      (⟨"fast", "", "disk0", [("type", "disk"), ("path", "/"), ("pool", "fast")], none⟩,
        some [("disk0", [("type", "disk"), ("path", "/"), ("pool", "fast")])]) :=
  containerFindStoragePool_local_pool _ _ _ "disk0" _ none "fast"
    (by decide) (by decide) (by decide) (by decide) (by decide)

theorem localRootPool_of_noLocalPool (w : PoolLookups) (req : InstancesPost)
    (hlocal : noLocalPool w req) : (localRootPool w req).1 = "" := by
  unfold noLocalPool at hlocal
  unfold localRootPool
  rcases hroot : w.GetRootDiskDevice (req.Devices.getD []) with ⟨k, dev, e⟩
  rw [hroot] at hlocal
  simp only at hlocal ⊢
  by_cases hk : k = ""
  · simp [hk]
  · rcases hlocal with h | h | h
    · exact absurd h hk
    · simp [hk, h]
    · by_cases hp : prop dev "pool" = ""
      · simp [hk, hp]
      · simp [hk, hp, h]

/-- C2: when the request's own root-disk device gives no usable pool and every listed
profile loads, the resolved pool is the pool of the last profile in list order that defines
a root-disk device with a non-empty pool, the supplying-profile name is that profile's name,
and no error response is returned. -/
theorem containerFindStoragePool_last_profile (w : PoolLookups) (project : String)
    (req : InstancesPost) (pre post : List String) (pName : String) (p : Profile)
    (hlocal : noLocalPool w req)
    (hprofiles : req.Profiles = some (pre ++ pName :: post))
    (hload : ∀ n ∈ pre ++ pName :: post, ∃ q, w.ProfileGet project n = .ok q)
    (hp : w.ProfileGet project pName = .ok p) (hdef : definesRootPool w p)
    (hpost : ∀ n ∈ post, ∀ q, w.ProfileGet project n = .ok q → ¬ definesRootPool w q) :
    (containerFindStoragePool w project req).1.storagePool =
        prop (w.GetRootDiskDevice p.Devices).2.1 "pool" ∧
      (containerFindStoragePool w project req).1.storagePoolProfile = pName ∧
      (containerFindStoragePool w project req).1.resp = none := by
  have h1 := localRootPool_of_noLocalPool w req hlocal
  have hchain := profileChain_last w project pre post pName p ("", "") hload hp hdef hpost
  have hne : prop (w.GetRootDiskDevice p.Devices).2.1 "pool" ≠ "" := hdef.2
  unfold containerFindStoragePool
  rcases hl : localRootPool w req with ⟨sp, key, dev, devices⟩
  rw [hl] at h1
  simp only at h1
  subst h1
  simp [hprofiles, hchain, hne]

theorem containerFindStoragePool_last_profile_witness :
    (containerFindStoragePool
        (clusterOf ["pa", "pb"] [("A", rootProfile "pa"), ("B", rootProfile "pb")])
        "default" { Profiles := some ["A", "B"] }).1.storagePool = "pb" ∧
      (containerFindStoragePool
        (clusterOf ["pa", "pb"] [("A", rootProfile "pa"), ("B", rootProfile "pb")])
        "default" { Profiles := some ["A", "B"] }).1.storagePoolProfile = "B" ∧
      (containerFindStoragePool
        (clusterOf ["pa", "pb"] [("A", rootProfile "pa"), ("B", rootProfile "pb")])
        "default" { Profiles := some ["A", "B"] }).1.resp = none :=
  containerFindStoragePool_last_profile
    (clusterOf ["pa", "pb"] [("A", rootProfile "pa"), ("B", rootProfile "pb")])
    "default" { Profiles := some ["A", "B"] } ["A"] [] "B" (rootProfile "pb")
    (Or.inl (by decide)) rfl
    (by
      intro n hn
      simp only [List.cons_append, List.nil_append, List.mem_cons, List.mem_singleton,
        List.not_mem_nil, or_false] at hn
      rcases hn with h | h
      · exact ⟨rootProfile "pa", by subst h; rfl⟩
      · exact ⟨rootProfile "pb", by subst h; rfl⟩)
    rfl ⟨by decide, by decide⟩ (by intro n hn; cases hn)

theorem singlePool_one (w : PoolLookups) (pool : String) (h : w.StoragePools = .ok [pool]) :
    singlePool w = .ok pool := by
  simp [singlePool, h]

theorem singlePool_many (w : PoolLookups) (pools : List String)
    (h : w.StoragePools = .ok pools) (hlen : pools.length ≠ 1) : singlePool w = .ok "" := by
  unfold singlePool
  rw [h]
  match pools, hlen with
  | [], _ => rfl
  | [_], hl => exact absurd rfl hl
  | _ :: _ :: _, _ => rfl

theorem singlePool_none (w : PoolLookups) (h : w.StoragePools = .error .ErrNoSuchObject) :
    singlePool w = .error (.BadRequest
      (.msg "This LXD instance does not have any storage pools configured")) := by
  simp [singlePool, h]

theorem singlePool_error (w : PoolLookups) (err : Err) (h : w.StoragePools = .error err)
    (hne : err ≠ .ErrNoSuchObject) : singlePool w = .error (.SmartError err) := by
  unfold singlePool
  rw [h]
  cases err with
  | ErrNoSuchObject => exact absurd rfl hne
  | ErrUnknownDriver => rfl
  | msg t => rfl
  | other c => rfl

theorem containerFindStoragePool_no_hint (w : PoolLookups) (project : String)
    (req : InstancesPost) (hlocal : noLocalPool w req)
    (hload : ∀ n ∈ req.Profiles.getD [], ∃ q, w.ProfileGet project n = .ok q)
    (hnone : ∀ n ∈ req.Profiles.getD [], ∀ q, w.ProfileGet project n = .ok q →
      ¬ definesRootPool w q) :
    (containerFindStoragePool w project req).1 =
      (match singlePool w with
        | .error r => FoundPool.failed r
        | .ok pool =>
          ⟨pool, "", (localRootPool w req).2.1, (localRootPool w req).2.2.1, none⟩) := by
  have h1 := localRootPool_of_noLocalPool w req hlocal
  have hchain := profileChain_skips w project (req.Profiles.getD []) ("", "") hload hnone
  unfold containerFindStoragePool
  rcases hl : localRootPool w req with ⟨sp, key, dev, devices⟩
  rw [hl] at h1
  simp only at h1
  subst h1
  simp only [hchain, if_true]
  cases singlePool w <;> rfl

/-- C3 (counterexample): with two pools in the cluster and no pool named by the request or
by a profile, the resolver returns no error response; it returns an empty pool name. -/
theorem containerFindStoragePool_two_pools_no_error :
    (clusterOf ["a", "b"] []).StoragePools = .ok ["a", "b"] ∧
      (containerFindStoragePool (clusterOf ["a", "b"] []) "default" {}).1 =
        ⟨"", "", "", [], none⟩ :=
  ⟨rfl, by decide⟩

/-- C3 (amended): when neither the request's own root-disk device nor any listed profile
supplies a pool (every listed profile loads), the resolver returns the cluster's pool and no
error response if the pool listing holds exactly one pool; it returns an empty pool name and
no error response if the listing holds zero or two or more pools; and it returns an error
response when the listing itself fails: a bad request when it reports "no such object", the
error itself otherwise. -/
theorem containerFindStoragePool_single_pool_fallback (w : PoolLookups) (project : String)
    (req : InstancesPost) (hlocal : noLocalPool w req)
    (hload : ∀ n ∈ req.Profiles.getD [], ∃ q, w.ProfileGet project n = .ok q)
    (hnone : ∀ n ∈ req.Profiles.getD [], ∀ q, w.ProfileGet project n = .ok q →
      ¬ definesRootPool w q) :
    (∀ pool, w.StoragePools = .ok [pool] →
      (containerFindStoragePool w project req).1.storagePool = pool ∧
      (containerFindStoragePool w project req).1.resp = none) ∧
    (∀ pools, w.StoragePools = .ok pools → pools.length ≠ 1 →
      (containerFindStoragePool w project req).1.storagePool = "" ∧
      (containerFindStoragePool w project req).1.resp = none) ∧
    (w.StoragePools = .error .ErrNoSuchObject →
      (containerFindStoragePool w project req).1.resp = some (.BadRequest
        (.msg "This LXD instance does not have any storage pools configured"))) ∧
    (∀ err, w.StoragePools = .error err → err ≠ .ErrNoSuchObject →
      (containerFindStoragePool w project req).1.resp = some (.SmartError err)) := by
  have h := containerFindStoragePool_no_hint w project req hlocal hload hnone
  refine ⟨?_, ?_, ?_, ?_⟩
  · intro pool hp
    rw [h, singlePool_one w pool hp]
    exact ⟨rfl, rfl⟩
  · intro pools hp hlen
    rw [h, singlePool_many w pools hp hlen]
    exact ⟨rfl, rfl⟩
  · intro hp
    rw [h, singlePool_none w hp]
    rfl
  · intro err hp hne
    rw [h, singlePool_error w err hp hne]
    rfl

theorem containerFindStoragePool_single_pool_fallback_witness :
    (containerFindStoragePool (clusterOf ["only"] [("default", ⟨[]⟩)]) "default"
        { Profiles := some ["default"] }).1.storagePool = "only" ∧
      (containerFindStoragePool (clusterOf ["only"] [("default", ⟨[]⟩)]) "default"
        { Profiles := some ["default"] }).1.resp = none :=
  (containerFindStoragePool_single_pool_fallback
    (clusterOf ["only"] [("default", ⟨[]⟩)]) "default" { Profiles := some ["default"] }
    (Or.inl (by decide))
    (by
      intro n hn
      simp only [Option.getD_some, List.mem_singleton] at hn
      exact ⟨⟨[]⟩, by subst hn; rfl⟩)
    (by
      intro n hn q hq
      simp only [Option.getD_some, List.mem_singleton] at hn
      subst hn
      have hq2 : q = ⟨[]⟩ := by
        have : (Except.ok ⟨[]⟩ : Except Err Profile) = .ok q := hq
        cases this
        rfl
      subst hq2
      intro hdef
      exact hdef.1 (by decide))).1 "only" rfl

/-! ## Properties of `createFromMigration` -/

theorem lookupKey_setKey_self {β : Type} (m : List (String × β)) (k : String) (v : β) :
    lookupKey (setKey m k v) k = some v := by
  induction m with
  | nil => simp [setKey, lookupKey, List.lookup]
  | cons e m ih =>
    obtain ⟨k0, v0⟩ := e
    by_cases h : k0 = k
    · simp [setKey, h, lookupKey, List.lookup]
    · have hne : (k == k0) = false := by
        simpa using fun hk => h hk.symm
      simp only [setKey, h, if_false, lookupKey, List.lookup, hne]
      exact ih

theorem lookupKey_setKey_other {β : Type} (m : List (String × β)) (k j : String) (v : β)
    (hj : j ≠ k) : lookupKey (setKey m k v) j = lookupKey m j := by
  induction m with
  | nil =>
    have hne : (j == k) = false := by simpa using hj
    simp [setKey, lookupKey, List.lookup, hne]
  | cons e m ih =>
    obtain ⟨k0, v0⟩ := e
    by_cases h : k0 = k
    · subst h
      have hne : (j == k0) = false := by simpa using hj
      simp [setKey, lookupKey, List.lookup, hne]
    · simp only [setKey, h, if_false, lookupKey, List.lookup]
      cases hjk : (j == k0) with
      | true => rfl
      | false => exact ih

theorem prop_setKey_self (d : Device) (k v : String) : prop (setKey d k v) k = v := by
  simp [prop, lookupKey_setKey_self]

theorem prop_setKey_other (d : Device) (k j v : String) (hj : j ≠ k) :
    prop (setKey d k v) j = prop d j := by
  simp [prop, lookupKey_setKey_other d k j v hj]

theorem migrationPlan_ok (w : MigrationCalls) (project : String) (req : InstancesPost)
    (plan : MigrationPlan) (h : migrationPlan w project req = .ok plan) :
    (containerFindStoragePool w.pools project (prefillProfiles req)).1.resp = none ∧
    (containerFindStoragePool w.pools project (prefillProfiles req)).1.storagePool ≠ "" ∧
    plan.storagePool =
      (containerFindStoragePool w.pools project (prefillProfiles req)).1.storagePool ∧
    plan.args.Devices = setRootDiskPool (req.Devices.getD [])
      (containerFindStoragePool w.pools project (prefillProfiles req)).1 ∧
    plan.args.Profiles = (prefillProfiles req).Profiles.getD [] ∧
    plan.req = { prefillProfiles req with
      Devices := (containerFindStoragePool w.pools project (prefillProfiles req)).2 } := by
  unfold migrationPlan at h
  split at h
  · cases h
  · split at h
    · cases h
    · split at h
      · cases h
      · split at h
        · cases h
        · split at h
          · cases h
          · dsimp only at h
            split at h
            · cases h
            · split at h
              · cases h
              · next hresp =>
                split at h
                · cases h
                · next hne =>
                  simp only [Except.ok.injEq] at h
                  subst h
                  exact ⟨hresp, hne, rfl, rfl, rfl, rfl⟩

theorem probeRootDevName_free (devices : Devices) (n i : Nat) (name : String)
    (h : lookupKey devices name = none) : probeRootDevName devices (n + 1) i name = name := by
  simp [probeRootDevName, h]

theorem probeRootDevName_taken (devices : Devices) (n i : Nat) (name : String) (d : Device)
    (h : lookupKey devices name = some d) :
    probeRootDevName devices (n + 1) i name =
      probeRootDevName devices n (i + 1) (sprintfRoot i) := by
  simp [probeRootDevName, h]

/-- C4 (counterexample): a request whose root-disk device `disk0` carries no pool, in a
cluster with the single pool `default` and a profile without devices. The pool is supplied
by the single-pool fallback, neither by the request's root-disk device nor by a profile, and
the request defines no device named `root`; yet no device is synthesized: the pool is
written into `disk0` and nothing is stored under `root`. -/
theorem createFromMigration_poolless_root_disk :
    (containerFindStoragePool (clusterOf ["default"] [("default", ⟨[]⟩)]) "default"
        (prefillProfiles { Name := "c1", Source := { Mode := "pull" },
                           Devices := some [("disk0", [("type", "disk"), ("path", "/")])] })).1 =
      ⟨"default", "", "disk0", [("type", "disk"), ("path", "/")], none⟩ ∧
    ∃ plan, migrationPlan (callsOf (clusterOf ["default"] [("default", ⟨[]⟩)]) ["default"])
        "default" { Name := "c1", Source := { Mode := "pull" },
                    Devices := some [("disk0", [("type", "disk"), ("path", "/")])] } =
        .ok plan ∧
      plan.args.Devices = [("disk0", [("type", "disk"), ("path", "/"), ("pool", "default")])] ∧
      lookupKey plan.args.Devices "root" = none :=
  ⟨by decide, _, rfl, by decide, by decide⟩

/-- C4 (amended): when the request has no root-disk device of its own (the resolver returns
no local root-disk key) and no profile supplied the pool, the creation arguments hold the
device `{type: disk, path: /, pool: <resolved pool>}` under `root` if the request defines no
device named `root`, and under `root0` if the request defines `root` but not `root0`; every
other device of the request, the user's `root` among them, is passed on unchanged. -/
theorem createFromMigration_root_device_name (w : MigrationCalls) (project : String)
    (req : InstancesPost) (plan : MigrationPlan)
    (hplan : migrationPlan w project req = .ok plan)
    (hkey : (containerFindStoragePool w.pools project
      (prefillProfiles req)).1.localRootDiskDeviceKey = "")
    (hprofile : (containerFindStoragePool w.pools project
      (prefillProfiles req)).1.storagePoolProfile = "") :
    (lookupKey (req.Devices.getD []) "root" = none →
      lookupKey plan.args.Devices "root" =
          some [("type", "disk"), ("path", "/"), ("pool", plan.storagePool)] ∧
        ∀ k, k ≠ "root" → lookupKey plan.args.Devices k = lookupKey (req.Devices.getD []) k) ∧
    (∀ d, lookupKey (req.Devices.getD []) "root" = some d →
      lookupKey (req.Devices.getD []) "root0" = none →
      lookupKey plan.args.Devices "root0" =
          some [("type", "disk"), ("path", "/"), ("pool", plan.storagePool)] ∧
        lookupKey plan.args.Devices "root" = some d ∧
        ∀ k, k ≠ "root0" → lookupKey plan.args.Devices k = lookupKey (req.Devices.getD []) k) := by
  obtain ⟨-, -, hpool, hdev, -, -⟩ := migrationPlan_ok w project req plan hplan
  have hset : plan.args.Devices =
      setKey (req.Devices.getD []) (probeRootDevName (req.Devices.getD []) 100 0 "root")
        (rootDev plan.storagePool) := by
    rw [hdev, hpool]
    simp [setRootDiskPool, hkey, hprofile]
  refine ⟨?_, ?_⟩
  · intro hfree
    rw [hset, probeRootDevName_free _ 99 0 "root" hfree]
    exact ⟨lookupKey_setKey_self _ _ _, fun k hk => lookupKey_setKey_other _ _ _ _ hk⟩
  · intro d hroot hfree
    have h0 : sprintfRoot 0 = "root0" := by decide
    rw [hset, probeRootDevName_taken _ 99 0 "root" d hroot, h0,
      probeRootDevName_free _ 98 1 "root0" hfree]
    refine ⟨lookupKey_setKey_self _ _ _, ?_, fun k hk => lookupKey_setKey_other _ _ _ _ hk⟩
    rw [lookupKey_setKey_other _ _ _ _ (by decide)]
    exact hroot

theorem createFromMigration_root_device_name_witness :
    ∃ plan, migrationPlan (callsOf (clusterOf ["default"] [("default", ⟨[]⟩)]) ["default"])
        "default" { Name := "c1", Source := { Mode := "pull" },
                    Devices := some [("root", nicDevice)] } = .ok plan ∧
      lookupKey plan.args.Devices "root0" =
        some [("type", "disk"), ("path", "/"), ("pool", plan.storagePool)] ∧
      lookupKey plan.args.Devices "root" = some nicDevice ∧ plan.storagePool = "default" :=
  ⟨_, rfl,
    ((createFromMigration_root_device_name
      (callsOf (clusterOf ["default"] [("default", ⟨[]⟩)]) ["default"]) "default"
      { Name := "c1", Source := { Mode := "pull" }, Devices := some [("root", nicDevice)] }
      _ rfl (by decide) (by decide)).2 nicDevice (by decide) (by decide)).1,
    ((createFromMigration_root_device_name
      (callsOf (clusterOf ["default"] [("default", ⟨[]⟩)]) ["default"]) "default"
      { Name := "c1", Source := { Mode := "pull" }, Devices := some [("root", nicDevice)] }
      _ rfl (by decide) (by decide)).2 nicDevice (by decide) (by decide)).2.1,
    by decide⟩

theorem probeRootDevName_exhausted (devices : Devices) (n i : Nat) (name : String)
    (hname : lookupKey devices name ≠ none)
    (hall : ∀ j, i ≤ j → j < i + n → lookupKey devices (sprintfRoot j) ≠ none) :
    probeRootDevName devices (n + 1) i name = sprintfRoot (i + n) := by
  induction n generalizing i name with
  | zero => simp [probeRootDevName, hname]
  | succ n ih =>
    have hi : lookupKey devices (sprintfRoot i) ≠ none := hall i (le_refl _) (by omega)
    have hstep : probeRootDevName devices (n + 1 + 1) i name =
        probeRootDevName devices (n + 1) (i + 1) (sprintfRoot i) := by
      simp [probeRootDevName, hname]
    rw [hstep, ih (i + 1) (sprintfRoot i) hi (fun j h1 h2 => hall j (by omega) (by omega))]
    congr 1
    omega

theorem lookupKey_of_const {β : Type} (m : List (String × β)) (c : β) (k : String)
    (hall : ∀ e ∈ m, e.2 = c) (hk : k ∈ m.map Prod.fst) : lookupKey m k = some c := by
  induction m with
  | nil => cases hk
  | cons e m ih =>
    obtain ⟨k0, v0⟩ := e
    have hv : v0 = c := hall (k0, v0) (List.mem_cons_self _ _)
    by_cases h : k = k0
    · subst h
      simp [lookupKey, List.lookup, hv]
    · have hne : (k == k0) = false := by simpa using h
      have hk2 : k ∈ m.map Prod.fst := by
        simp only [List.map_cons, List.mem_cons] at hk
        rcases hk with hk | hk
        · exact absurd hk h
        · exact hk
      simp only [lookupKey, List.lookup, hne]
      exact ih (fun e he => hall e (List.mem_cons_of_mem _ he)) hk2

theorem crowdedDevices_defined (j : Nat) (hj : j < 100) :
    lookupKey crowdedDevices (sprintfRoot j) = some nicDevice := by
  apply lookupKey_of_const
  · intro e he
    simp only [crowdedDevices, List.mem_cons, List.mem_map, List.mem_range] at he
    rcases he with he | ⟨i, -, he⟩
    · rw [he]
    · rw [← he]
  · simp only [crowdedDevices, List.map_cons, List.map_map, List.mem_cons, List.mem_map,
      List.mem_range]
    exact Or.inr ⟨j, hj, rfl⟩

theorem crowdedDevices_probe : probeRootDevName crowdedDevices 100 0 "root" = "root99" := by
  have h := probeRootDevName_exhausted crowdedDevices 99 0 "root" (by decide)
    (fun j _ hj => by rw [crowdedDevices_defined j (by omega)]; exact Option.some_ne_none _)
  rw [h]
  decide

/-- C5 (the code at the failing input): for a request that defines `root`, `root0`, ...,
`root99` and needs a synthesized root disk, `createFromMigration` does not fail: it stores
the synthesized device under `root99`, in place of the device the user defined there. -/
theorem createFromMigration_overwrites_root99 :
    lookupKey crowdedDevices "root99" = some nicDevice ∧
      (createFromMigration (callsOf (clusterOf ["default"] [("default", ⟨[]⟩)]) ["default"])
        "default" { Name := "c1", Source := { Mode := "pull" },
                    Devices := some crowdedDevices }).1.isError = false ∧
      ∃ plan, migrationPlan (callsOf (clusterOf ["default"] [("default", ⟨[]⟩)]) ["default"])
          "default" { Name := "c1", Source := { Mode := "pull" },
                      Devices := some crowdedDevices } = .ok plan ∧
        lookupKey plan.args.Devices "root99" = some (rootDev "default") := by
  refine ⟨crowdedDevices_defined 99 (by decide), by decide, ?_⟩
  have hfound : containerFindStoragePool
      (callsOf (clusterOf ["default"] [("default", ⟨[]⟩)]) ["default"]).pools "default"
      (prefillProfiles { Name := "c1", Source := { Mode := "pull" },
                         Devices := some crowdedDevices }) =
      (⟨"default", "", "", [], none⟩, some crowdedDevices) := by decide
  cases hplan : migrationPlan (callsOf (clusterOf ["default"] [("default", ⟨[]⟩)]) ["default"])
      "default" { Name := "c1", Source := { Mode := "pull" },
                  Devices := some crowdedDevices } with
  | error r =>
    have hok : (migrationPlan
        (callsOf (clusterOf ["default"] [("default", ⟨[]⟩)]) ["default"])
        "default" { Name := "c1", Source := { Mode := "pull" },
                    Devices := some crowdedDevices }).toBool = true := by decide
    rw [hplan] at hok
    cases hok
  | ok plan =>
    refine ⟨plan, rfl, ?_⟩
    obtain ⟨-, -, -, hdev, -, -⟩ := migrationPlan_ok _ _ _ plan hplan
    rw [hdev, hfound]
    simp only [setRootDiskPool, Option.getD_some, and_self, if_true, crowdedDevices_probe]
    exact lookupKey_setKey_self _ _ _

theorem profileChain_supplier (w : PoolLookups) (project : String) (ps : List String)
    (acc acc1 : String × String) (h : profileChain w project ps acc = .ok acc1) :
    acc1 = acc ∨ (acc1.2 ∈ ps ∧ ∃ p, w.ProfileGet project acc1.2 = .ok p ∧
      definesRootPool w p ∧ acc1.1 = prop (w.GetRootDiskDevice p.Devices).2.1 "pool") := by
  induction ps generalizing acc with
  | nil =>
    simp only [profileChain, Except.ok.injEq] at h
    exact Or.inl h.symm
  | cons pName rest ih =>
    simp only [profileChain] at h
    cases hp : w.ProfileGet project pName with
    | error err => rw [hp] at h; cases h
    | ok p =>
      rw [hp] at h
      simp only at h
      split at h
      · next hdef =>
        rcases ih _ h with h1 | ⟨hmem, q, hq, hqdef, hqpool⟩
        · right
          rw [h1]
          exact ⟨List.mem_cons_self _ _, p, hp, hdef, rfl⟩
        · exact Or.inr ⟨List.mem_cons_of_mem _ hmem, q, hq, hqdef, hqpool⟩
      · rcases ih _ h with h1 | ⟨hmem, q, hq, hqdef, hqpool⟩
        · exact Or.inl h1
        · exact Or.inr ⟨List.mem_cons_of_mem _ hmem, q, hq, hqdef, hqpool⟩

theorem singlePool_error_isError (w : PoolLookups) (r : Response)
    (h : singlePool w = .error r) : r.isError = true := by
  unfold singlePool at h
  split at h
  · cases h; rfl
  · cases h; rfl
  · split at h <;> cases h

theorem containerFindStoragePool_resp_isError (w : PoolLookups) (project : String)
    (req : InstancesPost) (r : Response)
    (h : (containerFindStoragePool w project req).1.resp = some r) : r.isError = true := by
  unfold containerFindStoragePool at h
  rcases hl : localRootPool w req with ⟨sp, key, dev, devices⟩
  rw [hl] at h
  dsimp only at h
  split at h
  · simp only [FoundPool.failed, Option.some.injEq] at h
    rw [← h]; rfl
  · split at h
    · cases hs : singlePool w with
      | error r1 =>
        rw [hs] at h
        simp only [FoundPool.failed, Option.some.injEq] at h
        rw [← h]
        exact singlePool_error_isError w r1 hs
      | ok pool => rw [hs] at h; cases h
    · cases h

theorem containerFindStoragePool_found (w : PoolLookups) (project : String)
    (req : InstancesPost) (hresp : (containerFindStoragePool w project req).1.resp = none) :
    (containerFindStoragePool w project req).1.localRootDiskDeviceKey =
        (localRootPool w req).2.1 ∧
      (containerFindStoragePool w project req).1.localRootDiskDevice =
        (localRootPool w req).2.2.1 ∧
      ((containerFindStoragePool w project req).1.storagePoolProfile = "" ∨
        ((containerFindStoragePool w project req).1.storagePoolProfile ∈ req.Profiles.getD [] ∧
          ∃ p, w.ProfileGet project
              (containerFindStoragePool w project req).1.storagePoolProfile = .ok p ∧
            definesRootPool w p ∧
            (containerFindStoragePool w project req).1.storagePool =
              prop (w.GetRootDiskDevice p.Devices).2.1 "pool")) := by
  unfold containerFindStoragePool at hresp ⊢
  rcases hl : localRootPool w req with ⟨sp, key, dev, devices⟩
  rw [hl] at hresp
  dsimp only at hresp ⊢
  by_cases hsp : sp = ""
  · subst hsp
    simp only [if_true] at hresp ⊢
    cases hc : profileChain w project (req.Profiles.getD []) ("", "") with
    | error err => rw [hc] at hresp; cases hresp
    | ok acc1 =>
      obtain ⟨sp2, spp⟩ := acc1
      rw [hc] at hresp
      dsimp only at hresp ⊢
      rcases profileChain_supplier w project _ _ _ hc with h1 | ⟨hmem, p, hp, hdef, hpool⟩
      · simp only [Prod.mk.injEq] at h1
        obtain ⟨h11, h12⟩ := h1
        subst h11 h12
        simp only [if_true] at hresp ⊢
        cases hs : singlePool w with
        | error r => rw [hs] at hresp; cases hresp
        | ok pool => simp
      · dsimp only at hmem hp hpool
        have hne : sp2 ≠ "" := by rw [hpool]; exact hdef.2
        simp only [hne, if_false]
        exact ⟨trivial, trivial, Or.inr ⟨hmem, p, hp, hdef, hpool⟩⟩
  · simp [hsp]

theorem localRootPool_key (w : PoolLookups) (req : InstancesPost) :
    (localRootPool w req).2.1 = (w.GetRootDiskDevice (req.Devices.getD [])).1 := by
  unfold localRootPool
  rcases w.GetRootDiskDevice (req.Devices.getD []) with ⟨k, dev, e⟩
  dsimp only
  split_ifs <;> rfl

theorem localRootPool_dev (w : PoolLookups) (req : InstancesPost) :
    (localRootPool w req).2.2.1 = (w.GetRootDiskDevice (req.Devices.getD [])).2.1 ∨
      (localRootPool w req).2.2.1 =
        setKey (w.GetRootDiskDevice (req.Devices.getD [])).2.1 "pool" "" := by
  unfold localRootPool
  rcases w.GetRootDiskDevice (req.Devices.getD []) with ⟨k, dev, e⟩
  dsimp only
  split_ifs
  · exact Or.inr rfl
  · exact Or.inl rfl
  · exact Or.inr rfl
  · exact Or.inl rfl

theorem localRootPool_device (w : PoolLookups) (req : InstancesPost)
    (hgrd : RootDiskContract w.GetRootDiskDevice) (hkey : (localRootPool w req).2.1 ≠ "") :
    ∃ d0, lookupKey (req.Devices.getD []) (localRootPool w req).2.1 = some d0 ∧
      prop d0 "path" = "/" ∧
      (prop (localRootPool w req).2.2.1 "pool" ≠ "" → (localRootPool w req).2.2.1 = d0) := by
  rw [localRootPool_key] at hkey ⊢
  rcases hroot : w.GetRootDiskDevice (req.Devices.getD []) with ⟨k, dev, e⟩
  rw [hroot] at hkey
  obtain ⟨h1, h2⟩ := hgrd _ k dev e hroot hkey
  refine ⟨dev, h1, h2, ?_⟩
  intro hne
  rcases localRootPool_dev w req with h | h
  · rw [h, hroot]
  · rw [h] at hne
    exact absurd (prop_setKey_self _ "pool" "") hne

theorem migrationPlan_error_isError (w : MigrationCalls) (project : String)
    (req : InstancesPost) (r : Response) (h : migrationPlan w project req = .error r) :
    r.isError = true := by
  unfold migrationPlan at h
  split at h
  · cases h; rfl
  · split at h
    · cases h; rfl
    · split at h
      · cases h; rfl
      · split at h
        · cases h; rfl
        · split at h
          · cases h; rfl
          · dsimp only at h
            split at h
            · cases h; rfl
            · split at h
              · next resp hresp =>
                cases h
                exact containerFindStoragePool_resp_isError _ _ _ _ hresp
              · split at h
                · cases h; rfl
                · cases h

theorem createRecord_error_isError (w : MigrationCalls) (req : InstancesPost)
    (args : InstanceArgs) (storagePool : String) (r : Response)
    (h : createRecord w req args storagePool = .error r) : r.isError = true := by
  unfold createRecord at h
  repeat' split at h
  all_goals first
    | (cases h; rfl)
    | cases h

theorem sourceCertificate_error_isError (w : MigrationCalls) (req : InstancesPost)
    (r : Response) (h : sourceCertificate w req = .error r) : r.isError = true := by
  unfold sourceCertificate at h
  repeat' split at h
  all_goals first
    | (cases h; rfl)
    | cases h

theorem newSink_error_isError (w : MigrationCalls) (req : InstancesPost) (refresh : Bool)
    (inst : Option Instance) (r : Response) (h : newSink w req refresh inst = .error r) :
    r.isError = true := by
  unfold newSink at h
  split at h
  · next r1 hr1 =>
    cases h
    exact sourceCertificate_error_isError w req _ hr1
  · repeat' split at h
    all_goals first
      | (cases h; rfl)
      | cases h

theorem migrationBody_cases (w : MigrationCalls) (plan : MigrationPlan) (refresh : Bool)
    (inst0 : Option Instance) :
    (∃ r, r.isError = true ∧ refresh = false ∧
      migrationBody w plan refresh inst0 = ⟨r, true, none, []⟩) ∨
    (∃ r i, r.isError = true ∧ refresh = false ∧
      migrationBody w plan refresh inst0 =
        ⟨r, true, some i, [Event.createInstance i plan.args]⟩) ∨
    (∃ op i, refresh = false ∧
      migrationBody w plan refresh inst0 =
        ⟨.OperationResponse op, false, some i,
          [Event.createInstance i plan.args, Event.createOperation op]⟩) ∨
    (∃ r, r.isError = true ∧ refresh = true ∧
      migrationBody w plan refresh inst0 = ⟨r, true, inst0, []⟩) ∨
    (∃ op, refresh = true ∧
      migrationBody w plan refresh inst0 =
        ⟨.OperationResponse op, false, inst0, [Event.createOperation op]⟩) := by
  unfold migrationBody
  cases refresh with
  | false =>
    rw [if_pos rfl]
    cases hc : createRecord w plan.req plan.args plan.storagePool with
    | error r =>
      exact Or.inl ⟨r, createRecord_error_isError _ _ _ _ _ hc, rfl, rfl⟩
    | ok i =>
      dsimp only
      cases hs : newSink w plan.req false (some i) with
      | error r =>
        exact Or.inr (Or.inl ⟨r, i, newSink_error_isError _ _ _ _ _ hs, rfl, rfl⟩)
      | ok sink =>
        dsimp only
        cases ho : w.OperationCreate (migrationOperation plan.req sink) with
        | some err => exact Or.inr (Or.inl ⟨.InternalError err, i, rfl, rfl, rfl⟩)
        | none => exact Or.inr (Or.inr (Or.inl ⟨_, i, rfl, rfl⟩))
  | true =>
    rw [if_neg (by decide)]
    dsimp only
    cases hs : newSink w plan.req true inst0 with
    | error r =>
      exact Or.inr (Or.inr (Or.inr (Or.inl ⟨r, newSink_error_isError _ _ _ _ _ hs, rfl, rfl⟩)))
    | ok sink =>
      dsimp only
      cases ho : w.OperationCreate (migrationOperation plan.req sink) with
      | some err =>
        exact Or.inr (Or.inr (Or.inr (Or.inl ⟨.InternalError err, rfl, rfl, rfl⟩)))
      | none => exact Or.inr (Or.inr (Or.inr (Or.inr ⟨_, rfl, rfl⟩)))

theorem earlyRefresh_inst (w : MigrationCalls) (project : String) (req : InstancesPost)
    (refresh : Bool) (inst0 : Option Instance)
    (h : earlyRefresh w project req = .ok (refresh, inst0)) :
    (refresh = false ∧ inst0 = none) ∨ (refresh = true ∧ ∃ i, inst0 = some i) := by
  unfold earlyRefresh at h
  split at h
  · split at h
    · simp only [Except.ok.injEq, Prod.mk.injEq] at h
      exact Or.inl ⟨h.1.symm, h.2.symm⟩
    · split at h
      · cases h
      · simp only [Except.ok.injEq, Prod.mk.injEq] at h
        exact Or.inr ⟨h.1.symm, _, h.2.symm⟩
  · simp only [Except.ok.injEq, Prod.mk.injEq] at h
    exact Or.inl ⟨h.1.symm, h.2.symm⟩

theorem earlyRefresh_error_isError (w : MigrationCalls) (project : String)
    (req : InstancesPost) (r : Response) (h : earlyRefresh w project req = .error r) :
    r.isError = true := by
  unfold earlyRefresh at h
  repeat' split at h
  all_goals first
    | (cases h; rfl)
    | cases h

theorem createFromMigration_of_plan_error (w : MigrationCalls) (project : String)
    (req : InstancesPost) (r : Response) (h : migrationPlan w project req = .error r) :
    createFromMigration w project req = (r, []) := by
  simp [createFromMigration, h]

theorem createFromMigration_cases (w : MigrationCalls) (project : String)
    (req : InstancesPost) (plan : MigrationPlan)
    (hplan : migrationPlan w project req = .ok plan) :
    (∃ r, r.isError = true ∧ createFromMigration w project req = (r, []) ∧
      migrationCaptured w project req = none) ∨
    (∃ r i, r.isError = true ∧
      createFromMigration w project req =
        (r, [Event.createInstance i plan.args, Event.deleteInstance i]) ∧
      migrationCaptured w project req = none) ∨
    (∃ op i,
      createFromMigration w project req =
        (.OperationResponse op, [Event.createInstance i plan.args, Event.createOperation op]) ∧
      migrationCaptured w project req = some (false, some i)) ∨
    (∃ op i,
      createFromMigration w project req = (.OperationResponse op, [Event.createOperation op]) ∧
      migrationCaptured w project req = some (true, some i)) := by
  unfold createFromMigration migrationCaptured
  rw [hplan]
  dsimp only
  cases he : earlyRefresh w project plan.req with
  | error r => exact Or.inl ⟨r, earlyRefresh_error_isError _ _ _ _ he, rfl, rfl⟩
  | ok ri =>
    obtain ⟨refresh, inst0⟩ := ri
    dsimp only
    rcases migrationBody_cases w plan refresh inst0 with
      ⟨r, hr, hf, hb⟩ | ⟨r, i, hr, hf, hb⟩ | ⟨op, i, hf, hb⟩ | ⟨r, hr, hf, hb⟩ | ⟨op, hf, hb⟩
    · rw [hb]
      exact Or.inl ⟨r, hr, by simp [deferredRevert], by simp⟩
    · rw [hb]
      exact Or.inr (Or.inl ⟨r, i, hr, by simp [deferredRevert, hf], by simp⟩)
    · rw [hb]
      exact Or.inr (Or.inr (Or.inl ⟨op, i, by simp [deferredRevert], by simp [hf]⟩))
    · rw [hb]
      refine Or.inl ⟨r, hr, ?_, by simp⟩
      cases inst0 <;> simp [deferredRevert, hf]
    · rcases earlyRefresh_inst w project plan.req refresh inst0 he with ⟨h1, -⟩ | ⟨-, i, hi⟩
      · rw [h1] at hf; cases hf
      · rw [hb]
        exact Or.inr (Or.inr (Or.inr ⟨op, i, by simp [deferredRevert, hi], by simp [hf, hi]⟩))

theorem migrationBody_revert (w : MigrationCalls) (plan : MigrationPlan) (refresh : Bool)
    (inst0 : Option Instance) :
    (migrationBody w plan refresh inst0).revert = false ↔
      (migrationBody w plan refresh inst0).resp.isError = false := by
  rcases migrationBody_cases w plan refresh inst0 with
    ⟨r, hr, -, hb⟩ | ⟨r, i, hr, -, hb⟩ | ⟨op, i, -, hb⟩ | ⟨r, hr, -, hb⟩ | ⟨op, -, hb⟩
  all_goals rw [hb]
  all_goals first
    | simp [hr]
    | simp [Response.isError]

/-- C8: the guard `revert` is false at a return of `createFromMigration` exactly when that
return hands back the registered operation; and once an instance record has been created
(which happens only when refresh is not in effect), every return with an error response
deletes that record, while the return with the operation response registers the operation
and deletes nothing. -/
theorem createFromMigration_revert (w : MigrationCalls) (project : String)
    (req : InstancesPost) (inst : Instance) (args : InstanceArgs)
    (hcreated : Event.createInstance inst args ∈ (createFromMigration w project req).2) :
    (∀ plan refresh inst0, (migrationBody w plan refresh inst0).revert = false ↔
      (migrationBody w plan refresh inst0).resp.isError = false) ∧
    ((createFromMigration w project req).1.isError = true →
      (createFromMigration w project req).2 =
        [Event.createInstance inst args, Event.deleteInstance inst]) ∧
    ((createFromMigration w project req).1.isError = false →
      ∃ op, (createFromMigration w project req).1 = .OperationResponse op ∧
        (createFromMigration w project req).2 =
          [Event.createInstance inst args, Event.createOperation op]) := by
  refine ⟨migrationBody_revert w, ?_⟩
  cases hplan : migrationPlan w project req with
  | error r =>
    rw [createFromMigration_of_plan_error w project req r hplan] at hcreated
    cases hcreated
  | ok plan =>
    rcases createFromMigration_cases w project req plan hplan with
      ⟨r, hr, hc, -⟩ | ⟨r, i, hr, hc, -⟩ | ⟨op, i, hc, -⟩ | ⟨op, i, hc, -⟩
    · rw [hc] at hcreated
      cases hcreated
    · rw [hc] at hcreated ⊢
      simp only [List.mem_cons, Event.createInstance.injEq, List.mem_singleton,
        List.not_mem_nil, or_false, reduceCtorEq] at hcreated
      obtain ⟨h1, h2⟩ := hcreated
      subst h1 h2
      exact ⟨fun _ => rfl, fun h => by rw [hr] at h; cases h⟩
    · rw [hc] at hcreated ⊢
      simp only [List.mem_cons, Event.createInstance.injEq, List.mem_singleton,
        List.not_mem_nil, or_false, reduceCtorEq] at hcreated
      obtain ⟨h1, h2⟩ := hcreated
      subst h1 h2
      exact ⟨fun h => (by cases h), fun _ => ⟨op, rfl, rfl⟩⟩
    · rw [hc] at hcreated
      simp at hcreated

theorem createFromMigration_revert_witness :
    (createFromMigration (callsOf (clusterOf ["default"] [("default", ⟨[]⟩)]) ["default"])
        "default" { Name := "c1", Source := { Mode := "pull", Certificate := "bad" } }).2 =
      [Event.createInstance ⟨"c1", false⟩
          { Project := "default", Architecture := 2, BaseImage := "", Config := none,
            InstType := .Container, Devices := [("root", rootDev "default")],
            Description := "", Ephemeral := false, Name := "c1", Profiles := ["default"],
            Stateful := false },
        Event.deleteInstance ⟨"c1", false⟩] :=
  (createFromMigration_revert
    (callsOf (clusterOf ["default"] [("default", ⟨[]⟩)]) ["default"]) "default"
    { Name := "c1", Source := { Mode := "pull", Certificate := "bad" } } ⟨"c1", false⟩
    { Project := "default", Architecture := 2, BaseImage := "", Config := none,
      InstType := .Container, Devices := [("root", rootDev "default")],
      Description := "", Ephemeral := false, Name := "c1", Profiles := ["default"],
      Stateful := false }
    (by decide)).2.1 (by decide)

/-- C7: for the work function of a registered migration, with `refresh` and `inst` as it
captures them: if the transfer or the template hook with trigger `copy` fails, the work
function fails and deletes the instance when refresh is not in effect, and issues no delete
when refresh is in effect; if both succeed it succeeds and issues no delete. When refresh is
not in effect the captured instance is the one `createFromMigration` created; when it is in
effect `createFromMigration` created none. -/
theorem migrationRun_rollback (w : MigrationCalls) (project : String) (req : InstancesPost)
    (refresh : Bool) (inst : Instance) (sinkDo : Option Err)
    (deferTemplateApply : String → Option Err)
    (hcap : migrationCaptured w project req = some (refresh, some inst)) :
    (sinkDo ≠ none ∨ deferTemplateApply "copy" ≠ none → refresh = false →
      (migrationRun refresh (some inst) sinkDo deferTemplateApply).2 =
          [Event.deleteInstance inst] ∧
        (migrationRun refresh (some inst) sinkDo deferTemplateApply).1 ≠ none) ∧
    (sinkDo ≠ none ∨ deferTemplateApply "copy" ≠ none → refresh = true →
      (migrationRun refresh (some inst) sinkDo deferTemplateApply).2 = [] ∧
        (migrationRun refresh (some inst) sinkDo deferTemplateApply).1 ≠ none) ∧
    (sinkDo = none → deferTemplateApply "copy" = none →
      migrationRun refresh (some inst) sinkDo deferTemplateApply = (none, [])) ∧
    (refresh = false → ∃ args op, (createFromMigration w project req).2 =
      [Event.createInstance inst args, Event.createOperation op]) ∧
    (refresh = true → ∃ op, (createFromMigration w project req).2 =
      [Event.createOperation op]) := by
  refine ⟨?_, ?_, ?_, ?_, ?_⟩
  · intro hfail hr
    subst hr
    cases sinkDo with
    | some e => simp [migrationRun]
    | none =>
      cases hd : deferTemplateApply "copy" with
      | some e => simp [migrationRun, hd]
      | none => simp [hd] at hfail
  · intro hfail hr
    subst hr
    cases sinkDo with
    | some e => simp [migrationRun]
    | none =>
      cases hd : deferTemplateApply "copy" with
      | some e => simp [migrationRun, hd]
      | none => simp [hd] at hfail
  · intro h1 h2
    simp [migrationRun, h1, h2]
  · intro hr
    subst hr
    cases hplan : migrationPlan w project req with
    | error r => simp [migrationCaptured, hplan] at hcap
    | ok plan =>
      rcases createFromMigration_cases w project req plan hplan with
        ⟨r, -, -, hc⟩ | ⟨r, i, -, -, hc⟩ | ⟨op, i, hc, hm⟩ | ⟨op, i, -, hm⟩
      · rw [hc] at hcap; cases hcap
      · rw [hc] at hcap; cases hcap
      · rw [hm] at hcap
        simp only [Option.some.injEq, Prod.mk.injEq, true_and] at hcap
        subst hcap
        exact ⟨plan.args, op, by rw [hc]⟩
      · rw [hm] at hcap
        simp at hcap
  · intro hr
    subst hr
    cases hplan : migrationPlan w project req with
    | error r => simp [migrationCaptured, hplan] at hcap
    | ok plan =>
      rcases createFromMigration_cases w project req plan hplan with
        ⟨r, -, -, hc⟩ | ⟨r, i, -, -, hc⟩ | ⟨op, i, -, hm⟩ | ⟨op, i, hc, -⟩
      · rw [hc] at hcap; cases hcap
      · rw [hc] at hcap; cases hcap
      · rw [hm] at hcap
        simp at hcap
      · exact ⟨op, by rw [hc]⟩

theorem migrationRun_rollback_witness :
    (migrationRun false (some ⟨"c1", false⟩) (some (.msg "connection reset"))
        (fun _ => none)).2 = [Event.deleteInstance ⟨"c1", false⟩] ∧
      (migrationRun false (some ⟨"c1", false⟩) (some (.msg "connection reset"))
        (fun _ => none)).1 ≠ none :=
  (migrationRun_rollback (callsOf (clusterOf ["default"] [("default", ⟨[]⟩)]) ["default"])
    "default" { Name := "c1", Source := { Mode := "pull" } } false ⟨"c1", false⟩
    (some (.msg "connection reset")) (fun _ => none) (by decide)).1
    (Or.inl (by decide)) rfl

/-- C6 (counterexample): a request without devices whose profile supplies the root disk is
accepted, and the instance is created with creation arguments whose device map holds no
root-disk device at all. -/
theorem createFromMigration_profile_root_only :
    createFromMigration
        (callsOf (clusterOf ["default"] [("default", rootProfile "default")]) ["default"])
        "default" { Name := "c1", Source := { Mode := "pull" } } =
      (.OperationResponse
          ⟨.Task, [("instances", ["c1"]), ("containers", ["c1"])], none, false⟩,
        [Event.createInstance ⟨"c1", false⟩
            { Project := "default", Architecture := 2, BaseImage := "", Config := none,
              InstType := .Container, Devices := [], Description := "", Ephemeral := false,
              Name := "c1", Profiles := ["default"], Stateful := false },
          Event.createOperation
            ⟨.Task, [("instances", ["c1"]), ("containers", ["c1"])], none, false⟩]) ∧
      ¬ hasRootPool [] := by
  refine ⟨by decide, ?_⟩
  rintro ⟨k, d, h, -⟩
  cases h

/-- C6 (amended): for every request, either it is rejected with an error response before
any instance record is created or operation registered, or every instance record is created
with the creation arguments of the plan, and their device map contains a root-disk device
(path `/`) with a non-empty pool, or else the request has no root-disk device of its own and
the resolved pool is the root-disk pool of one of the profiles of the creation arguments.
`GetRootDiskDevice` is taken to return a key of the device set together with the device
stored under it, which has path `/`. -/
theorem createFromMigration_root_pool (w : MigrationCalls) (project : String)
    (req : InstancesPost) (hgrd : RootDiskContract w.pools.GetRootDiskDevice) :
    (∃ r, r.isError = true ∧ createFromMigration w project req = (r, [])) ∨
    (∃ plan, migrationPlan w project req = .ok plan ∧ plan.storagePool ≠ "" ∧
      (∀ inst args, Event.createInstance inst args ∈ (createFromMigration w project req).2 →
        args = plan.args) ∧
      (hasRootPool plan.args.Devices ∨
        ((w.pools.GetRootDiskDevice (req.Devices.getD [])).1 = "" ∧
          ∃ pName p, pName ∈ plan.args.Profiles ∧ w.pools.ProfileGet project pName = .ok p ∧
            definesRootPool w.pools p ∧
            plan.storagePool = prop (w.pools.GetRootDiskDevice p.Devices).2.1 "pool"))) := by
  cases hplan : migrationPlan w project req with
  | error r =>
    exact Or.inl ⟨r, migrationPlan_error_isError w project req r hplan,
      createFromMigration_of_plan_error w project req r hplan⟩
  | ok plan =>
    right
    obtain ⟨hresp, hne, hpool, hdev, hprof, -⟩ := migrationPlan_ok w project req plan hplan
    obtain ⟨hkey, hlrd, hsupp⟩ :=
      containerFindStoragePool_found w.pools project (prefillProfiles req) hresp
    have hdevs : (prefillProfiles req).Devices = req.Devices := by
      unfold prefillProfiles
      split <;> rfl
    refine ⟨plan, rfl, by rw [hpool]; exact hne, ?_, ?_⟩
    · intro inst args hmem
      rcases createFromMigration_cases w project req plan hplan with
        ⟨r, -, hc, -⟩ | ⟨r, i, -, hc, -⟩ | ⟨op, i, hc, -⟩ | ⟨op, i, hc, -⟩
      all_goals rw [hc] at hmem
      all_goals simp at hmem
      · exact hmem.2
      · exact hmem.2
    · rw [hdev]
      unfold setRootDiskPool
      by_cases hk : (containerFindStoragePool w.pools project
          (prefillProfiles req)).1.localRootDiskDeviceKey = ""
      · by_cases hp : (containerFindStoragePool w.pools project
            (prefillProfiles req)).1.storagePoolProfile = ""
        · left
          rw [if_pos ⟨hk, hp⟩]
          exact ⟨_, _, lookupKey_setKey_self _ _ _, by
            simp [rootDev, prop, lookupKey, List.lookup], by
            simpa [rootDev, prop, lookupKey, List.lookup] using hne⟩
        · right
          rcases hsupp with h | ⟨hmem, p, hpget, hdef, hsp⟩
          · exact absurd h hp
          · refine ⟨?_, _, p, ?_, hpget, hdef, ?_⟩
            · rw [hk, localRootPool_key, hdevs] at hkey
              exact hkey.symm
            · rw [hprof]; exact hmem
            · rw [hpool]; exact hsp
      · left
        have hk2 : (localRootPool w.pools (prefillProfiles req)).2.1 ≠ "" := by
          rw [← hkey]; exact hk
        obtain ⟨d0, hd0, hpath, hsame⟩ :=
          localRootPool_device w.pools (prefillProfiles req) hgrd hk2
        rw [← hkey, hdevs] at hd0
        rw [← hlrd] at hsame
        rw [if_neg (fun h => hk h.1)]
        by_cases hpl : prop (containerFindStoragePool w.pools project
            (prefillProfiles req)).1.localRootDiskDevice "pool" = ""
        · rw [if_pos ⟨hk, hpl⟩]
          refine ⟨_, _, lookupKey_setKey_self _ _ _, ?_, ?_⟩
          · rw [hd0, Option.getD_some, prop_setKey_other _ _ _ _ (by decide)]
            exact hpath
          · rw [prop_setKey_self]
            exact hne
        · rw [if_neg (fun h => hpl h.2)]
          refine ⟨_, d0, hd0, hpath, ?_⟩
          rw [← hsame hpl]
          exact hpl

theorem GetRootDiskDevice_contract : RootDiskContract GetRootDiskDevice := by
  intro devices k d e h hk
  unfold GetRootDiskDevice at h
  split at h
  · next k1 d1 hf =>
    simp only [Prod.mk.injEq] at h
    obtain ⟨h1, h2, -⟩ := h
    subst h1 h2
    have hmem : (k1, d1) ∈ devices.filter (fun e =>
        decide (lookupKey devices e.1 = some e.2) && decide (prop e.2 "path" = "/")) := by
      rw [hf]; exact List.mem_singleton_self _
    simpa using (List.mem_filter.mp hmem).2
  · simp only [Prod.mk.injEq] at h
    exact absurd h.1.symm hk
  · simp only [Prod.mk.injEq] at h
    exact absurd h.1.symm hk

theorem createFromMigration_root_pool_witness :
    (∃ r, r.isError = true ∧
      createFromMigration (callsOf (clusterOf ["default"] [("default", ⟨[]⟩)]) ["default"])
        "default" { Name := "c1", Source := { Mode := "pull" },
                    Devices := some [("disk0", [("type", "disk"), ("path", "/")])] } =
        (r, [])) ∨
    (∃ plan,
      migrationPlan (callsOf (clusterOf ["default"] [("default", ⟨[]⟩)]) ["default"])
        "default" { Name := "c1", Source := { Mode := "pull" },
                    Devices := some [("disk0", [("type", "disk"), ("path", "/")])] } =
        .ok plan ∧ plan.storagePool ≠ "" ∧
      (∀ inst args, Event.createInstance inst args ∈
        (createFromMigration (callsOf (clusterOf ["default"] [("default", ⟨[]⟩)]) ["default"])
          "default" { Name := "c1", Source := { Mode := "pull" },
                      Devices := some [("disk0", [("type", "disk"), ("path", "/")])] }).2 →
        args = plan.args) ∧
      (hasRootPool plan.args.Devices ∨
        ((GetRootDiskDevice [("disk0", [("type", "disk"), ("path", "/")])]).1 = "" ∧
          ∃ pName p, pName ∈ plan.args.Profiles ∧
            (clusterOf ["default"] [("default", ⟨[]⟩)]).ProfileGet "default" pName = .ok p ∧
            definesRootPool (clusterOf ["default"] [("default", ⟨[]⟩)]) p ∧
            plan.storagePool = prop (GetRootDiskDevice p.Devices).2.1 "pool"))) :=
  createFromMigration_root_pool
    (callsOf (clusterOf ["default"] [("default", ⟨[]⟩)]) ["default"]) "default"
    { Name := "c1", Source := { Mode := "pull" },
      Devices := some [("disk0", [("type", "disk"), ("path", "/")])] }
    GetRootDiskDevice_contract

/-! ## Properties of the config and devices override of `createFromCopy` -/

theorem lookupKey_cons {β : Type} (m : List (String × β)) (k0 k : String) (v0 : β) :
    lookupKey ((k0, v0) :: m) k = if k = k0 then some v0 else lookupKey m k := by
  by_cases h : k = k0
  · simp [lookupKey, List.lookup, h]
  · have hne : (k == k0) = false := by simpa using h
    simp [lookupKey, List.lookup, h, hne]

theorem lookupKey_configOverrideLoop (sourceConfig reqConfig : Config) (k : String) :
    lookupKey (configOverrideLoop sourceConfig reqConfig) k =
      (match lookupKey reqConfig k with
        | some v => some v
        | none => if skipVolatile k = true then none else lookupKey sourceConfig k) := by
  induction sourceConfig generalizing reqConfig with
  | nil =>
    simp only [configOverrideLoop]
    cases lookupKey reqConfig k <;> simp [lookupKey]
  | cons e rest ih =>
    obtain ⟨key, value⟩ := e
    simp only [configOverrideLoop, lookupKey_cons]
    by_cases hskip : skipVolatile key = true
    · rw [if_pos hskip, ih]
      cases lookupKey reqConfig k with
      | some v => rfl
      | none =>
        dsimp only
        by_cases hk : k = key
        · subst hk; simp [hskip]
        · simp [hk]
    · rw [if_neg hskip]
      cases hex : lookupKey reqConfig key with
      | some v0 =>
        simp only [Option.isSome_some, if_true]
        rw [ih]
        cases hl : lookupKey reqConfig k with
        | some v => rfl
        | none =>
          dsimp only
          have hk : k ≠ key := by
            intro h; subst h; rw [hex] at hl; cases hl
          simp [hk]
      | none =>
        simp only [Option.isSome_none, Bool.false_eq_true, if_false]
        rw [ih]
        by_cases hk : k = key
        · subst hk
          simp [lookupKey_setKey_self, hex, hskip]
        · rw [lookupKey_setKey_other _ _ _ _ hk]
          simp [hk]

theorem lookupKey_devicesOverrideLoop (sourceDevices reqDevices : Devices) (k : String) :
    lookupKey (devicesOverrideLoop sourceDevices reqDevices) k =
      (match lookupKey reqDevices k with
        | some d => some d
        | none => lookupKey sourceDevices k) := by
  induction sourceDevices generalizing reqDevices with
  | nil =>
    simp only [devicesOverrideLoop]
    cases lookupKey reqDevices k <;> simp [lookupKey]
  | cons e rest ih =>
    obtain ⟨key, value⟩ := e
    simp only [devicesOverrideLoop, lookupKey_cons]
    cases hex : lookupKey reqDevices key with
    | some v0 =>
      simp only [Option.isSome_some, if_true]
      rw [ih]
      cases hl : lookupKey reqDevices k with
      | some v => rfl
      | none =>
        dsimp only
        have hk : k ≠ key := by
          intro h; subst h; rw [hex] at hl; cases hl
        simp [hk]
    | none =>
      simp only [Option.isSome_none, Bool.false_eq_true, if_false]
      rw [ih]
      by_cases hk : k = key
      · subst hk
        simp [lookupKey_setKey_self, hex]
      · rw [lookupKey_setKey_other _ _ _ _ hk]
        simp [hk]

theorem skipVolatile_dotted (rest : String) :
    skipVolatile ("volatile." ++ rest) =
      !StringInSlice rest ["base_image", "last_state.idmap"] := by
  have hlen : ("volatile." ++ rest).length > 8 := by
    simp only [String.length_append]
    have : "volatile.".length = 9 := by decide
    omega
  have hdata : ("volatile." ++ rest).data =
      'v' :: 'o' :: 'l' :: 'a' :: 't' :: 'i' :: 'l' :: 'e' :: '.' :: rest.data := by
    rw [String.data_append]; rfl
  have hslice : goSlice ("volatile." ++ rest) 0 8 = "volatile" := by
    unfold goSlice
    rw [hdata]
    rfl
  have hfrom : goSliceFrom ("volatile." ++ rest) 9 = rest := by
    unfold goSliceFrom
    rw [hdata]
    rfl
  have h8 : decide (("volatile." ++ rest).length > 8) = true := decide_eq_true hlen
  unfold skipVolatile
  rw [hslice, hfrom, h8]
  simp

theorem dotted_ne (rest name : String) (h : "volatile." ++ rest ≠ "volatile." ++ name) :
    rest ≠ name := by
  intro hrn
  exact h (by rw [hrn])

theorem configOverride_volatile (sourceConfig : Config) (reqConfig : Option Config)
    (base idmap : String)
    (hbase : lookupKey sourceConfig "volatile.base_image" = some base)
    (hidmap : lookupKey sourceConfig "volatile.last_state.idmap" = some idmap)
    (hreq : ∀ k, lookupKey (reqConfig.getD []) k = none) :
    lookupKey (configOverride sourceConfig reqConfig) "volatile.base_image" = some base ∧
    lookupKey (configOverride sourceConfig reqConfig) "volatile.last_state.idmap" =
      some idmap ∧
    ∀ rest, "volatile." ++ rest ≠ "volatile.base_image" →
      "volatile." ++ rest ≠ "volatile.last_state.idmap" →
      lookupKey (configOverride sourceConfig reqConfig) ("volatile." ++ rest) = none := by
  refine ⟨?_, ?_, ?_⟩
  · unfold configOverride
    rw [lookupKey_configOverrideLoop, hreq]
    have hs : skipVolatile "volatile.base_image" = false := by decide
    simp [hs, hbase]
  · unfold configOverride
    rw [lookupKey_configOverrideLoop, hreq]
    have hs : skipVolatile "volatile.last_state.idmap" = false := by decide
    simp [hs, hidmap]
  · intro rest h1 h2
    have hr1 : rest ≠ "base_image" := dotted_ne rest "base_image" h1
    have hr2 : rest ≠ "last_state.idmap" := dotted_ne rest "last_state.idmap" h2
    unfold configOverride
    rw [lookupKey_configOverrideLoop, hreq, skipVolatile_dotted]
    simp [StringInSlice, hr1, hr2]

theorem configOverride_volatile_witness :
    lookupKey (configOverride
        [("volatile.base_image", "8f3a"), ("volatile.last_state.idmap", "[]"),
          ("volatile.some_other_key", "x"), ("limits.cpu", "2")] none)
        "volatile.base_image" = some "8f3a" ∧
      lookupKey (configOverride
        [("volatile.base_image", "8f3a"), ("volatile.last_state.idmap", "[]"),
          ("volatile.some_other_key", "x"), ("limits.cpu", "2")] none)
        "volatile.last_state.idmap" = some "[]" ∧
      lookupKey (configOverride
        [("volatile.base_image", "8f3a"), ("volatile.last_state.idmap", "[]"),
          ("volatile.some_other_key", "x"), ("limits.cpu", "2")] none)
        ("volatile." ++ "some_other_key") = none :=
  have h := configOverride_volatile
    [("volatile.base_image", "8f3a"), ("volatile.last_state.idmap", "[]"),
      ("volatile.some_other_key", "x"), ("limits.cpu", "2")] none "8f3a" "[]"
    (by decide) (by decide) (fun _ => rfl)
  ⟨h.1, h.2.1, h.2.2 "some_other_key" (by decide) (by decide)⟩

/-- C10: a key present in the request's config before the merge of `createFromCopy` keeps
the request's value in the merged config, whatever the source's local config holds for it;
and a device key present in the request keeps the request's device in the merged device
map, whatever the source's local devices hold for it. -/
theorem copy_override_keeps_request (sourceConfig : Config) (reqConfig : Option Config)
    (sourceDevices : Devices) (reqDevices : Option Devices) (k v j : String) (d : Device)
    (hconfig : lookupKey (reqConfig.getD []) k = some v)
    (hdevice : lookupKey (reqDevices.getD []) j = some d) :
    lookupKey (configOverride sourceConfig reqConfig) k = some v ∧
      lookupKey (devicesOverride sourceDevices reqDevices) j = some d := by
  constructor
  · unfold configOverride
    rw [lookupKey_configOverrideLoop, hconfig]
  · unfold devicesOverride
    rw [lookupKey_devicesOverrideLoop, hdevice]

theorem copy_override_keeps_request_witness :
    lookupKey (configOverride [("limits.cpu", "2"), ("user.a", "src")]
        (some [("limits.cpu", "4")])) "limits.cpu" = some "4" ∧
      lookupKey (devicesOverride [("eth0", nicDevice), ("root", rootDev "slow")]
        (some [("root", rootDev "fast")])) "root" = some (rootDev "fast") :=
  copy_override_keeps_request [("limits.cpu", "2"), ("user.a", "src")]
    (some [("limits.cpu", "4")]) [("eth0", nicDevice), ("root", rootDev "slow")]
    (some [("root", rootDev "fast")]) "limits.cpu" "4" "root" (rootDev "fast")
    (by decide) (by decide)

/-! ## Validation in `createFromMigration`, and the stale pool of the resolver -/

/-- C13: a migration request whose source mode is neither `pull` nor `push` is answered with
the "not implemented" error response, and nothing has happened by then: no instance record
is created and no operation registered, whatever else the request holds. -/
theorem createFromMigration_mode (w : MigrationCalls) (project : String) (req : InstancesPost)
    (hpull : req.Source.Mode ≠ "pull") (hpush : req.Source.Mode ≠ "push") :
    createFromMigration w project req =
        (.NotImplemented (.msg ("Mode '" ++ req.Source.Mode ++ "' not implemented")), []) ∧
      (createFromMigration w project req).1.isError = true := by
  have h : migrationPlan w project req =
      .error (.NotImplemented (.msg ("Mode '" ++ req.Source.Mode ++ "' not implemented"))) := by
    unfold migrationPlan
    rw [if_pos ⟨hpull, hpush⟩]
  rw [createFromMigration_of_plan_error w project req _ h]
  exact ⟨rfl, rfl⟩

theorem createFromMigration_mode_witness :
    createFromMigration (callsOf (clusterOf ["default"] [("default", ⟨[]⟩)]) ["default"])
        "default" { Name := "c1", Source := { Mode := "relay" } } =
      (.NotImplemented (.msg ("Mode '" ++ "relay" ++ "' not implemented")), []) ∧
    (createFromMigration (callsOf (clusterOf ["default"] [("default", ⟨[]⟩)]) ["default"])
        "default" { Name := "c1", Source := { Mode := "relay" } }).1.isError = true :=
  createFromMigration_mode (callsOf (clusterOf ["default"] [("default", ⟨[]⟩)]) ["default"])
    "default" { Name := "c1", Source := { Mode := "relay" } } (by decide) (by decide)

theorem migrationPlan_not_container (w : MigrationCalls) (project : String)
    (req : InstancesPost) (hmode : req.Source.Mode = "pull" ∨ req.Source.Mode = "push")
    (htype : w.instancetypeNew req.InstanceKind ≠ .ok .Container) :
    ∃ e, migrationPlan w project req = .error (.BadRequest e) := by
  have hm : ¬ (req.Source.Mode ≠ "pull" ∧ req.Source.Mode ≠ "push") := by
    rintro ⟨h1, h2⟩
    rcases hmode with h | h
    · exact h1 h
    · exact h2 h
  unfold migrationPlan
  rw [if_neg hm]
  cases w.ArchitectureId req.Architecture with
  | error err => exact ⟨err, rfl⟩
  | ok architecture =>
    dsimp only
    cases ht : w.instancetypeNew req.InstanceKind with
    | error err => exact ⟨err, rfl⟩
    | ok dbType =>
      dsimp only
      have hne : dbType ≠ .Container := by
        intro h
        rw [h] at ht
        exact htype ht
      rw [if_pos hne]
      exact ⟨_, rfl⟩

theorem migrationPlan_unknown_profile_or_pool (w : MigrationCalls) (project : String)
    (req : InstancesPost) (profiles : List String)
    (hmode : req.Source.Mode = "pull" ∨ req.Source.Mode = "push")
    (hprofiles : w.Profiles project = .ok profiles)
    (hbad : (∃ p ∈ (prefillProfiles req).Profiles.getD [], p ∉ profiles) ∨
      ((containerFindStoragePool w.pools project (prefillProfiles req)).1.resp = none ∧
        (containerFindStoragePool w.pools project (prefillProfiles req)).1.storagePool = "")) :
    ∃ e, migrationPlan w project req = .error (.BadRequest e) := by
  by_cases htype : w.instancetypeNew req.InstanceKind = .ok .Container
  · have hm : ¬ (req.Source.Mode ≠ "pull" ∧ req.Source.Mode ≠ "push") := by
      rintro ⟨h1, h2⟩
      rcases hmode with h | h
      · exact h1 h
      · exact h2 h
    unfold migrationPlan
    rw [if_neg hm]
    cases w.ArchitectureId req.Architecture with
    | error err => exact ⟨err, rfl⟩
    | ok architecture =>
      dsimp only
      rw [htype]
      dsimp only
      rw [if_neg (by simp), hprofiles]
      dsimp only
      cases hfind : ((prefillProfiles req).Profiles.getD []).find?
          (fun profile => !StringInSlice profile profiles) with
      | some p => exact ⟨_, rfl⟩
      | none =>
        dsimp only
        rcases hbad with ⟨p, hp, hnot⟩ | ⟨hresp, hpool⟩
        · have := List.find?_eq_none.mp hfind p hp
          simp [StringInSlice] at this
          exact absurd this hnot
        · rw [hresp]
          dsimp only
          rw [if_pos hpool]
          exact ⟨_, rfl⟩
  · exact migrationPlan_not_container w project req hmode htype

/-- C14: with a valid mode, a request whose instance type is not `container`, or (the
project's profiles being listed) whose profile list names a profile that does not exist in
the project, or for which the resolver finds no storage pool, is answered with a bad-request
response, and no instance record has been created and no operation registered. -/
theorem createFromMigration_validation (w : MigrationCalls) (project : String)
    (req : InstancesPost) (hmode : req.Source.Mode = "pull" ∨ req.Source.Mode = "push") :
    (w.instancetypeNew req.InstanceKind ≠ .ok .Container →
      ∃ e, createFromMigration w project req = (.BadRequest e, [])) ∧
    (∀ profiles p, w.Profiles project = .ok profiles →
      p ∈ (prefillProfiles req).Profiles.getD [] → p ∉ profiles →
      ∃ e, createFromMigration w project req = (.BadRequest e, [])) ∧
    (∀ profiles, w.Profiles project = .ok profiles →
      (containerFindStoragePool w.pools project (prefillProfiles req)).1.resp = none →
      (containerFindStoragePool w.pools project (prefillProfiles req)).1.storagePool = "" →
      ∃ e, createFromMigration w project req = (.BadRequest e, [])) := by
  refine ⟨?_, ?_, ?_⟩
  · intro htype
    obtain ⟨e, he⟩ := migrationPlan_not_container w project req hmode htype
    exact ⟨e, createFromMigration_of_plan_error w project req _ he⟩
  · intro profiles p hprofiles hp hnot
    obtain ⟨e, he⟩ := migrationPlan_unknown_profile_or_pool w project req profiles hmode
      hprofiles (Or.inl ⟨p, hp, hnot⟩)
    exact ⟨e, createFromMigration_of_plan_error w project req _ he⟩
  · intro profiles hprofiles hresp hpool
    obtain ⟨e, he⟩ := migrationPlan_unknown_profile_or_pool w project req profiles hmode
      hprofiles (Or.inr ⟨hresp, hpool⟩)
    exact ⟨e, createFromMigration_of_plan_error w project req _ he⟩

theorem createFromMigration_validation_witness :
    (∃ e, createFromMigration (callsOf (clusterOf ["default"] [("default", ⟨[]⟩)]) ["default"])
        "default" { Name := "vm1", InstanceKind := "virtual-machine",
                    Source := { Mode := "pull" } } = (.BadRequest e, [])) ∧
    (∃ e, createFromMigration (callsOf (clusterOf ["default"] [("default", ⟨[]⟩)]) ["default"])
        "default" { Name := "c1", Profiles := some ["default", "gone"],
                    Source := { Mode := "pull" } } = (.BadRequest e, [])) ∧
    (∃ e, createFromMigration (callsOf (clusterOf ["a", "b"] [("default", ⟨[]⟩)]) ["default"])
        "default" { Name := "c1", Source := { Mode := "push" } } = (.BadRequest e, [])) :=
  ⟨(createFromMigration_validation
      (callsOf (clusterOf ["default"] [("default", ⟨[]⟩)]) ["default"]) "default"
      { Name := "vm1", InstanceKind := "virtual-machine", Source := { Mode := "pull" } }
      (Or.inl rfl)).1 (by simp [callsOf]),
    (createFromMigration_validation
      (callsOf (clusterOf ["default"] [("default", ⟨[]⟩)]) ["default"]) "default"
      { Name := "c1", Profiles := some ["default", "gone"], Source := { Mode := "pull" } }
      (Or.inl rfl)).2.1 ["default"] "gone" rfl (by decide) (by decide),
    (createFromMigration_validation
      (callsOf (clusterOf ["a", "b"] [("default", ⟨[]⟩)]) ["default"]) "default"
      { Name := "c1", Source := { Mode := "push" } }
      (Or.inr rfl)).2.2 ["default"] rfl (by decide) (by decide)⟩

theorem localRootPool_of_root (w : PoolLookups) (req : InstancesPost) (k : String)
    (dev : Device) (e : Option Err)
    (hroot : w.GetRootDiskDevice (req.Devices.getD []) = (k, dev, e)) (hk : k ≠ "") :
    localRootPool w req =
      if prop dev "pool" ≠ "" ∧ isNoSuchObject (w.StoragePoolGetID (prop dev "pool")) = true
      then ("", k, setKey dev "pool" "",
        some (setKey (req.Devices.getD []) k (setKey dev "pool" "")))
      else (prop dev "pool", k, dev, req.Devices) := by
  unfold localRootPool
  rw [hroot]
  dsimp only
  rw [if_pos hk]

/-- C20: when the pool-existence lookup reports "no such object" for the pool named by the
request's root-disk device, `containerFindStoragePool` gives the same result, and leaves the
same request devices, as for the same request with that `pool` property empty; and when it
returns no error response, it returns the key of that device and the device with an empty
`pool`. `GetRootDiskDevice` is taken to find the same device under the same key once its
`pool` is emptied. -/
theorem containerFindStoragePool_stale_pool (w : PoolLookups) (project : String)
    (req : InstancesPost) (k : String) (dev : Device) (e e1 : Option Err)
    (hroot : w.GetRootDiskDevice (req.Devices.getD []) = (k, dev, e))
    (hk : k ≠ "") (hpool : prop dev "pool" ≠ "")
    (hstale : isNoSuchObject (w.StoragePoolGetID (prop dev "pool")) = true)
    (hcleared : w.GetRootDiskDevice (setKey (req.Devices.getD []) k (setKey dev "pool" "")) =
      (k, setKey dev "pool" "", e1)) :
    containerFindStoragePool w project req =
        containerFindStoragePool w project
          { req with Devices := some (setKey (req.Devices.getD []) k (setKey dev "pool" "")) } ∧
      ((containerFindStoragePool w project req).1.resp = none →
        (containerFindStoragePool w project req).1.localRootDiskDeviceKey = k ∧
        (containerFindStoragePool w project req).1.localRootDiskDevice =
          setKey dev "pool" "" ∧
        prop (containerFindStoragePool w project req).1.localRootDiskDevice "pool" = "") := by
  have h1 : localRootPool w req =
      ("", k, setKey dev "pool" "",
        some (setKey (req.Devices.getD []) k (setKey dev "pool" ""))) := by
    rw [localRootPool_of_root w req k dev e hroot hk, if_pos ⟨hpool, hstale⟩]
  have h2 : localRootPool w
      { req with Devices := some (setKey (req.Devices.getD []) k (setKey dev "pool" "")) } =
      ("", k, setKey dev "pool" "",
        some (setKey (req.Devices.getD []) k (setKey dev "pool" ""))) := by
    rw [localRootPool_of_root w
        { req with Devices := some (setKey (req.Devices.getD []) k (setKey dev "pool" "")) }
        k (setKey dev "pool" "") e1 hcleared hk,
      if_neg (fun h => h.1 (prop_setKey_self dev "pool" "")), prop_setKey_self]
  refine ⟨?_, ?_⟩
  · unfold containerFindStoragePool
    rw [h1, h2]
  · intro hresp
    obtain ⟨hkey, hdev, -⟩ := containerFindStoragePool_found w project req hresp
    rw [h1] at hkey hdev
    refine ⟨hkey, hdev, ?_⟩
    rw [hdev]
    exact prop_setKey_self _ _ _

theorem containerFindStoragePool_stale_pool_witness :
    containerFindStoragePool (clusterOf ["fast"] [("default", rootProfile "fast")]) "default"
        { Devices := some [("disk0", [("type", "disk"), ("path", "/"), ("pool", "gone")])],
          Profiles := some ["default"] } =
      containerFindStoragePool (clusterOf ["fast"] [("default", rootProfile "fast")]) "default"
        { Devices := some [("disk0", [("type", "disk"), ("path", "/"), ("pool", "")])],
          Profiles := some ["default"] } ∧
    (containerFindStoragePool (clusterOf ["fast"] [("default", rootProfile "fast")]) "default"
        { Devices := some [("disk0", [("type", "disk"), ("path", "/"), ("pool", "gone")])],
          Profiles := some ["default"] }).1 =
      ⟨"fast", "default", "disk0", [("type", "disk"), ("path", "/"), ("pool", "")], none⟩ :=
  ⟨(containerFindStoragePool_stale_pool
      (clusterOf ["fast"] [("default", rootProfile "fast")]) "default"
      { Devices := some [("disk0", [("type", "disk"), ("path", "/"), ("pool", "gone")])],
        Profiles := some ["default"] }
      "disk0" [("type", "disk"), ("path", "/"), ("pool", "gone")] none none
      (by decide) (by decide) (by decide) (by decide) (by decide)).1,
    by decide⟩

/-! ## Properties of `createFromCopy` -/

theorem copyRoute_of_lookups (w : CopyCalls) (project : String) (req : InstancesPost)
    (source : SourceInstance) (clustered : Bool) (serverName driver : String)
    (henabled : w.Enabled = .ok clustered) (hnode : w.NodeName = .ok serverName)
    (hfound : (containerFindStoragePool w.migration.pools project req).1.resp = none)
    (hdriver : w.StoragePoolGet
      (prop (w.migration.pools.GetRootDiskDevice source.ExpandedDevices).2.1 "pool") =
        .ok driver) :
    copyRoute w project req source =
      if clustered = true ∧ serverName ≠ source.Location then
        if prop (w.migration.pools.GetRootDiskDevice source.ExpandedDevices).2.1 "pool" ≠
              (containerFindStoragePool w.migration.pools project req).1.storagePool ∨
            driver ≠ "ceph" then
          .migrate { req with
            Devices := (containerFindStoragePool w.migration.pools project req).2 }
        else
          .copy { req with
            Devices := (containerFindStoragePool w.migration.pools project req).2 }
      else .copy req := by
  by_cases hc : clustered = true <;>
  by_cases hs : serverName = source.Location <;>
  by_cases hp : prop (w.migration.pools.GetRootDiskDevice source.ExpandedDevices).2.1
      "pool" = (containerFindStoragePool w.migration.pools project req).1.storagePool <;>
  by_cases hd : driver = "ceph" <;>
  first
    | simp [copyRoute, henabled, hnode, hfound, hdriver, hc, hs, hp, hd]; done
    | (rw [hp] at hdriver
       simp [copyRoute, henabled, hnode, hfound, hdriver, hc, hs, hp, hd])

/-- C11: when the lookups of `createFromCopy` succeed (the source loads, clustering and the
member name are known, the resolver returns no error response, the source pool's driver is
found), the request is handed to `clusterCopyContainerInternal` if clustering is enabled,
the source is on another member and the source's root-disk pool differs from the resolved
pool or its driver is not `ceph`; in every other case it is handed to the local copy path.
And `clusterCopyContainerInternal`, when its own lookups succeed, runs `createFromMigration`
on the request rewritten to source type `migration` with mode `pull`. -/
theorem createFromCopy_route (w : CopyCalls) (project : String) (req : InstancesPost)
    (source : SourceInstance) (clustered : Bool) (serverName driver : String)
    (hsource : req.Source.Source ≠ "")
    (hload : w.LoadByProjectAndName
      (if req.Source.Project = "" then project else req.Source.Project) req.Source.Source =
        .ok source)
    (henabled : w.Enabled = .ok clustered) (hnode : w.NodeName = .ok serverName)
    (hfound : (containerFindStoragePool w.migration.pools project req).1.resp = none)
    (hdriver : w.StoragePoolGet
      (prop (w.migration.pools.GetRootDiskDevice source.ExpandedDevices).2.1 "pool") =
        .ok driver) :
    (copyNeedsMigration clustered serverName source.Location
        (prop (w.migration.pools.GetRootDiskDevice source.ExpandedDevices).2.1 "pool")
        (containerFindStoragePool w.migration.pools project req).1.storagePool driver →
      copyRoute w project req source = .migrate { req with
          Devices := (containerFindStoragePool w.migration.pools project req).2 } ∧
        createFromCopy w project req = clusterCopyContainerInternal w source project
          { req with Devices := (containerFindStoragePool w.migration.pools project req).2 }) ∧
    (¬ copyNeedsMigration clustered serverName source.Location
        (prop (w.migration.pools.GetRootDiskDevice source.ExpandedDevices).2.1 "pool")
        (containerFindStoragePool w.migration.pools project req).1.storagePool driver →
      ∃ req1, copyRoute w project req source = .copy req1 ∧
        createFromCopy w project req = copyLocal w project req1 source) ∧
    (∀ r nodeAddress opAPI,
      w.ContainerNodeAddress project r.Source.Source source.InstType = .ok nodeAddress →
      nodeAddress ≠ "" → w.Connect nodeAddress = none →
      (if w.IsSnapshot r.Source.Source = true then
          w.MigrateInstanceSnapshot (w.InstanceGetParentAndSnapshotName r.Source.Source).1
            (w.InstanceGetParentAndSnapshotName r.Source.Source).2 r.Source.Live r.Name
        else
          w.MigrateInstance r.Source.Source r.Source.Live
            (r.Source.InstanceOnly || r.Source.ContainerOnly) r.Name) = .ok opAPI →
      clusterCopyContainerInternal w source project r =
          createFromMigration w.migration project
            (migrationRequest r w.NetworkCertPublicKey nodeAddress opAPI) ∧
        (migrationRequest r w.NetworkCertPublicKey nodeAddress opAPI).Source.SourceType =
          "migration" ∧
        (migrationRequest r w.NetworkCertPublicKey nodeAddress opAPI).Source.Mode = "pull") := by
  have hroute := copyRoute_of_lookups w project req source clustered serverName driver
    henabled hnode hfound hdriver
  have hcopy : createFromCopy w project req =
      (match copyRoute w project req source with
        | .reject resp => (resp, [])
        | .migrate req1 => clusterCopyContainerInternal w source project req1
        | .copy req1 => copyLocal w project req1 source) := by
    unfold createFromCopy
    rw [if_neg hsource]
    dsimp only
    rw [hload]
  refine ⟨?_, ?_, ?_⟩
  · rintro ⟨hc, hs, hp⟩
    rw [if_pos ⟨hc, hs⟩, if_pos hp] at hroute
    exact ⟨hroute, by rw [hcopy, hroute]⟩
  · intro hnot
    by_cases h1 : clustered = true ∧ serverName ≠ source.Location
    · have hp : ¬ (prop (w.migration.pools.GetRootDiskDevice source.ExpandedDevices).2.1
          "pool" ≠ (containerFindStoragePool w.migration.pools project req).1.storagePool ∨
          driver ≠ "ceph") := fun h => hnot ⟨h1.1, h1.2, h⟩
      rw [if_pos h1, if_neg hp] at hroute
      exact ⟨_, hroute, by rw [hcopy, hroute]⟩
    · rw [if_neg h1] at hroute
      exact ⟨_, hroute, by rw [hcopy, hroute]⟩
  · intro r nodeAddress opAPI haddr hne hconn hmig
    refine ⟨?_, rfl, rfl⟩
    unfold clusterCopyContainerInternal
    rw [haddr]
    dsimp only
    rw [if_neg hne, hconn]
    dsimp only
    rw [hmig]

theorem createFromCopy_route_witness :
    copyRoute
        (copyCallsOf (clusterOf ["local"] [("default", rootProfile "local")])
          [("local", "zfs")] "node1" [("c1", containerOn "c1" "node2" "local")]
          ⟨"op-1", [("control", "s3cr3t")]⟩)
        "default" { Name := "c2", Source := { SourceType := "copy", Source := "c1" } }
        (containerOn "c1" "node2" "local") =
      .migrate { Name := "c2", Source := { SourceType := "copy", Source := "c1" } } ∧
    createFromCopy
        (copyCallsOf (clusterOf ["local"] [("default", rootProfile "local")])
          [("local", "zfs")] "node1" [("c1", containerOn "c1" "node2" "local")]
          ⟨"op-1", [("control", "s3cr3t")]⟩)
        "default" { Name := "c2", Source := { SourceType := "copy", Source := "c1" } } =
      clusterCopyContainerInternal
        (copyCallsOf (clusterOf ["local"] [("default", rootProfile "local")])
          [("local", "zfs")] "node1" [("c1", containerOn "c1" "node2" "local")]
          ⟨"op-1", [("control", "s3cr3t")]⟩)
        (containerOn "c1" "node2" "local") "default"
        { Name := "c2", Source := { SourceType := "copy", Source := "c1" } } :=
  (createFromCopy_route
    (copyCallsOf (clusterOf ["local"] [("default", rootProfile "local")])
      [("local", "zfs")] "node1" [("c1", containerOn "c1" "node2" "local")]
      ⟨"op-1", [("control", "s3cr3t")]⟩)
    "default" { Name := "c2", Source := { SourceType := "copy", Source := "c1" } }
    (containerOn "c1" "node2" "local") true "node1" "zfs"
    (by decide) rfl rfl rfl (by decide) rfl).1
    ⟨rfl, by decide, Or.inr (by decide)⟩

/-! ## Properties of `containersPost` -/

theorem pickTarget_steps (w : DispatchCalls) (r : HttpRequest) :
    ∀ step ∈ (pickTarget w r).2, step.isRemote = false ∧ step.isLocal = false := by
  unfold pickTarget
  split
  · split <;> simp [DispatchStep.isRemote, DispatchStep.isLocal]
  · simp

theorem generateName_steps (gen : Nat → String) (names : List String) (n i : Nat) :
    ∀ step ∈ (generateName gen names n i).2, step.isRemote = false := by
  induction n generalizing i with
  | zero => simp [generateName]
  | succ n ih =>
    intro step hstep
    unfold generateName at hstep
    split at hstep
    · simp only [List.mem_singleton] at hstep
      rw [hstep]; rfl
    · split at hstep
      · simp only [List.mem_singleton] at hstep
        rw [hstep]; rfl
      · simp only [List.mem_cons] at hstep
        rcases hstep with h | h
        · rw [h]; rfl
        · exact ih (i + 1) step h

theorem prepareRequest_steps (w : DispatchCalls) (project : String) (req : InstancesPost) :
    ∀ step ∈ (prepareRequest w project req).2, step.isRemote = false := by
  have hnamed : ∀ step ∈ (if req.Name = "" then
        match w.InstanceNames project with
        | .error err => ((.error (.SmartError err) : Except Response String),
            [DispatchStep.instanceNames])
        | .ok names =>
          match generateName w.Generate names 101 0 with
          | (r, steps) => (r, .instanceNames :: steps)
      else (.ok req.Name, [])).2, step.isRemote = false := by
    intro step hstep
    split at hstep
    · split at hstep
      · simp only [List.mem_singleton] at hstep
        rw [hstep]; rfl
      · simp only [List.mem_cons] at hstep
        rcases hstep with h | h
        · rw [h]; rfl
        · exact generateName_steps _ _ _ _ step h
    · cases hstep
  have htyped : ∀ step ∈ (if req.InstanceType ≠ "" then
        match w.instanceParseType req.InstanceType with
        | .error err => ((.error (.BadRequest err) : Except Response Config),
            [DispatchStep.instanceParseType])
        | .ok conf => (.ok (typeConfigLoop conf (req.Config.getD [])), [.instanceParseType])
      else (.ok (req.Config.getD []), [])).2, step.isRemote = false := by
    intro step hstep
    split at hstep
    · split at hstep <;>
      · simp only [List.mem_singleton] at hstep
        rw [hstep]; rfl
    · cases hstep
  intro step hstep
  unfold prepareRequest at hstep
  dsimp only at hstep
  split at hstep
  · simp only [List.mem_singleton] at hstep
    rw [hstep]; rfl
  · split at hstep
    · next r steps heq =>
      simp only [List.mem_cons] at hstep
      rcases hstep with h | h
      · rw [h]; rfl
      · exact hnamed step (by rw [heq]; exact h)
    · next name steps heq =>
      split at hstep
      · next r steps1 heq1 =>
        simp only [List.mem_cons, List.mem_append] at hstep
        rcases hstep with h | h | h
        · rw [h]; rfl
        · exact hnamed step (by rw [heq]; exact h)
        · exact htyped step (by rw [heq1]; exact h)
      · next config1 steps1 heq1 =>
        split at hstep <;>
        · simp only [List.mem_cons, List.mem_append] at hstep
          rcases hstep with h | h | h
          · rw [h]; rfl
          · exact hnamed step (by rw [heq]; exact h)
          · exact htyped step (by rw [heq1]; exact h)

theorem dispatchSource_steps (s : Strategies) (project : String) (req : InstancesPost) :
    ∀ step ∈ (dispatchSource s project req).2.1, step.isRemote = false := by
  intro step hstep
  unfold dispatchSource at hstep
  split_ifs at hstep <;> simp at hstep <;> (rw [hstep]; rfl)
theorem forwardRequest_connect (w : DispatchCalls) (project targetNode : String)
    (req : InstancesPost) (address : String) :
    DispatchStep.connect address ∈ (forwardRequest w project targetNode req).2 ↔
      targetNode ≠ "" ∧ w.ResolveTarget targetNode = .ok address ∧ address ≠ "" := by
  unfold forwardRequest
  by_cases ht : targetNode = ""
  · simp [ht]
  · rw [if_pos ht]
    cases hr : w.ResolveTarget targetNode with
    | error err => simp
    | ok a =>
      dsimp only
      by_cases ha : a = ""
      · rw [if_neg (not_not.mpr ha)]
        simp only [List.mem_singleton, reduceCtorEq, false_iff]
        rintro ⟨-, h1, h2⟩
        cases h1
        exact h2 ha
      · rw [if_pos ha]
        have hmem : DispatchStep.connect address ∈
            [DispatchStep.resolveTarget targetNode, DispatchStep.connect a] ↔ address = a := by
          simp
        have hmem3 : ∀ q, DispatchStep.connect address ∈
            [DispatchStep.resolveTarget targetNode, DispatchStep.connect a,
              DispatchStep.createInstance a q] ↔ address = a := by
          intro q; simp
        have hgoal : address = a ↔
            targetNode ≠ "" ∧ Except.ok a = (Except.ok address : Except Err String) ∧
              address ≠ "" := by
          constructor
          · intro h; subst h; exact ⟨ht, rfl, ha⟩
          · rintro ⟨-, h, -⟩; cases h; rfl
        cases hc : w.Connect a with
        | some err => exact hmem.trans hgoal
        | none =>
          cases hi : w.CreateInstance a req with
          | error err => exact (hmem3 req).trans hgoal
          | ok opAPI => exact (hmem3 req).trans hgoal

theorem forwardRequest_createInstance (w : DispatchCalls) (project targetNode : String)
    (req : InstancesPost) (address : String) (q : InstancesPost) :
    DispatchStep.createInstance address q ∈ (forwardRequest w project targetNode req).2 ↔
      q = req ∧ w.Connect address = none ∧
        targetNode ≠ "" ∧ w.ResolveTarget targetNode = .ok address ∧ address ≠ "" := by
  unfold forwardRequest
  by_cases ht : targetNode = ""
  · simp [ht]
  · rw [if_pos ht]
    cases hr : w.ResolveTarget targetNode with
    | error err => simp
    | ok a =>
      dsimp only
      by_cases ha : a = ""
      · rw [if_neg (not_not.mpr ha)]
        simp only [List.mem_singleton, reduceCtorEq, false_iff]
        rintro ⟨-, -, -, h1, h2⟩
        cases h1
        exact h2 ha
      · rw [if_pos ha]
        have hmem3 : DispatchStep.createInstance address q ∈
            [DispatchStep.resolveTarget targetNode, DispatchStep.connect a,
              DispatchStep.createInstance a req] ↔ address = a ∧ q = req := by
          simp
        cases hc : w.Connect a with
        | some err =>
          simp only [List.mem_cons, reduceCtorEq, List.mem_singleton, false_or,
            List.not_mem_nil, or_false, false_iff]
          rintro ⟨-, hcn, -, h, -⟩
          cases h
          rw [hc] at hcn
          cases hcn
        | none =>
          have hgoal : (address = a ∧ q = req) ↔
              q = req ∧ w.Connect address = none ∧ targetNode ≠ "" ∧
                Except.ok a = (Except.ok address : Except Err String) ∧ address ≠ "" := by
            constructor
            · rintro ⟨h1, h2⟩; subst h1 h2; exact ⟨rfl, hc, ht, rfl, ha⟩
            · rintro ⟨h1, -, -, h2, -⟩; cases h2; exact ⟨rfl, h1⟩
          cases hi : w.CreateInstance a req with
          | error err => exact hmem3.trans hgoal
          | ok opAPI => exact hmem3.trans hgoal

theorem containersPost_remote_steps (w : DispatchCalls) (s : Strategies) (r : HttpRequest)
    (req : InstancesPost) (hct : r.ContentType ≠ "application/octet-stream")
    (hbody : r.body = .ok req) (step : DispatchStep) (hremote : step.isRemote = true) :
    step ∈ (containersPost w s r).steps ↔
      ∃ targetNode, (pickTarget w r).1 = .ok targetNode ∧
        step ∈ (forwardRequest w r.project targetNode req).2 := by
  have hpick : step ∉ (pickTarget w r).2 := fun h => by
    have := (pickTarget_steps w r step h).1
    rw [hremote] at this
    cases this
  have hprep : step ∉ (prepareRequest w r.project req).2 := fun h => by
    have := prepareRequest_steps w r.project req step h
    rw [hremote] at this
    cases this
  have hdisp : ∀ q, step ∉ (dispatchSource s r.project q).2.1 := fun q h => by
    have := dispatchSource_steps s r.project q step h
    rw [hremote] at this
    cases this
  unfold containersPost
  rw [if_neg hct, hbody]
  dsimp only
  rcases hp : pickTarget w r with ⟨res, steps⟩
  rw [hp] at hpick
  cases res with
  | error resp => simpa using hpick
  | ok targetNode =>
    dsimp only
    rcases hf : forwardRequest w r.project targetNode req with ⟨fres, steps1⟩
    cases fres with
    | some resp =>
      simp only [List.mem_append, Except.ok.injEq, exists_eq_left']
      constructor
      · rintro (h | h)
        · exact absurd h hpick
        · rw [hf]; exact h
      · intro h; rw [hf] at h; exact Or.inr h
    | none =>
      dsimp only
      rcases hq : prepareRequest w r.project req with ⟨pres, steps2⟩
      rw [hq] at hprep
      cases pres with
      | error resp =>
        simp only [List.mem_append, Except.ok.injEq, exists_eq_left']
        constructor
        · rintro ((h | h) | h)
          · exact absurd h hpick
          · rw [hf]; exact h
          · exact absurd h hprep
        · intro h; rw [hf] at h; exact Or.inl (Or.inr h)
      | ok req1 =>
        dsimp only
        simp only [List.mem_append, Except.ok.injEq, exists_eq_left']
        constructor
        · rintro (((h | h) | h) | h)
          · exact absurd h hpick
          · rw [hf]; exact h
          · exact absurd h hprep
          · exact absurd h (hdisp req1)
        · intro h; rw [hf] at h; exact Or.inl (Or.inl (Or.inr h))
theorem containersPost_of_forward (w : DispatchCalls) (s : Strategies) (r : HttpRequest)
    (req : InstancesPost) (targetNode : String) (resp : Response)
    (hct : r.ContentType ≠ "application/octet-stream") (hbody : r.body = .ok req)
    (hpick : (pickTarget w r).1 = .ok targetNode)
    (hforward : (forwardRequest w r.project targetNode req).1 = some resp) :
    containersPost w s r =
      ⟨resp, (pickTarget w r).2 ++ (forwardRequest w r.project targetNode req).2, []⟩ := by
  unfold containersPost
  rw [if_neg hct, hbody]
  dsimp only
  rcases hp : pickTarget w r with ⟨res, steps⟩
  rw [hp] at hpick
  dsimp only at hpick
  subst hpick
  dsimp only
  rcases hf : forwardRequest w r.project targetNode req with ⟨fres, steps1⟩
  rw [hf] at hforward
  dsimp only at hforward
  subst hforward
  rfl

theorem containersPost_of_local (w : DispatchCalls) (s : Strategies) (r : HttpRequest)
    (req req1 : InstancesPost) (targetNode : String)
    (hct : r.ContentType ≠ "application/octet-stream") (hbody : r.body = .ok req)
    (hpick : (pickTarget w r).1 = .ok targetNode)
    (hforward : (forwardRequest w r.project targetNode req).1 = none)
    (hprepare : (prepareRequest w r.project req).1 = .ok req1) :
    containersPost w s r =
      ⟨(dispatchSource s r.project req1).1,
        (pickTarget w r).2 ++ (forwardRequest w r.project targetNode req).2 ++
          (prepareRequest w r.project req).2 ++ (dispatchSource s r.project req1).2.1,
        (dispatchSource s r.project req1).2.2⟩ := by
  unfold containersPost
  rw [if_neg hct, hbody]
  dsimp only
  rcases hp : pickTarget w r with ⟨res, steps⟩
  rw [hp] at hpick
  dsimp only at hpick
  subst hpick
  dsimp only
  rcases hf : forwardRequest w r.project targetNode req with ⟨fres, steps1⟩
  rw [hf] at hforward
  dsimp only at hforward
  subst hforward
  dsimp only
  rcases hq : prepareRequest w r.project req with ⟨pres, steps2⟩
  rw [hq] at hprepare
  dsimp only at hprepare
  subst hprepare
  rfl

theorem containersPost_forwarding_pick (w : DispatchCalls) (s : Strategies) (r : HttpRequest)
    (req : InstancesPost) (hct : r.ContentType ≠ "application/octet-stream")
    (hbody : r.body = .ok req) :
    (∀ address, DispatchStep.connect address ∈ (containersPost w s r).steps ↔
      ∃ targetNode, (pickTarget w r).1 = .ok targetNode ∧ targetNode ≠ "" ∧
        w.ResolveTarget targetNode = .ok address ∧ address ≠ "") ∧
    (∀ address q, DispatchStep.createInstance address q ∈ (containersPost w s r).steps ↔
      q = req ∧ w.Connect address = none ∧
        ∃ targetNode, (pickTarget w r).1 = .ok targetNode ∧ targetNode ≠ "" ∧
          w.ResolveTarget targetNode = .ok address ∧ address ≠ "") ∧
    (∀ targetNode address opAPI, (pickTarget w r).1 = .ok targetNode → targetNode ≠ "" →
      w.ResolveTarget targetNode = .ok address → address ≠ "" → w.Connect address = none →
      w.CreateInstance address req = .ok opAPI →
      (containersPost w s r).resp = .ForwardedOperationResponse r.project opAPI ∧
        (containersPost w s r).events = [] ∧
        ∀ step ∈ (containersPost w s r).steps, step.isLocal = false) := by
  refine ⟨?_, ?_, ?_⟩
  · intro address
    rw [containersPost_remote_steps w s r req hct hbody (.connect address) rfl]
    constructor
    · rintro ⟨t, ht, hmem⟩
      exact ⟨t, ht, (forwardRequest_connect w r.project t req address).mp hmem⟩
    · rintro ⟨t, ht, hcond⟩
      exact ⟨t, ht, (forwardRequest_connect w r.project t req address).mpr hcond⟩
  · intro address q
    rw [containersPost_remote_steps w s r req hct hbody (.createInstance address q) rfl]
    constructor
    · rintro ⟨t, ht, hmem⟩
      obtain ⟨h1, h2, h3⟩ := (forwardRequest_createInstance w r.project t req address q).mp hmem
      exact ⟨h1, h2, t, ht, h3⟩
    · rintro ⟨h1, h2, t, ht, h3⟩
      exact ⟨t, ht, (forwardRequest_createInstance w r.project t req address q).mpr
        ⟨h1, h2, h3⟩⟩
  · intro targetNode address opAPI hpick ht hresolve ha hconnect hcreate
    have hf : forwardRequest w r.project targetNode req =
        (some (.ForwardedOperationResponse r.project opAPI),
          [.resolveTarget targetNode, .connect address, .createInstance address req]) := by
      unfold forwardRequest
      rw [if_pos ht, hresolve]
      dsimp only
      rw [if_pos ha, hconnect]
      dsimp only
      rw [hcreate]
    have hcp := containersPost_of_forward w s r req targetNode _ hct hbody hpick
      (by rw [hf])
    rw [hcp, hf]
    refine ⟨rfl, rfl, ?_⟩
    intro step hstep
    simp only [List.mem_append, List.mem_cons, List.mem_singleton, List.not_mem_nil,
      or_false] at hstep
    rcases hstep with h | h | h | h
    · exact (pickTarget_steps w r step h).2
    · rw [h]; rfl
    · rw [h]; rfl
    · rw [h]; rfl

/-- C15: a request with content type `application/octet-stream` is handed to
`createFromBackup`; a structured request that reaches the strategy switch (it is not
forwarded and its local preparation succeeds) is handed to `createFromImage`,
`createFromNone`, `createFromMigration` or `createFromCopy` according to its source type
`image`, `none`, `migration` or `copy`, and to that strategy only; every other source type is
answered with the bad request "Unknown source type" with no strategy run and no effect. -/
theorem containersPost_dispatch (w : DispatchCalls) (s : Strategies) (r : HttpRequest) :
    (r.ContentType = "application/octet-stream" →
      containersPost w s r =
        ⟨(s.createFromBackup r.project r.PoolHeader).1, [.createFromBackup],
          (s.createFromBackup r.project r.PoolHeader).2⟩) ∧
    (∀ req req1 targetNode, r.ContentType ≠ "application/octet-stream" →
      r.body = .ok req → (pickTarget w r).1 = .ok targetNode →
      (forwardRequest w r.project targetNode req).1 = none →
      (prepareRequest w r.project req).1 = .ok req1 →
      (req1.Source.SourceType = "image" →
        containersPost w s r =
          ⟨(s.createFromImage r.project req1).1,
            (pickTarget w r).2 ++ (forwardRequest w r.project targetNode req).2 ++
              (prepareRequest w r.project req).2 ++ [.createFromImage],
            (s.createFromImage r.project req1).2⟩) ∧
      (req1.Source.SourceType = "none" →
        containersPost w s r =
          ⟨(s.createFromNone r.project req1).1,
            (pickTarget w r).2 ++ (forwardRequest w r.project targetNode req).2 ++
              (prepareRequest w r.project req).2 ++ [.createFromNone],
            (s.createFromNone r.project req1).2⟩) ∧
      (req1.Source.SourceType = "migration" →
        containersPost w s r =
          ⟨(s.createFromMigration r.project req1).1,
            (pickTarget w r).2 ++ (forwardRequest w r.project targetNode req).2 ++
              (prepareRequest w r.project req).2 ++ [.createFromMigration],
            (s.createFromMigration r.project req1).2⟩) ∧
      (req1.Source.SourceType = "copy" →
        containersPost w s r =
          ⟨(s.createFromCopy r.project req1).1,
            (pickTarget w r).2 ++ (forwardRequest w r.project targetNode req).2 ++
              (prepareRequest w r.project req).2 ++ [.createFromCopy],
            (s.createFromCopy r.project req1).2⟩) ∧
      (req1.Source.SourceType ≠ "image" → req1.Source.SourceType ≠ "none" →
        req1.Source.SourceType ≠ "migration" → req1.Source.SourceType ≠ "copy" →
        containersPost w s r =
          ⟨.BadRequest (.msg ("Unknown source type " ++ req1.Source.SourceType)),
            (pickTarget w r).2 ++ (forwardRequest w r.project targetNode req).2 ++
              (prepareRequest w r.project req).2,
            []⟩)) := by
  refine ⟨?_, ?_⟩
  · intro hct
    unfold containersPost
    rw [if_pos hct]
  · intro req req1 targetNode hct hbody hpick hforward hprepare
    have h := containersPost_of_local w s r req req1 targetNode hct hbody hpick hforward
      hprepare
    refine ⟨?_, ?_, ?_, ?_, ?_⟩
    · intro ht
      rw [h]
      simp [dispatchSource, ht]
    · intro ht
      rw [h]
      simp [dispatchSource, ht]
    · intro ht
      rw [h]
      simp [dispatchSource, ht]
    · intro ht
      rw [h]
      simp [dispatchSource, ht]
    · intro h1 h2 h3 h4
      rw [h]
      simp [dispatchSource, h1, h2, h3, h4]

theorem pickTarget_targetMember (w : DispatchCalls) (r : HttpRequest) (targetNode : String) :
    (pickTarget w r).1 = .ok targetNode ↔ targetMember w r targetNode := by
  unfold pickTarget targetMember
  by_cases ht : r.target = ""
  · rw [if_pos ht]
    cases hleast : w.NodeWithLeastContainers with
    | error err =>
      constructor
      · intro h
        cases h
      · rintro (⟨h, _⟩ | ⟨_, h⟩)
        · exact absurd ht h
        · cases h
    | ok t =>
      constructor
      · intro h
        exact Or.inr ⟨ht, by rw [Except.ok.inj h]⟩
      · rintro (⟨h, _⟩ | ⟨_, h⟩)
        · exact absurd ht h
        · rw [Except.ok.inj h]
  · rw [if_neg ht]
    constructor
    · intro h
      exact Or.inl ⟨ht, (Except.ok.inj h).symm⟩
    · rintro (⟨_, h⟩ | ⟨h, _⟩)
      · rw [h]
      · exact absurd h ht

/-- C12: for a structured request, `containersPost` calls `cluster.Connect` for an address
exactly when the target member (the one the `target` parameter names or, when it names none,
the one `NodeWithLeastContainers` picks) is non-empty and resolves to that non-empty address,
and it reissues the request there with `CreateInstance` exactly when moreover the client was
opened; so a request whose target member is empty or resolves to the empty address (the
local member) opens no client. When the remote call succeeds, the forwarded-operation
response is returned with no local step run and no local effect. -/
theorem containersPost_forwarding (w : DispatchCalls) (s : Strategies) (r : HttpRequest)
    (req : InstancesPost) (hct : r.ContentType ≠ "application/octet-stream")
    (hbody : r.body = .ok req) :
    (∀ address, DispatchStep.connect address ∈ (containersPost w s r).steps ↔
      ∃ targetNode,
        ((r.target ≠ "" ∧ targetNode = r.target) ∨
          (r.target = "" ∧ w.NodeWithLeastContainers = .ok targetNode)) ∧
        targetNode ≠ "" ∧ w.ResolveTarget targetNode = .ok address ∧ address ≠ "") ∧
    (∀ address q, DispatchStep.createInstance address q ∈ (containersPost w s r).steps ↔
      q = req ∧ w.Connect address = none ∧
        ∃ targetNode,
          ((r.target ≠ "" ∧ targetNode = r.target) ∨
            (r.target = "" ∧ w.NodeWithLeastContainers = .ok targetNode)) ∧
          targetNode ≠ "" ∧ w.ResolveTarget targetNode = .ok address ∧ address ≠ "") ∧
    (∀ targetNode, targetMember w r targetNode →
      targetNode = "" ∨ w.ResolveTarget targetNode = .ok "" →
      ∀ step ∈ (containersPost w s r).steps, step.isRemote = false) ∧
    (∀ targetNode address opAPI, targetMember w r targetNode → targetNode ≠ "" →
      w.ResolveTarget targetNode = .ok address → address ≠ "" → w.Connect address = none →
      w.CreateInstance address req = .ok opAPI →
      (containersPost w s r).resp = .ForwardedOperationResponse r.project opAPI ∧
        (containersPost w s r).events = [] ∧
        ∀ step ∈ (containersPost w s r).steps, step.isLocal = false) := by
  have hpick := containersPost_forwarding_pick w s r req hct hbody
  have hconnect : ∀ address, DispatchStep.connect address ∈ (containersPost w s r).steps ↔
      ∃ targetNode, targetMember w r targetNode ∧
        targetNode ≠ "" ∧ w.ResolveTarget targetNode = .ok address ∧ address ≠ "" := by
    intro address
    rw [hpick.1 address]
    constructor
    · rintro ⟨t, ht, h⟩
      exact ⟨t, (pickTarget_targetMember w r t).mp ht, h⟩
    · rintro ⟨t, ht, h⟩
      exact ⟨t, (pickTarget_targetMember w r t).mpr ht, h⟩
  have hcreate : ∀ address q,
      DispatchStep.createInstance address q ∈ (containersPost w s r).steps ↔
      q = req ∧ w.Connect address = none ∧
        ∃ targetNode, targetMember w r targetNode ∧
          targetNode ≠ "" ∧ w.ResolveTarget targetNode = .ok address ∧ address ≠ "" := by
    intro address q
    rw [hpick.2.1 address q]
    constructor
    · rintro ⟨h1, h2, t, ht, h⟩
      exact ⟨h1, h2, t, (pickTarget_targetMember w r t).mp ht, h⟩
    · rintro ⟨h1, h2, t, ht, h⟩
      exact ⟨h1, h2, t, (pickTarget_targetMember w r t).mpr ht, h⟩
  have hunique : ∀ t t1, targetMember w r t → targetMember w r t1 → t1 = t := by
    intro t t1 h h1
    have e := (pickTarget_targetMember w r t).mpr h
    have e1 := (pickTarget_targetMember w r t1).mpr h1
    rw [e] at e1
    exact (Except.ok.inj e1).symm
  refine ⟨hconnect, hcreate, ?_, ?_⟩
  · intro targetNode ht hlocal step hstep
    cases hs : step with
    | connect address =>
      exfalso
      rw [hs] at hstep
      obtain ⟨t1, ht1, hne, hres, ha⟩ := (hconnect address).mp hstep
      rw [hunique targetNode t1 ht ht1] at hne hres
      rcases hlocal with h | h
      · exact hne h
      · rw [h] at hres
        exact ha (Except.ok.inj hres).symm
    | createInstance address q =>
      exfalso
      rw [hs] at hstep
      obtain ⟨_, _, t1, ht1, hne, hres, ha⟩ := (hcreate address q).mp hstep
      rw [hunique targetNode t1 ht ht1] at hne hres
      rcases hlocal with h | h
      · exact hne h
      · rw [h] at hres
        exact ha (Except.ok.inj hres).symm
    | _ => rfl
  · intro targetNode address opAPI ht
    exact hpick.2.2 targetNode address opAPI ((pickTarget_targetMember w r targetNode).mpr ht)

theorem containersPost_forwarding_witness :
    (containersPost
        (dispatchCallsOf [("node1", ""), ("node2", "10.0.0.2:8443")] "node2" ["default"] [])
        strategiesOfNode1
        { body := .ok { Name := "c1", Source := { SourceType := "none" } } }
      ).resp = .ForwardedOperationResponse "default" ⟨"op-c1@10.0.0.2:8443", []⟩ ∧
    (containersPost
        (dispatchCallsOf [("node1", ""), ("node2", "10.0.0.2:8443")] "node2" ["default"] [])
        strategiesOfNode1
        { body := .ok { Name := "c1", Source := { SourceType := "none" } } }
      ).events = [] ∧
    ∀ step ∈ (containersPost
        (dispatchCallsOf [("node1", ""), ("node2", "10.0.0.2:8443")] "node2" ["default"] [])
        strategiesOfNode1
        { body := .ok { Name := "c1", Source := { SourceType := "none" } } }
      ).steps, step.isLocal = false :=
  (containersPost_forwarding
    (dispatchCallsOf [("node1", ""), ("node2", "10.0.0.2:8443")] "node2" ["default"] [])
    strategiesOfNode1
    { body := .ok { Name := "c1", Source := { SourceType := "none" } } }
    { Name := "c1", Source := { SourceType := "none" } } (by decide) rfl).2.2.2
    "node2" "10.0.0.2:8443" ⟨"op-c1@10.0.0.2:8443", []⟩ (Or.inr ⟨rfl, rfl⟩) (by decide) rfl
    (by decide) rfl rfl

theorem containersPost_dispatch_witness :
    containersPost
        (dispatchCallsOf [("node1", ""), ("node2", "10.0.0.2:8443")] "" ["default"] [])
        strategiesOfNode1
        { target := "node1", body := .ok { Name := "c1", Source := { SourceType := "none" } } } =
      ⟨.OperationResponse
          ⟨.Task, [("instances", ["c1"]), ("containers", ["c1"])], none, false⟩,
        [.resolveTarget "node1", .storagePools, .createFromNone],
        [Event.createOperation
          ⟨.Task, [("instances", ["c1"]), ("containers", ["c1"])], none, false⟩]⟩ :=
  ((containersPost_dispatch
    (dispatchCallsOf [("node1", ""), ("node2", "10.0.0.2:8443")] "" ["default"] [])
    strategiesOfNode1
    { target := "node1", body := .ok { Name := "c1", Source := { SourceType := "none" } } }).2
    { Name := "c1", Source := { SourceType := "none" } }
    { Name := "c1", Source := { SourceType := "none" }, Devices := some [], Config := some [] }
    "node1" (by decide) rfl rfl rfl rfl).2.1 rfl

/-! ## Properties of `createFromBackup` -/

/-- C16: in `createFromBackup` the pool selected is the caller's when non-empty, else the
manifest's. If the selected pool exists it is used unchanged. If it does not exist, the
request fails when the backup has binary format or the caller gave the pool; otherwise the
pool becomes the `pool` property of the root-disk device of the project's `default` profile,
and the request fails when that profile or its root-disk device cannot be obtained. -/
theorem backupPool_selection (w : BackupCalls) (info : BackupInfo) (project pool : String) :
    (w.StoragePoolGet (selectedPool info pool) = none →
      backupPool w info project pool =
        .ok { info with Project := project, Pool := selectedPool info pool }) ∧
    (w.StoragePoolGet (selectedPool info pool) = some .ErrNoSuchObject →
      (info.HasBinaryFormat = true ∨ pool ≠ "" →
        ∃ err, backupPool w info project pool = .error (.InternalError err)) ∧
      (info.HasBinaryFormat = false → pool = "" →
        (∀ profile k v, w.ProfileGet project "default" = .ok profile →
          w.GetRootDiskDevice profile.Devices = (k, v, none) →
          backupPool w info project pool =
            .ok { info with Project := project, Pool := prop v "pool" }) ∧
        (∀ err, w.ProfileGet project "default" = .error err →
          backupPool w info project pool = .error (.InternalError err)) ∧
        (∀ profile k v err, w.ProfileGet project "default" = .ok profile →
          w.GetRootDiskDevice profile.Devices = (k, v, some err) →
          backupPool w info project pool = .error (.InternalError err)))) := by
  by_cases hpool : pool = ""
  · subst hpool
    have hsel : selectedPool info "" = info.Pool := by simp [selectedPool]
    rw [hsel]
    refine ⟨?_, ?_⟩
    · intro hget
      simp [backupPool, hget]
    · intro hget
      refine ⟨?_, ?_⟩
      · rintro (hbin | h)
        · exact ⟨.ErrNoSuchObject, by simp [backupPool, hget, hbin, errorsWrap]⟩
        · exact absurd rfl h
      · intro hbin _
        refine ⟨?_, ?_, ?_⟩
        · intro profile k v hprofile hroot
          simp [backupPool, hget, hbin, hprofile, hroot]
        · intro err hprofile
          simp [backupPool, hget, hbin, hprofile, errorsWrap]
        · intro profile k v err hprofile hroot
          simp [backupPool, hget, hbin, hprofile, hroot, errorsWrap]
  · have hsel : selectedPool info pool = pool := by simp [selectedPool, hpool]
    rw [hsel]
    refine ⟨?_, ?_⟩
    · intro hget
      simp [backupPool, hget, hpool]
    · intro hget
      refine ⟨?_, ?_⟩
      · intro _
        exact ⟨.ErrNoSuchObject, by simp [backupPool, hget, hpool, errorsWrap]⟩
      · intro _ h
        exact absurd h hpool

theorem backupPool_selection_witness :
    backupPool
        (backupCallsOf ⟨"c1", "", "gone", false⟩ ["default"] (rootProfile "default"))
        ⟨"c1", "", "gone", false⟩ "default" "" =
      .ok ⟨"c1", "default", "default", false⟩ :=
  ((backupPool_selection
    (backupCallsOf ⟨"c1", "", "gone", false⟩ ["default"] (rootProfile "default"))
    ⟨"c1", "", "gone", false⟩ "default" "").2 rfl).2 rfl rfl |>.1
    (rootProfile "default") "root" [("type", "disk"), ("path", "/"), ("pool", "default")]
    rfl (by decide)

/-- C17 (the code at the failing input): a tarball backup whose manifest names the missing
pool `gone`, uploaded without a pool, in a project whose `default` profile has a root disk
without a `pool` property: `createFromBackup` registers its operation, and the backup
information captured for the import step has an empty pool. -/
theorem createFromBackup_empty_pool :
    createFromBackup
        (backupCallsOf ⟨"c1", "", "gone", false⟩ ["default"]
          ⟨[("root", [("type", "disk"), ("path", "/")])]⟩) "default" "" =
      (.OperationResponse
          ⟨.Task, [("instances", ["c1"]), ("containers", ["c1"])], none, false⟩,
        [Event.createOperation
          ⟨.Task, [("instances", ["c1"]), ("containers", ["c1"])], none, false⟩]) ∧
    backupCaptured
        (backupCallsOf ⟨"c1", "", "gone", false⟩ ["default"]
          ⟨[("root", [("type", "disk"), ("path", "/")])]⟩) "default" "" =
      some ⟨"c1", "default", "", false⟩ := by
  constructor <;> decide

theorem backupAfterImport_revert (w : BackupRunCalls) (project : String)
    (bInfo : BackupInfo) (hooks : BackupHooks) :
    ((backupAfterImport w project bInfo hooks).2.1 = true ↔
      laterStepFails w project bInfo hooks) ∧
    ((backupAfterImport w project bInfo hooks).1 = none ↔
      ¬ laterStepFails w project bInfo hooks) ∧
    BackupStep.revertHook ∉ (backupAfterImport w project bInfo hooks).2.2 := by
  unfold backupAfterImport laterStepFails
  cases hm : w.Marshal with
  | some err => simp [errorsWrap]
  | none =>
    by_cases hi : w.internalImport bInfo.Name project = "success"
    · cases hl : w.LoadByProjectAndName project bInfo.Name with
      | error err => simp [hi, errorsWrap]
      | ok c =>
        cases hp : hooks.postHook with
        | none => simp [hi]
        | some hook =>
          cases hh : hook c with
          | some err => simp [hi, hh, errorsWrap]
          | none => simp [hi, hh]
    · simp [hi]

/-- C18: in the work function of `createFromBackup`, when the import step returns a revert
hook, that hook is invoked exactly when a step after the import fails (marshalling, the
internal import not answering `success`, loading the instance, the post hook), and the work
function succeeds exactly when none of them fails, so the hook is not invoked on success;
when the import step itself returns an error, the work function fails and invokes no revert
hook. -/
theorem backupRun_revert (w : BackupRunCalls) (project : String) (bInfo : BackupInfo) :
    (∀ err, w.instanceCreateFromBackup bInfo = .error err →
      BackupStep.revertHook ∉ (backupRun w project bInfo).2 ∧
        (backupRun w project bInfo).1 ≠ none) ∧
    (∀ hooks, w.instanceCreateFromBackup bInfo = .ok hooks → hooks.revertHook = true →
      (BackupStep.revertHook ∈ (backupRun w project bInfo).2 ↔
        laterStepFails w project bInfo hooks) ∧
      ((backupRun w project bInfo).1 = none ↔ ¬ laterStepFails w project bInfo hooks)) := by
  refine ⟨?_, ?_⟩
  · intro err himport
    unfold backupRun
    rw [himport]
    simp
  · intro hooks himport hrevert
    obtain ⟨h1, h2, h3⟩ := backupAfterImport_revert w project bInfo hooks
    unfold backupRun
    rw [himport]
    dsimp only
    rcases hb : backupAfterImport w project bInfo hooks with ⟨err, revert, steps⟩
    rw [hb] at h1 h2 h3
    dsimp only at h1 h2 h3 ⊢
    refine ⟨?_, h2⟩
    rw [← h1]
    simp [hrevert, h3]

theorem backupRun_revert_witness :
    (BackupStep.revertHook ∈
        (backupRun (backupRunCallsOf (some (.msg "mount failed")) "success") "default"
          ⟨"c1", "default", "default", false⟩).2 ↔
      laterStepFails (backupRunCallsOf (some (.msg "mount failed")) "success") "default"
        ⟨"c1", "default", "default", false⟩ ⟨some (fun _ => some (.msg "mount failed")), true⟩) ∧
    ((backupRun (backupRunCallsOf (some (.msg "mount failed")) "success") "default"
          ⟨"c1", "default", "default", false⟩).1 = none ↔
      ¬ laterStepFails (backupRunCallsOf (some (.msg "mount failed")) "success") "default"
        ⟨"c1", "default", "default", false⟩
        ⟨some (fun _ => some (.msg "mount failed")), true⟩) :=
  (backupRun_revert (backupRunCallsOf (some (.msg "mount failed")) "success") "default"
    ⟨"c1", "default", "default", false⟩).2
    ⟨some (fun _ => some (.msg "mount failed")), true⟩ rfl rfl

/-! ## Collaborator errors -/

theorem containersPost_of_body_error (w : DispatchCalls) (s : Strategies) (r : HttpRequest)
    (err : Err) (hct : r.ContentType ≠ "application/octet-stream")
    (hbody : r.body = .error err) : (containersPost w s r).resp = .BadRequest err := by
  unfold containersPost
  rw [if_neg hct, hbody]

theorem containersPost_of_pick_error (w : DispatchCalls) (s : Strategies) (r : HttpRequest)
    (req : InstancesPost) (err : Err) (hct : r.ContentType ≠ "application/octet-stream")
    (hbody : r.body = .ok req) (htarget : r.target = "")
    (hleast : w.NodeWithLeastContainers = .error err) :
    (containersPost w s r).resp = .SmartError err := by
  unfold containersPost
  rw [if_neg hct, hbody]
  simp [pickTarget, htarget, hleast]

theorem containersPost_of_prepare_error (w : DispatchCalls) (s : Strategies)
    (r : HttpRequest) (req : InstancesPost) (targetNode : String) (resp : Response)
    (hct : r.ContentType ≠ "application/octet-stream") (hbody : r.body = .ok req)
    (hpick : (pickTarget w r).1 = .ok targetNode)
    (hforward : (forwardRequest w r.project targetNode req).1 = none)
    (hprepare : (prepareRequest w r.project req).1 = .error resp) :
    (containersPost w s r).resp = resp := by
  unfold containersPost
  rw [if_neg hct, hbody]
  dsimp only
  rcases hp : pickTarget w r with ⟨res, steps⟩
  rw [hp] at hpick
  dsimp only at hpick
  subst hpick
  dsimp only
  rcases hf : forwardRequest w r.project targetNode req with ⟨fres, steps1⟩
  rw [hf] at hforward
  dsimp only at hforward
  subst hforward
  dsimp only
  rcases hq : prepareRequest w r.project req with ⟨pres, steps2⟩
  rw [hq] at hprepare
  dsimp only at hprepare
  subst hprepare
  rfl

/-! ## The resolver and its inputs; the operation of a migration -/

theorem containerFindStoragePool_snd (w : PoolLookups) (project : String)
    (req : InstancesPost) :
    (containerFindStoragePool w project req).2 = (localRootPool w req).2.2.2 := by
  unfold containerFindStoragePool
  rcases localRootPool w req with ⟨sp, key, dev, devices⟩
  dsimp only
  split
  · rfl
  · split
    · split <;> rfl
    · rfl

/-- C21 (counterexample): a request whose root-disk device names the pool `gone`, which the
pool-existence lookup reports as "no such object": after the call the device map of the
request holds an empty `pool` for that device, so it is not the map the call was given. -/
theorem containerFindStoragePool_clears_request_pool :
    (containerFindStoragePool (clusterOf ["fast"] [("default", rootProfile "fast")]) "default"
        { Devices := some [("disk0", [("type", "disk"), ("path", "/"), ("pool", "gone")])],
          Profiles := some ["default"] }).2 =
      some [("disk0", [("type", "disk"), ("path", "/"), ("pool", "")])] ∧
    (containerFindStoragePool (clusterOf ["fast"] [("default", rootProfile "fast")]) "default"
        { Devices := some [("disk0", [("type", "disk"), ("path", "/"), ("pool", "gone")])],
          Profiles := some ["default"] }).2 ≠
      some [("disk0", [("type", "disk"), ("path", "/"), ("pool", "gone")])] := by
  constructor <;> decide

/-- C21 (amended): `containerFindStoragePool` leaves the request's profile list as it is,
and leaves the request's device map as it is unless the request's root-disk device names a
pool for which the pool-existence lookup reports "no such object"; in that case the `pool`
property of that device is set to the empty string, and every other device, and every other
property of that device, is as before. -/
theorem containerFindStoragePool_devices (w : PoolLookups) (project : String)
    (req : InstancesPost) (k : String) (dev : Device) (e : Option Err)
    (hroot : w.GetRootDiskDevice (req.Devices.getD []) = (k, dev, e)) :
    (¬ (k ≠ "" ∧ prop dev "pool" ≠ "" ∧
        isNoSuchObject (w.StoragePoolGetID (prop dev "pool")) = true) →
      (containerFindStoragePool w project req).2 = req.Devices) ∧
    (k ≠ "" → prop dev "pool" ≠ "" →
      isNoSuchObject (w.StoragePoolGetID (prop dev "pool")) = true →
      (containerFindStoragePool w project req).2 =
          some (setKey (req.Devices.getD []) k (setKey dev "pool" "")) ∧
        (∀ j, j ≠ k →
          lookupKey ((containerFindStoragePool w project req).2.getD []) j =
            lookupKey (req.Devices.getD []) j) ∧
        lookupKey ((containerFindStoragePool w project req).2.getD []) k =
          some (setKey dev "pool" "") ∧
        (∀ p, p ≠ "pool" → prop (setKey dev "pool" "") p = prop dev p) ∧
        prop (setKey dev "pool" "") "pool" = "") ∧
    ({ req with Devices := (containerFindStoragePool w project req).2 } :
      InstancesPost).Profiles = req.Profiles := by
  refine ⟨?_, ?_, rfl⟩
  · intro hnot
    rw [containerFindStoragePool_snd]
    by_cases hk : k = ""
    · unfold localRootPool
      rw [hroot]
      simp [hk]
    · rw [localRootPool_of_root w req k dev e hroot hk,
        if_neg (fun h => hnot ⟨hk, h.1, h.2⟩)]
  · intro hk hpool hstale
    have hsnd : (containerFindStoragePool w project req).2 =
        some (setKey (req.Devices.getD []) k (setKey dev "pool" "")) := by
      rw [containerFindStoragePool_snd, localRootPool_of_root w req k dev e hroot hk,
        if_pos ⟨hpool, hstale⟩]
    rw [hsnd]
    refine ⟨rfl, ?_, ?_, ?_, ?_⟩
    · intro j hj
      exact lookupKey_setKey_other _ _ _ _ hj
    · exact lookupKey_setKey_self _ _ _
    · intro p hp
      exact prop_setKey_other _ _ _ _ hp
    · exact prop_setKey_self _ _ _

theorem containerFindStoragePool_devices_witness :
    (containerFindStoragePool (clusterOf ["fast"] [("default", rootProfile "fast")]) "default"
        { Devices := some [("disk0", [("type", "disk"), ("path", "/"), ("pool", "fast")])],
          Profiles := some ["default"] }).2 =
      some [("disk0", [("type", "disk"), ("path", "/"), ("pool", "fast")])] :=
  (containerFindStoragePool_devices
    (clusterOf ["fast"] [("default", rootProfile "fast")]) "default"
    { Devices := some [("disk0", [("type", "disk"), ("path", "/"), ("pool", "fast")])],
      Profiles := some ["default"] }
    "disk0" [("type", "disk"), ("path", "/"), ("pool", "fast")] none (by decide)).1
    (by decide)

theorem newSink_push (w : MigrationCalls) (req : InstancesPost) (refresh : Bool)
    (inst : Option Instance) (sink : Sink) (h : newSink w req refresh inst = .ok sink) :
    ∃ args, w.NewMigrationSink args = .ok sink ∧
      args.Push = decide (req.Source.Mode = "push") ∧ args.Instance = inst := by
  unfold newSink at h
  split at h
  · cases h
  · split at h
    · cases h
    · split at h
      · cases h
      · next s hs =>
        cases h
        exact ⟨_, hs, rfl, rfl⟩

theorem migrationBody_operation (w : MigrationCalls) (plan : MigrationPlan) (refresh : Bool)
    (inst0 : Option Instance) (op : Operation)
    (h : Event.createOperation op ∈ (migrationBody w plan refresh inst0).events) :
    ∃ sink inst, newSink w plan.req refresh inst = .ok sink ∧
      op = migrationOperation plan.req sink := by
  unfold migrationBody at h
  dsimp only at h
  split at h
  · cases h
  · next inst events hcreated =>
    have hev : Event.createOperation op ∉ events := by
      split at hcreated
      · split at hcreated
        · cases hcreated
        · cases hcreated
          simp
      · cases hcreated
        simp
    split at h
    · exact absurd h hev
    · next sink hsink =>
      split at h
      · exact absurd h hev
      · simp only [List.mem_append, List.mem_singleton, Event.createOperation.injEq] at h
        rcases h with h | h
        · exact absurd h hev
        · exact ⟨sink, inst, hsink, h⟩

theorem prefillProfiles_name (req : InstancesPost) :
    (prefillProfiles req).Name = req.Name ∧ (prefillProfiles req).Source = req.Source := by
  unfold prefillProfiles
  split <;> exact ⟨rfl, rfl⟩

theorem createFromMigration_registered (w : MigrationCalls) (project : String)
    (req : InstancesPost) (op : Operation)
    (h : Event.createOperation op ∈ (createFromMigration w project req).2) :
    (req.Source.Mode = "pull" ∨ req.Source.Mode = "push") ∧
    ∃ sink args, w.NewMigrationSink args = .ok sink ∧
      args.Push = decide (req.Source.Mode = "push") ∧
      op = migrationOperation req sink := by
  have hmode : req.Source.Mode = "pull" ∨ req.Source.Mode = "push" := by
    by_contra hne
    have h1 : req.Source.Mode ≠ "pull" := fun e => hne (Or.inl e)
    have h2 : req.Source.Mode ≠ "push" := fun e => hne (Or.inr e)
    have hplan : migrationPlan w project req =
        .error (.NotImplemented (.msg ("Mode '" ++ req.Source.Mode ++ "' not implemented"))) := by
      unfold migrationPlan
      rw [if_pos ⟨h1, h2⟩]
    rw [createFromMigration_of_plan_error w project req _ hplan] at h
    cases h
  refine ⟨hmode, ?_⟩
  unfold createFromMigration at h
  cases hplan : migrationPlan w project req with
  | error r =>
    rw [hplan] at h
    cases h
  | ok plan =>
    rw [hplan] at h
    dsimp only at h
    have hreq := (migrationPlan_ok w project req plan hplan).2.2.2.2.2
    have hname : plan.req.Name = req.Name := by
      rw [hreq]
      exact (prefillProfiles_name req).1
    have hsource : plan.req.Source = req.Source := by
      rw [hreq]
      exact (prefillProfiles_name req).2
    cases he : earlyRefresh w project plan.req with
    | error r =>
      rw [he] at h
      cases h
    | ok ri =>
      obtain ⟨refresh, inst0⟩ := ri
      rw [he] at h
      dsimp only at h
      have hbody : Event.createOperation op ∈ (migrationBody w plan refresh inst0).events := by
        rcases List.mem_append.mp h with h | h
        · exact h
        · unfold deferredRevert at h
          split at h
          · split at h
            · simp at h
            · cases h
          · cases h
      obtain ⟨sink, inst, hsink, hop⟩ := migrationBody_operation w plan refresh inst0 op hbody
      obtain ⟨args, hargs, hpush, _⟩ := newSink_push w plan.req refresh inst sink hsink
      refine ⟨sink, args, hargs, ?_, ?_⟩
      · rw [hpush, hsource]
      · rw [hop]
        unfold migrationOperation
        rw [hname, hsource]

/-- C22: whenever `createFromMigration` registers an operation, the source mode is `push` or
`pull`; the operation is of the Websocket class exactly when the mode is `push`, and then it
carries the metadata of the sink that `NewMigrationSink` returned and the sink's connect
hook; when the mode is `pull` it is of the Task class with no metadata and no connect hook;
in both cases its resources list the name of the new instance under `instances` and under
`containers`. -/
theorem createFromMigration_operation_class (w : MigrationCalls) (project : String)
    (req : InstancesPost) (op : Operation)
    (h : Event.createOperation op ∈ (createFromMigration w project req).2) :
    op.resources = [("instances", [req.Name]), ("containers", [req.Name])] ∧
    (op.opClass = .Websocket ↔ req.Source.Mode = "push") ∧
    (req.Source.Mode = "push" →
      op.opClass = .Websocket ∧ op.connect = true ∧
      ∃ sink args, w.NewMigrationSink args = .ok sink ∧ args.Push = true ∧
        op.metadata = some sink.Metadata) ∧
    (req.Source.Mode = "pull" →
      op.opClass = .Task ∧ op.metadata = none ∧ op.connect = false) := by
  obtain ⟨hmode, sink, args, hargs, hpush, hop⟩ :=
    createFromMigration_registered w project req op h
  subst hop
  unfold migrationOperation
  by_cases hm : req.Source.Mode = "push"
  · rw [if_pos hm]
    refine ⟨rfl, ⟨fun _ => hm, fun _ => rfl⟩, fun _ => ⟨rfl, rfl, sink, args, hargs, ?_, rfl⟩, ?_⟩
    · rw [hpush]
      exact decide_eq_true hm
    · intro hpull
      rw [hpull] at hm
      exact absurd hm (by decide)
  · rw [if_neg hm]
    refine ⟨rfl, ⟨fun hc => ?_, fun hc => absurd hc hm⟩, fun hc => absurd hc hm,
      fun _ => ⟨rfl, rfl, rfl⟩⟩
    cases hc

theorem createFromMigration_operation_class_witness :
    Event.createOperation ⟨.Websocket, [("instances", ["c1"]), ("containers", ["c1"])],
        some [("control", "s1")], true⟩ ∈
      (createFromMigration
        { callsOf (clusterOf ["fast"] [("default", rootProfile "fast")]) ["default"] with
          NewMigrationSink := fun _ => .ok ⟨[("control", "s1")]⟩ }
        "default" { Name := "c1", Source := { Mode := "push" } }).2 ∧
    (⟨.Websocket, [("instances", ["c1"]), ("containers", ["c1"])],
        some [("control", "s1")], true⟩ : Operation).resources =
      [("instances", ["c1"]), ("containers", ["c1"])] :=
  ⟨by decide,
    (createFromMigration_operation_class
      { callsOf (clusterOf ["fast"] [("default", rootProfile "fast")]) ["default"] with
        NewMigrationSink := fun _ => .ok ⟨[("control", "s1")]⟩ }
      "default" { Name := "c1", Source := { Mode := "push" } }
      ⟨.Websocket, [("instances", ["c1"]), ("containers", ["c1"])],
        some [("control", "s1")], true⟩
      (by decide)).1⟩

/-! ## The name generation loop of `containersPost` -/

theorem generateName_taken (gen : Nat → String) (names : List String)
    (htaken : ∀ j, 1 ≤ j → j ≤ 100 → StringInSlice (gen j) names = true) :
    ∀ n i, 0 < n → i + n = 101 →
      generateName gen names n i =
        (if StringInSlice (gen 101) names = false then .ok (gen 101)
          else .error
            (.InternalError (.msg "Couldn't generate a new unique name after 100 tries")),
          (List.range' (i + 1) n).map DispatchStep.generate) := by
  intro n
  induction n with
  | zero => intro i h; omega
  | succ n ih =>
    intro i _ hsum
    unfold generateName
    by_cases hlast : i + 1 > 100
    · have hi : i = 100 := by omega
      have hn : n = 0 := by omega
      subst hi
      subst hn
      by_cases hfree : StringInSlice (gen 101) names = false
      · simp [hfree]
      · simp [hfree]
    · have ht : StringInSlice (gen (i + 1)) names = true := htaken (i + 1) (by omega) (by omega)
      rw [if_neg (by rw [ht]; decide), if_neg hlast, ih (i + 1) (by omega) (by omega)]
      simp [List.range'_succ]

/-- C24 (code as written): when the request carries no name and the first hundred generated
candidates are all among the project's instance names, `containersPost` generates a 101st
candidate: if that one is taken as well, the preparation of the request ends in the internal
error "Couldn't generate a new unique name after 100 tries" after 101 candidates (the steps
`generate 1` to `generate 101`); if it is free, it becomes the name of the instance. -/
theorem prepareRequest_name_budget (w : DispatchCalls) (project : String)
    (req : InstancesPost) (pools names : List String)
    (hpools : w.StoragePools = .ok pools) (hsome : pools ≠ [])
    (hname : req.Name = "") (hnames : w.InstanceNames project = .ok names)
    (htaken : ∀ j, 1 ≤ j → j ≤ 100 → StringInSlice (w.Generate j) names = true) :
    (StringInSlice (w.Generate 101) names = true →
      prepareRequest w project req =
        (.error (.InternalError (.msg "Couldn't generate a new unique name after 100 tries")),
          .storagePools :: .instanceNames ::
            (List.range' 1 101).map DispatchStep.generate) ∧
      DispatchStep.generate 101 ∈ (prepareRequest w project req).2) ∧
    (StringInSlice (w.Generate 101) names = false →
      generateName w.Generate names 101 0 =
        (.ok (w.Generate 101), (List.range' 1 101).map DispatchStep.generate)) := by
  have hgen := generateName_taken w.Generate names htaken 101 0 (by decide) rfl
  constructor
  · intro hlast
    have hprep : prepareRequest w project req =
        (.error (.InternalError (.msg "Couldn't generate a new unique name after 100 tries")),
          .storagePools :: .instanceNames ::
            (List.range' 1 101).map DispatchStep.generate) := by
      have hlen : ¬ pools.length = 0 := fun h => hsome (List.length_eq_zero.mp h)
      unfold prepareRequest
      rw [hpools, hnames]
      dsimp only
      rw [hgen]
      simp [hname, hlast, hlen]
    rw [hprep]
    refine ⟨rfl, ?_⟩
    simp only [List.mem_cons, List.mem_map, List.mem_range']
    right; right
    exact ⟨101, ⟨100, by decide, rfl⟩, rfl⟩
  · intro hfree
    rw [hgen, if_pos hfree]

theorem prepareRequest_name_budget_witness :
    prepareRequest
        { dispatchCallsOf [] "" ["default"] ["pet"] with Generate := fun _ => "pet" }
        "default" { Source := { SourceType := "none" } } =
      (.error (.InternalError (.msg "Couldn't generate a new unique name after 100 tries")),
        .storagePools :: .instanceNames :: (List.range' 1 101).map DispatchStep.generate) ∧
    DispatchStep.generate 101 ∈
      (prepareRequest
        { dispatchCallsOf [] "" ["default"] ["pet"] with Generate := fun _ => "pet" }
        "default" { Source := { SourceType := "none" } }).2 :=
  (prepareRequest_name_budget
    { dispatchCallsOf [] "" ["default"] ["pet"] with Generate := fun _ => "pet" }
    "default" { Source := { SourceType := "none" } } ["default"] ["pet"]
    rfl (by decide) rfl rfl (fun _ _ _ => show StringInSlice "pet" ["pet"] = true by decide)).1 (by decide)

/-! ## The drop rule of the copy config merge -/

/-- C27 (code as written): in the config merge of `createFromCopy`, a source config key that
is absent from the request's config is left out exactly when it is longer than 8 bytes, its
first 8 bytes are `volatile`, and what follows its ninth byte is neither `base_image` nor
`last_state.idmap`; the ninth byte itself is never looked at, so a key such as
`volatilexfoo` is left out although it does not begin with `volatile.`. Every other source
key absent from the request is copied with the source's value. -/
theorem configOverride_drop_rule (sourceConfig : Config) (reqConfig : Option Config)
    (k : String) (habsent : lookupKey (reqConfig.getD []) k = none) :
    lookupKey (configOverride sourceConfig reqConfig) k =
      (if k.length > 8 ∧ goSlice k 0 8 = "volatile" ∧ goSliceFrom k 9 ≠ "base_image" ∧
          goSliceFrom k 9 ≠ "last_state.idmap"
        then none else lookupKey sourceConfig k) := by
  unfold configOverride
  rw [lookupKey_configOverrideLoop, habsent]
  dsimp only
  have hskip : (skipVolatile k = true) ↔
      (k.length > 8 ∧ goSlice k 0 8 = "volatile" ∧ goSliceFrom k 9 ≠ "base_image" ∧
        goSliceFrom k 9 ≠ "last_state.idmap") := by
    unfold skipVolatile StringInSlice
    simp [and_assoc]
  by_cases h : skipVolatile k = true
  · rw [if_pos h, if_pos (hskip.mp h)]
  · rw [if_neg h, if_neg (fun hc => h (hskip.mpr hc))]

theorem configOverride_drop_rule_witness :
    lookupKey [("volatilexfoo", "v"), ("limits.cpu", "2")] "volatilexfoo" = some "v" ∧
    lookupKey (configOverride [("volatilexfoo", "v"), ("limits.cpu", "2")] none)
      "volatilexfoo" = none :=
  ⟨by decide,
    (configOverride_drop_rule [("volatilexfoo", "v"), ("limits.cpu", "2")] none
      "volatilexfoo" (by decide)).trans (by decide)⟩

/-! ## Getters and setters of the cgroup limits -/

/-- C23 (counterexample): on cgroup V1 and on V2, after `SetMemorySoftLimit("-1")` the getter
`GetMemorySoftLimit` returns `max`, not `-1`: the soft-limit setter stores `max` for `-1`
just as the swap setter does. -/
theorem SetMemorySoftLimit_unlimited :
    CGroup.GetMemorySoftLimit (fun _ => .V1)
        (CGroup.SetMemorySoftLimit (fun _ => .V1) emptyCGroup "-1").2 = .ok "max" ∧
    CGroup.GetMemorySoftLimit (fun _ => .V2)
        (CGroup.SetMemorySoftLimit (fun _ => .V2) emptyCGroup "-1").2 = .ok "max" ∧
    CGroup.GetMemorySoftLimit (fun _ => .V1)
        (CGroup.SetMemorySoftLimit (fun _ => .V1) emptyCGroup "-1").2 ≠ .ok "-1" ∧
    CGroup.GetMemorySoftLimit (fun _ => .V2)
        (CGroup.SetMemorySoftLimit (fun _ => .V2) emptyCGroup "-1").2 ≠ .ok "-1" := by
  have h1 : CGroup.GetMemorySoftLimit (fun _ => .V1)
      (CGroup.SetMemorySoftLimit (fun _ => .V1) emptyCGroup "-1").2 = .ok "max" := rfl
  have h2 : CGroup.GetMemorySoftLimit (fun _ => .V2)
      (CGroup.SetMemorySoftLimit (fun _ => .V2) emptyCGroup "-1").2 = .ok "max" := rfl
  refine ⟨h1, h2, ?_, ?_⟩
  · rw [h1]
    intro h
    exact absurd (Except.ok.inj h) (by decide)
  · rw [h2]
    intro h
    exact absurd (Except.ok.inj h) (by decide)

/-- C23 (amended): with the `ReadWriter` a store keyed by version, controller and key, and
the memory controller on cgroup V1 or V2, each limit getter reads the key its setter writes
and the setters return no error: after `SetMemorySoftLimit(v)`, `GetMemorySoftLimit` returns
`v` for every `v` other than `-1`, and `max` for `-1`; after `SetMemoryMaxUsage(v)`,
`GetMaxMemory` returns `v` for every `v`; after `SetMemorySwapMax(v)`, `GetMemorySwapLimit`
returns `v` for every `v` other than `-1`, and `max` for `-1`; and with the blkio controller
on V1, after `SetBlkioWeight(v)`, `GetBlkioWeight` returns `v`. -/
theorem cgroup_getter_setter_pairing (cgControllers : String → Backend) (cg : CGroup)
    (v : String)
    (hmemory : cgControllers "memory" = .V1 ∨ cgControllers "memory" = .V2) :
    (CGroup.SetMemorySoftLimit cgControllers cg v).1 = none ∧
    (v ≠ "-1" → CGroup.GetMemorySoftLimit cgControllers
      (CGroup.SetMemorySoftLimit cgControllers cg v).2 = .ok v) ∧
    CGroup.GetMemorySoftLimit cgControllers
      (CGroup.SetMemorySoftLimit cgControllers cg "-1").2 = .ok "max" ∧
    (CGroup.SetMemoryMaxUsage cgControllers cg v).1 = none ∧
    CGroup.GetMaxMemory cgControllers
      (CGroup.SetMemoryMaxUsage cgControllers cg v).2 = .ok v ∧
    (CGroup.SetMemorySwapMax cgControllers cg v).1 = none ∧
    (v ≠ "-1" → CGroup.GetMemorySwapLimit cgControllers
      (CGroup.SetMemorySwapMax cgControllers cg v).2 = .ok v) ∧
    CGroup.GetMemorySwapLimit cgControllers
      (CGroup.SetMemorySwapMax cgControllers cg "-1").2 = .ok "max" ∧
    (cgControllers "blkio" = .V1 →
      (CGroup.SetBlkioWeight cgControllers cg v).1 = none ∧
      CGroup.GetBlkioWeight cgControllers
        (CGroup.SetBlkioWeight cgControllers cg v).2 = .ok v) := by
  refine ⟨?_, ?_, ?_, ?_, ?_, ?_, ?_, ?_, ?_⟩
  · rcases hmemory with h | h <;>
      by_cases hv : v = "-1" <;>
      simp [CGroup.SetMemorySoftLimit, CGroup.after, ReadWriter.Set, h, hv]
  · intro hv
    rcases hmemory with h | h <;>
      simp [CGroup.SetMemorySoftLimit, CGroup.GetMemorySoftLimit, CGroup.after,
        ReadWriter.Set, ReadWriter.Get, h, hv]
  · rcases hmemory with h | h <;>
      simp [CGroup.SetMemorySoftLimit, CGroup.GetMemorySoftLimit, CGroup.after,
        ReadWriter.Set, ReadWriter.Get, h]
  · rcases hmemory with h | h <;>
      simp [CGroup.SetMemoryMaxUsage, CGroup.after, ReadWriter.Set, h]
  · rcases hmemory with h | h <;>
      simp [CGroup.SetMemoryMaxUsage, CGroup.GetMaxMemory, CGroup.after,
        ReadWriter.Set, ReadWriter.Get, h]
  · rcases hmemory with h | h <;>
      by_cases hv : v = "-1" <;>
      simp [CGroup.SetMemorySwapMax, CGroup.after, ReadWriter.Set, h, hv]
  · intro hv
    rcases hmemory with h | h <;>
      simp [CGroup.SetMemorySwapMax, CGroup.GetMemorySwapLimit, CGroup.after,
        ReadWriter.Set, ReadWriter.Get, h, hv]
  · rcases hmemory with h | h <;>
      simp [CGroup.SetMemorySwapMax, CGroup.GetMemorySwapLimit, CGroup.after,
        ReadWriter.Set, ReadWriter.Get, h]
  · intro h
    simp [CGroup.SetBlkioWeight, CGroup.GetBlkioWeight, CGroup.after,
      ReadWriter.Set, ReadWriter.Get, h]

theorem cgroup_getter_setter_pairing_witness :
    CGroup.GetMaxMemory (fun c => if c = "memory" then .V2 else .V1)
        (CGroup.SetMemoryMaxUsage (fun c => if c = "memory" then .V2 else .V1)
          emptyCGroup "500").2 = .ok "500" ∧
    CGroup.GetBlkioWeight (fun c => if c = "memory" then .V2 else .V1)
        (CGroup.SetBlkioWeight (fun c => if c = "memory" then .V2 else .V1)
          emptyCGroup "500").2 = .ok "500" :=
  have h := cgroup_getter_setter_pairing (fun c => if c = "memory" then .V2 else .V1)
    emptyCGroup "500" (Or.inr (by decide))
  ⟨h.2.2.2.2.1, (h.2.2.2.2.2.2.2.2 (by decide)).2⟩

/-! ## Matching ebtables rules -/

theorem matchEbtablesRule_total (deleteMode : Bool) :
    ∀ activeRule matchRule : List String, matchRule.length ≤ activeRule.length →
      ∃ result active, matchEbtablesRule activeRule matchRule deleteMode =
        some (result, active) := by
  intro activeRule matchRule
  induction matchRule generalizing activeRule with
  | nil =>
    intro _
    exact ⟨true, activeRule, by cases activeRule <;> rfl⟩
  | cons m matchRule ih =>
    intro hlen
    cases activeRule with
    | nil => simp at hlen
    | cons a activeRule =>
      obtain ⟨result, active, h⟩ := ih activeRule (by simpa using hlen)
      unfold matchEbtablesRule
      rw [h]
      split
      · exact ⟨_, _, rfl⟩
      · split
        · exact ⟨_, _, rfl⟩
        · exact ⟨_, _, rfl⟩

theorem matchEbtablesRule_delete_iff :
    ∀ activeRule matchRule : List String, activeRule.length = matchRule.length →
      ∀ result active, matchEbtablesRule activeRule matchRule true = some (result, active) →
        (result = true ↔
          ∀ p ∈ activeRule.zip matchRule, p.1 = "-A" ∨ p.1 = "-D" ∨ p.1 = p.2) ∧
        (result = true →
          active = activeRule.map (fun a => if a = "-A" ∨ a = "-D" then "-D" else a)) := by
  intro activeRule matchRule
  induction matchRule generalizing activeRule with
  | nil =>
    intro hlen result active h
    have hnil : activeRule = [] := List.length_eq_zero.mp hlen
    subst hnil
    unfold matchEbtablesRule at h
    cases h
    simp
  | cons m matchRule ih =>
    intro hlen result active h
    cases activeRule with
    | nil => simp at hlen
    | cons a activeRule =>
      have hlen1 : activeRule.length = matchRule.length := by simpa using hlen
      unfold matchEbtablesRule at h
      by_cases hflag : a = "-A" ∨ a = "-D"
      · rw [if_pos ⟨rfl, hflag⟩] at h
        cases hrec : matchEbtablesRule activeRule matchRule true with
        | none => rw [hrec] at h; cases h
        | some ra =>
          obtain ⟨result1, active1⟩ := ra
          rw [hrec] at h
          cases h
          obtain ⟨hiff, hafter⟩ := ih activeRule hlen1 result active1 hrec
          constructor
          · rw [hiff]
            simp only [List.zip_cons_cons, List.mem_cons, forall_eq_or_imp]
            constructor
            · intro hall
              refine ⟨?_, hall⟩
              rcases hflag with hf | hf
              · exact Or.inl hf
              · exact Or.inr (Or.inl hf)
            · intro hall
              exact hall.2
          · intro hres
            rw [hafter hres, List.map_cons, if_pos hflag]
      · rw [if_neg (fun hc => hflag hc.2)] at h
        by_cases hne : a ≠ m
        · rw [if_pos hne] at h
          cases h
          constructor
          · constructor
            · intro hc; cases hc
            · intro hall
              exfalso
              rcases hall (a, m) (by simp) with hc | hc | hc
              · exact hflag (Or.inl hc)
              · exact hflag (Or.inr hc)
              · exact hne hc
          · intro hc; cases hc
        · rw [if_neg hne] at h
          have ham : a = m := not_not.mp hne
          cases hrec : matchEbtablesRule activeRule matchRule true with
          | none => rw [hrec] at h; cases h
          | some ra =>
            obtain ⟨result1, active1⟩ := ra
            rw [hrec] at h
            cases h
            obtain ⟨hiff, hafter⟩ := ih activeRule hlen1 result active1 hrec
            constructor
            · rw [hiff]
              simp only [List.zip_cons_cons, List.mem_cons, forall_eq_or_imp]
              constructor
              · intro hall
                exact ⟨Or.inr (Or.inr ham), hall⟩
              · intro hall
                exact hall.2
            · intro hres
              rw [hafter hres, List.map_cons, if_neg hflag]

/-- C25 (code as written): in delete mode an active rule that holds `-A` in the place of the
interface name is matched by the rule generated for the interface `veth1a2b`: the two rules
have the same length, both hold `-A` at the position of the add flag (index 3), they differ
at index 9, and `matchEbtablesRule` returns true, having rewritten both fields to `-D`. The
docstring of the function says that the `-A` flag is what is left out of the equality
match. -/
theorem matchEbtablesRule_skips_other_field :
    matchEbtablesRule
        ["ebtables", "-t", "filter", "-A", "INPUT", "-s", "!", "00:16:3e:aa:bb:cc", "-i",
          "-A", "-j", "DROP"]
        ["ebtables", "-t", "filter", "-A", "INPUT", "-s", "!", "00:16:3e:aa:bb:cc", "-i",
          "veth1a2b", "-j", "DROP"] true =
      some (true,
        ["ebtables", "-t", "filter", "-D", "INPUT", "-s", "!", "00:16:3e:aa:bb:cc", "-i",
          "-D", "-j", "DROP"]) ∧
    ["ebtables", "-t", "filter", "-A", "INPUT", "-s", "!", "00:16:3e:aa:bb:cc", "-i",
      "veth1a2b", "-j", "DROP"] ∈ generateFilterEbtablesRules sampleIsTrue filteredNic none none ∧
    (["ebtables", "-t", "filter", "-A", "INPUT", "-s", "!", "00:16:3e:aa:bb:cc", "-i",
      "-A", "-j", "DROP"] : List String).get? 9 ≠
    (["ebtables", "-t", "filter", "-A", "INPUT", "-s", "!", "00:16:3e:aa:bb:cc", "-i",
      "veth1a2b", "-j", "DROP"] : List String).get? 9 := by
  refine ⟨by decide, by decide, by decide⟩

/-- What `matchEbtablesRule` computes in delete mode: for every active rule and match rule
of equal length, `matchEbtablesRule(active, match, true)` reads no index out of range and
returns true exactly when at every position the active rule holds `-A`, or holds `-D`, or
holds the field of the match rule; the flag is detected by its value, at whatever position it
stands. When the function returns true, the active rule is left with each of its `-A` fields
turned into `-D`. -/
theorem matchEbtablesRule_delete_mode (activeRule matchRule : List String)
    (hlen : activeRule.length = matchRule.length) :
    ∃ result active, matchEbtablesRule activeRule matchRule true = some (result, active) ∧
      (result = true ↔
        ∀ p ∈ activeRule.zip matchRule, p.1 = "-A" ∨ p.1 = "-D" ∨ p.1 = p.2) ∧
      (result = true →
        active = activeRule.map (fun a => if a = "-A" ∨ a = "-D" then "-D" else a)) := by
  obtain ⟨result, active, h⟩ :=
    matchEbtablesRule_total true activeRule matchRule (le_of_eq hlen.symm)
  exact ⟨result, active, h, matchEbtablesRule_delete_iff activeRule matchRule hlen result active h⟩

theorem matchEbtablesRule_delete_mode_witness :
    ∃ result active,
      matchEbtablesRule ["ebtables", "-t", "filter", "-A", "INPUT", "-j", "DROP"]
        ["ebtables", "-t", "filter", "-A", "INPUT", "-j", "ACCEPT"] true =
        some (result, active) ∧
      (result = true ↔
        ∀ p ∈ (["ebtables", "-t", "filter", "-A", "INPUT", "-j", "DROP"] : List String).zip
            ["ebtables", "-t", "filter", "-A", "INPUT", "-j", "ACCEPT"],
          p.1 = "-A" ∨ p.1 = "-D" ∨ p.1 = p.2) ∧
      (result = true →
        active = (["ebtables", "-t", "filter", "-A", "INPUT", "-j", "DROP"] : List String).map
          (fun a => if a = "-A" ∨ a = "-D" then "-D" else a)) :=
  matchEbtablesRule_delete_mode ["ebtables", "-t", "filter", "-A", "INPUT", "-j", "DROP"]
    ["ebtables", "-t", "filter", "-A", "INPUT", "-j", "ACCEPT"] (by decide)

theorem matchEbtablesRule_self (rule : List String) :
    matchEbtablesRule rule rule true =
      some (true, rule.map (fun a => if a = "-A" ∨ a = "-D" then "-D" else a)) := by
  induction rule with
  | nil => rfl
  | cons a rule ih =>
    unfold matchEbtablesRule
    rw [ih]
    by_cases hflag : a = "-A" ∨ a = "-D"
    · rw [if_pos ⟨rfl, hflag⟩, List.map_cons, if_pos hflag]
    · rw [if_neg (fun hc => hflag hc.2), if_neg (by simp), List.map_cons, if_neg hflag]

theorem masked_ne_flag (address : String) :
    address ++ "/ffff:ffff:ffff:ffff:ffff:ffff:ffff:ffff" ≠ "-A" ∧
      address ++ "/ffff:ffff:ffff:ffff:ffff:ffff:ffff:ffff" ≠ "-D" := by
  have hlen : (address ++ "/ffff:ffff:ffff:ffff:ffff:ffff:ffff:ffff").length ≥ 40 := by
    rw [String.length_append]
    have : "/ffff:ffff:ffff:ffff:ffff:ffff:ffff:ffff".length = 40 := by decide
    omega
  constructor
  · intro h
    rw [h] at hlen
    exact absurd hlen (by decide)
  · intro h
    rw [h] at hlen
    exact absurd hlen (by decide)

/-- C26: for every device config, IPv4 and IPv6 address, and every rule `r` returned by
`generateFilterEbtablesRules`, provided the device's `hwaddr` and `host_name` and the text
of the IPv4 address are not themselves `-A` or `-D`: `r` holds `-A` at index 3, and matching
a copy of `r` against `r` with `matchEbtablesRule` in delete mode reads no index out of
range, returns true, and leaves the copy equal to `r` with the field at index 3 turned into
`-D`. -/
theorem generated_rule_delete (IsTrue : String → Bool) (m : Device)
    (ipv4 ipv6 : Option String)
    (hhwaddr : prop m "hwaddr" ≠ "-A" ∧ prop m "hwaddr" ≠ "-D")
    (hhost : prop m "host_name" ≠ "-A" ∧ prop m "host_name" ≠ "-D")
    (hipv4 : ∀ a, ipv4 = some a → a ≠ "-A" ∧ a ≠ "-D")
    (r : List String) (hr : r ∈ generateFilterEbtablesRules IsTrue m ipv4 ipv6) :
    r.get? 3 = some "-A" ∧ matchEbtablesRule r r true = some (true, r.set 3 "-D") := by
  rw [matchEbtablesRule_self]
  obtain ⟨hw1, hw2⟩ := hhwaddr
  obtain ⟨hh1, hh2⟩ := hhost
  unfold generateFilterEbtablesRules at hr
  generalize prop m "hwaddr" = hwaddr at hr hw1 hw2
  generalize prop m "host_name" = host at hr hh1 hh2
  have hrules : ∀ x ∈ ([
      ["ebtables", "-t", "filter", "-A", "INPUT", "-s", "!", hwaddr, "-i", host, "-j", "DROP"],
      ["ebtables", "-t", "filter", "-A", "FORWARD", "-s", "!", hwaddr, "-i", host, "-j",
        "DROP"]] : List (List String)),
      x.get? 3 = some "-A" ∧
        x.map (fun a => if a = "-A" ∨ a = "-D" then "-D" else a) = x.set 3 "-D" := by
    intro x hx
    simp only [List.mem_cons, List.mem_singleton, List.not_mem_nil, or_false] at hx
    rcases hx with rfl | rfl <;> simp [hw1, hw2, hh1, hh2]
  have hrules4 : ∀ a, a ≠ "-A" → a ≠ "-D" → ∀ x ∈ ([
      ["ebtables", "-t", "filter", "-A", "INPUT", "-p", "ARP", "-i", host,
        "--arp-mac-src", "!", hwaddr, "-j", "DROP"],
      ["ebtables", "-t", "filter", "-A", "FORWARD", "-p", "ARP", "-i", host,
        "--arp-mac-src", "!", hwaddr, "-j", "DROP"],
      ["ebtables", "-t", "filter", "-A", "INPUT", "-p", "ARP", "-i", host,
        "--arp-ip-src", "!", a, "-j", "DROP"],
      ["ebtables", "-t", "filter", "-A", "FORWARD", "-p", "ARP", "-i", host,
        "--arp-ip-src", "!", a, "-j", "DROP"],
      ["ebtables", "-t", "filter", "-A", "INPUT", "-p", "IPv4", "-s", hwaddr,
        "-i", host, "--ip-src", "0.0.0.0", "--ip-dst", "255.255.255.255",
        "--ip-proto", "udp", "--ip-dport", "67", "-j", "ACCEPT"],
      ["ebtables", "-t", "filter", "-A", "INPUT", "-p", "IPv4", "-i", host,
        "--ip-src", "!", a, "-j", "DROP"],
      ["ebtables", "-t", "filter", "-A", "FORWARD", "-p", "IPv4", "-i", host,
        "--ip-src", "!", a, "-j", "DROP"]] : List (List String)),
      x.get? 3 = some "-A" ∧
        x.map (fun a => if a = "-A" ∨ a = "-D" then "-D" else a) = x.set 3 "-D" := by
    intro a ha1 ha2 x hx
    simp only [List.mem_cons, List.mem_singleton, List.not_mem_nil, or_false] at hx
    rcases hx with rfl | rfl | rfl | rfl | rfl | rfl | rfl <;>
      simp [hw1, hw2, hh1, hh2, ha1, ha2]
  have hrules6 : ∀ b, ∀ x ∈ ([
      ["ebtables", "-t", "filter", "-A", "INPUT", "-p", "IPv6", "-s", hwaddr, "-i",
        host, "--ip6-src", "fe80::/ffc0::", "--ip6-dst",
        "ff02::1:2/ffff:ffff:ffff:ffff:ffff:ffff:ffff:ffff", "--ip6-proto", "udp",
        "--ip6-dport", "547", "-j", "ACCEPT"],
      ["ebtables", "-t", "filter", "-A", "INPUT", "-p", "IPv6", "-s", hwaddr, "-i",
        host, "--ip6-src", "fe80::/ffc0::", "--ip6-dst",
        "ff02::2/ffff:ffff:ffff:ffff:ffff:ffff:ffff:ffff", "--ip6-proto", "ipv6-icmp",
        "--ip6-icmp-type", "router-solicitation", "-j", "ACCEPT"],
      ["ebtables", "-t", "filter", "-A", "INPUT", "-p", "IPv6", "-i", host,
        "--ip6-src", "!", b ++ "/ffff:ffff:ffff:ffff:ffff:ffff:ffff:ffff", "-j",
        "DROP"],
      ["ebtables", "-t", "filter", "-A", "FORWARD", "-p", "IPv6", "-i", host,
        "--ip6-src", "!", b ++ "/ffff:ffff:ffff:ffff:ffff:ffff:ffff:ffff", "-j",
        "DROP"]] : List (List String)),
      x.get? 3 = some "-A" ∧
        x.map (fun a => if a = "-A" ∨ a = "-D" then "-D" else a) = x.set 3 "-D" := by
    intro b x hx
    have hb1 := (masked_ne_flag b).1
    have hb2 := (masked_ne_flag b).2
    simp only [List.mem_cons, List.mem_singleton, List.not_mem_nil, or_false] at hx
    rcases hx with rfl | rfl | rfl | rfl <;>
      simp [hw1, hw2, hh1, hh2, hb1, hb2]
  dsimp only at hr
  have hrules4all : ∀ x ∈ (match ipv4 with
      | some ipv4String =>
        if IsTrue (prop m "security.ipv4_filtering") = true then
          ([["ebtables", "-t", "filter", "-A", "INPUT", "-s", "!", hwaddr, "-i", host, "-j",
              "DROP"],
            ["ebtables", "-t", "filter", "-A", "FORWARD", "-s", "!", hwaddr, "-i", host, "-j",
              "DROP"]] : List (List String)) ++ [
            ["ebtables", "-t", "filter", "-A", "INPUT", "-p", "ARP", "-i", host,
              "--arp-mac-src", "!", hwaddr, "-j", "DROP"],
            ["ebtables", "-t", "filter", "-A", "FORWARD", "-p", "ARP", "-i", host,
              "--arp-mac-src", "!", hwaddr, "-j", "DROP"],
            ["ebtables", "-t", "filter", "-A", "INPUT", "-p", "ARP", "-i", host,
              "--arp-ip-src", "!", ipv4String, "-j", "DROP"],
            ["ebtables", "-t", "filter", "-A", "FORWARD", "-p", "ARP", "-i", host,
              "--arp-ip-src", "!", ipv4String, "-j", "DROP"],
            ["ebtables", "-t", "filter", "-A", "INPUT", "-p", "IPv4", "-s", hwaddr,
              "-i", host, "--ip-src", "0.0.0.0", "--ip-dst", "255.255.255.255",
              "--ip-proto", "udp", "--ip-dport", "67", "-j", "ACCEPT"],
            ["ebtables", "-t", "filter", "-A", "INPUT", "-p", "IPv4", "-i", host,
              "--ip-src", "!", ipv4String, "-j", "DROP"],
            ["ebtables", "-t", "filter", "-A", "FORWARD", "-p", "IPv4", "-i", host,
              "--ip-src", "!", ipv4String, "-j", "DROP"]]
        else [["ebtables", "-t", "filter", "-A", "INPUT", "-s", "!", hwaddr, "-i", host, "-j",
              "DROP"],
            ["ebtables", "-t", "filter", "-A", "FORWARD", "-s", "!", hwaddr, "-i", host, "-j",
              "DROP"]]
      | none => [["ebtables", "-t", "filter", "-A", "INPUT", "-s", "!", hwaddr, "-i", host,
              "-j", "DROP"],
            ["ebtables", "-t", "filter", "-A", "FORWARD", "-s", "!", hwaddr, "-i", host, "-j",
              "DROP"]]),
      x.get? 3 = some "-A" ∧
        x.map (fun a => if a = "-A" ∨ a = "-D" then "-D" else a) = x.set 3 "-D" := by
    intro x hx
    split at hx
    · next a =>
      split at hx
      · rcases List.mem_append.mp hx with h | h
        · exact hrules x h
        · exact hrules4 a (hipv4 a rfl).1 (hipv4 a rfl).2 x h
      · exact hrules x hx
    · exact hrules x hx
  have hgoal : r.get? 3 = some "-A" ∧
      r.map (fun a => if a = "-A" ∨ a = "-D" then "-D" else a) = r.set 3 "-D" := by
    split at hr
    · next b =>
      split at hr
      · rcases List.mem_append.mp hr with h | h
        · exact hrules4all r h
        · exact hrules6 b r h
      · exact hrules4all r hr
    · exact hrules4all r hr
  exact ⟨hgoal.1, by rw [hgoal.2]⟩

theorem generated_rule_delete_witness :
    ["ebtables", "-t", "filter", "-A", "FORWARD", "-p", "IPv6", "-i", "veth1a2b", "--ip6-src",
        "!", "fd42::5/ffff:ffff:ffff:ffff:ffff:ffff:ffff:ffff", "-j", "DROP"] ∈
      generateFilterEbtablesRules sampleIsTrue filteredNic (some "10.0.0.5") (some "fd42::5") ∧
    matchEbtablesRule
        ["ebtables", "-t", "filter", "-A", "FORWARD", "-p", "IPv6", "-i", "veth1a2b",
          "--ip6-src", "!", "fd42::5/ffff:ffff:ffff:ffff:ffff:ffff:ffff:ffff", "-j", "DROP"]
        ["ebtables", "-t", "filter", "-A", "FORWARD", "-p", "IPv6", "-i", "veth1a2b",
          "--ip6-src", "!", "fd42::5/ffff:ffff:ffff:ffff:ffff:ffff:ffff:ffff", "-j", "DROP"]
        true =
      some (true,
        ["ebtables", "-t", "filter", "-D", "FORWARD", "-p", "IPv6", "-i", "veth1a2b",
          "--ip6-src", "!", "fd42::5/ffff:ffff:ffff:ffff:ffff:ffff:ffff:ffff", "-j", "DROP"]) :=
  ⟨by decide,
    (generated_rule_delete sampleIsTrue filteredNic (some "10.0.0.5") (some "fd42::5")
      (by decide) (by decide) (fun a h => by cases h; decide)
      ["ebtables", "-t", "filter", "-A", "FORWARD", "-p", "IPv6", "-i", "veth1a2b",
        "--ip6-src", "!", "fd42::5/ffff:ffff:ffff:ffff:ffff:ffff:ffff:ffff", "-j", "DROP"]
      (by decide)).2⟩

/-! ## The config of a local copy -/

theorem copyRoute_copy_config (w : CopyCalls) (project : String) (req req1 : InstancesPost)
    (source : SourceInstance) (h : copyRoute w project req source = .copy req1) :
    req1.Config = req.Config := by
  unfold copyRoute at h
  dsimp only at h
  repeat' split at h
  all_goals (cases h <;> rfl)

theorem copyLocal_cases (w : CopyCalls) (project : String) (req : InstancesPost)
    (source : SourceInstance) :
    ((copyLocal w project req source).1.isError = true ∧
      (copyLocal w project req source).2 = []) ∨
    ∃ op, copyLocal w project req source =
      (.OperationResponse op, [Event.createOperation op]) := by
  unfold copyLocal
  dsimp only
  repeat' split
  all_goals first
    | exact Or.inl ⟨rfl, rfl⟩
    | exact Or.inr ⟨_, rfl⟩

theorem copyCaptured_local (w : CopyCalls) (project : String) (req : InstancesPost)
    (args : InstanceArgs) (source : SourceInstance)
    (h : copyCaptured w project req = some (args, source)) :
    w.LoadByProjectAndName (if req.Source.Project = "" then project else req.Source.Project)
        req.Source.Source = .ok source ∧
    ∃ req1 op, copyRoute w project req source = .copy req1 ∧
      args = copyArgs project req1 source ∧
      createFromCopy w project req = (.OperationResponse op, [Event.createOperation op]) := by
  unfold copyCaptured at h
  split at h
  · cases h
  · next hsrc =>
    dsimp only at h
    split at h
    · cases h
    · next source1 hload =>
      split at h
      · cases h
      · cases h
      · next req1 hroute =>
        split at h
        · next op hop =>
          cases h
          have hlocal : copyLocal w project req1 source =
              (.OperationResponse op, [Event.createOperation op]) := by
            rcases copyLocal_cases w project req1 source with ⟨herr, _⟩ | ⟨op1, hop1⟩
            · rw [hop] at herr
              cases herr
            · rw [hop1] at hop
              cases hop
              exact hop1
          refine ⟨hload, req1, op, hroute, rfl, ?_⟩
          unfold createFromCopy
          rw [if_neg hsrc]
          dsimp only
          rw [hload]
          dsimp only
          rw [hroute]
          exact hlocal
        · cases h

/-- C9: on the local copy path of `createFromCopy` (the copy operation is registered; the
work function is handed the creation arguments `args`), when the local config of the source
holds `volatile.base_image` and `volatile.last_state.idmap` and the request carries no
config, the config of the creation arguments holds these two keys with the source's values
and holds no other key that begins with `volatile.`, whatever else the source config holds.
The source is the instance loaded for `req.Source.Source`. -/
theorem createFromCopy_volatile (w : CopyCalls) (project : String) (req : InstancesPost)
    (args : InstanceArgs) (source : SourceInstance) (base idmap : String)
    (hcopy : copyCaptured w project req = some (args, source))
    (hbase : lookupKey source.LocalConfig "volatile.base_image" = some base)
    (hidmap : lookupKey source.LocalConfig "volatile.last_state.idmap" = some idmap)
    (hreq : ∀ k, lookupKey (req.Config.getD []) k = none) :
    w.LoadByProjectAndName (if req.Source.Project = "" then project else req.Source.Project)
        req.Source.Source = .ok source ∧
    (∃ op, createFromCopy w project req =
      (.OperationResponse op, [Event.createOperation op])) ∧
    lookupKey (args.Config.getD []) "volatile.base_image" = some base ∧
    lookupKey (args.Config.getD []) "volatile.last_state.idmap" = some idmap ∧
    ∀ rest, "volatile." ++ rest ≠ "volatile.base_image" →
      "volatile." ++ rest ≠ "volatile.last_state.idmap" →
      lookupKey (args.Config.getD []) ("volatile." ++ rest) = none := by
  obtain ⟨hload, req1, op, hroute, hargs, hresp⟩ :=
    copyCaptured_local w project req args source hcopy
  have hconfig : args.Config.getD [] = configOverride source.LocalConfig req.Config := by
    rw [hargs, ← copyRoute_copy_config w project req req1 source hroute]
    rfl
  rw [hconfig]
  exact ⟨hload, ⟨op, hresp⟩, configOverride_volatile source.LocalConfig req.Config base idmap
    hbase hidmap hreq⟩

theorem createFromCopy_volatile_witness :
    lookupKey
        ((copyArgs "default" { Name := "c2", Source := { SourceType := "copy", Source := "c1" } }
          { containerOn "c1" "node1" "local" with
            LocalConfig := [("volatile.base_image", "8f3a"), ("volatile.last_state.idmap", "[]"),
              ("volatile.some_other_key", "x"), ("limits.cpu", "2")] }).Config.getD [])
        ("volatile." ++ "some_other_key") = none ∧
    lookupKey
        ((copyArgs "default" { Name := "c2", Source := { SourceType := "copy", Source := "c1" } }
          { containerOn "c1" "node1" "local" with
            LocalConfig := [("volatile.base_image", "8f3a"), ("volatile.last_state.idmap", "[]"),
              ("volatile.some_other_key", "x"), ("limits.cpu", "2")] }).Config.getD [])
        "volatile.base_image" = some "8f3a" :=
  have h := createFromCopy_volatile
    (copyCallsOf (clusterOf ["local"] [("default", rootProfile "local")]) [("local", "zfs")]
      "node1"
      [("c1", { containerOn "c1" "node1" "local" with
        LocalConfig := [("volatile.base_image", "8f3a"), ("volatile.last_state.idmap", "[]"),
          ("volatile.some_other_key", "x"), ("limits.cpu", "2")] })]
      ⟨"op-1", []⟩)
    "default" { Name := "c2", Source := { SourceType := "copy", Source := "c1" } }
    (copyArgs "default" { Name := "c2", Source := { SourceType := "copy", Source := "c1" } }
      { containerOn "c1" "node1" "local" with
        LocalConfig := [("volatile.base_image", "8f3a"), ("volatile.last_state.idmap", "[]"),
          ("volatile.some_other_key", "x"), ("limits.cpu", "2")] })
    { containerOn "c1" "node1" "local" with
      LocalConfig := [("volatile.base_image", "8f3a"), ("volatile.last_state.idmap", "[]"),
        ("volatile.some_other_key", "x"), ("limits.cpu", "2")] }
    "8f3a" "[]" (by decide) (by decide) (by decide) (fun _ => rfl)
  ⟨h.2.2.2.2 "some_other_key" (by decide) (by decide), h.2.2.1⟩

/-! ## Collaborator errors -/

theorem forwardRequest_local (w : DispatchCalls) (project targetNode : String)
    (req : InstancesPost) (h : targetNode = "" ∨ w.ResolveTarget targetNode = .ok "") :
    (forwardRequest w project targetNode req).1 = none := by
  unfold forwardRequest
  by_cases ht : targetNode = ""
  · rw [if_neg (not_not.mpr ht)]
  · rcases h with h | h
    · exact absurd h ht
    · rw [if_pos ht, h]
      rfl

theorem dispatcher_errors (w : DispatchCalls) (s : Strategies) (r : HttpRequest)
    (hct : r.ContentType ≠ "application/octet-stream") :
    (∀ err, r.body = .error err → (containersPost w s r).resp = .BadRequest err) ∧
    (∀ req err, r.body = .ok req → r.target = "" → w.NodeWithLeastContainers = .error err →
      (containersPost w s r).resp = .SmartError err) ∧
    (∀ req targetNode, r.body = .ok req → targetMember w r targetNode →
      (targetNode ≠ "" →
        (∀ err, w.ResolveTarget targetNode = .error err →
          (containersPost w s r).resp = .SmartError err) ∧
        (∀ address, w.ResolveTarget targetNode = .ok address → address ≠ "" →
          (∀ err, w.Connect address = some err →
            (containersPost w s r).resp = .SmartError err) ∧
          (∀ err, w.Connect address = none → w.CreateInstance address req = .error err →
            (containersPost w s r).resp = .SmartError err))) ∧
      (targetNode = "" ∨ w.ResolveTarget targetNode = .ok "" →
        (∀ err, w.StoragePools = .error err →
          (containersPost w s r).resp =
            .BadRequest (.msg "No storage pool found. Please create a new storage pool")) ∧
        (∀ pools, w.StoragePools = .ok pools → pools ≠ [] →
          (∀ err, req.Name = "" → w.InstanceNames r.project = .error err →
            (containersPost w s r).resp = .SmartError err) ∧
          (∀ err, req.Name ≠ "" → req.InstanceType ≠ "" →
            w.instanceParseType req.InstanceType = .error err →
            (containersPost w s r).resp = .BadRequest err) ∧
          (∀ names name steps err, req.Name = "" → w.InstanceNames r.project = .ok names →
            generateName w.Generate names 101 0 = (.ok name, steps) →
            req.InstanceType ≠ "" → w.instanceParseType req.InstanceType = .error err →
            (containersPost w s r).resp = .BadRequest err)))) := by
  refine ⟨?_, ?_, ?_⟩
  · intro err hbody
    exact containersPost_of_body_error w s r err hct hbody
  · intro req err hbody htarget hleast
    exact containersPost_of_pick_error w s r req err hct hbody htarget hleast
  · intro req targetNode hbody htm
    have hpick := (pickTarget_targetMember w r targetNode).mpr htm
    refine ⟨?_, ?_⟩
    · intro ht
      refine ⟨?_, ?_⟩
      · intro err hresolve
        have hf : forwardRequest w r.project targetNode req =
            (some (.SmartError err), [.resolveTarget targetNode]) := by
          simp [forwardRequest, ht, hresolve]
        rw [containersPost_of_forward w s r req targetNode _ hct hbody hpick (by rw [hf])]
      · intro address hresolve ha
        refine ⟨?_, ?_⟩
        · intro err hconnect
          have hf : forwardRequest w r.project targetNode req =
              (some (.SmartError err), [.resolveTarget targetNode, .connect address]) := by
            simp [forwardRequest, ht, hresolve, ha, hconnect]
          rw [containersPost_of_forward w s r req targetNode _ hct hbody hpick (by rw [hf])]
        · intro err hconnect hcreate
          have hf : forwardRequest w r.project targetNode req =
              (some (.SmartError err),
                [.resolveTarget targetNode, .connect address,
                  .createInstance address req]) := by
            simp [forwardRequest, ht, hresolve, ha, hconnect, hcreate]
          rw [containersPost_of_forward w s r req targetNode _ hct hbody hpick (by rw [hf])]
    · intro hlocal
      have hforward := forwardRequest_local w r.project targetNode req hlocal
      refine ⟨?_, ?_⟩
      · intro err hpools
        apply containersPost_of_prepare_error w s r req targetNode _ hct hbody hpick hforward
        simp [prepareRequest, hpools]
      · intro pools hpools hne
        refine ⟨?_, ?_, ?_⟩
        · intro err hname hnames
          apply containersPost_of_prepare_error w s r req targetNode _ hct hbody hpick hforward
          simp [prepareRequest, hpools, hne, hname, hnames]
        · intro err hname htype hparse
          apply containersPost_of_prepare_error w s r req targetNode _ hct hbody hpick hforward
          simp [prepareRequest, hpools, hne, hname, htype, hparse]
        · intro names name steps err hname hnames hgen htype hparse
          apply containersPost_of_prepare_error w s r req targetNode _ hct hbody hpick hforward
          simp [prepareRequest, hpools, hne, hname, hnames, hgen, htype, hparse]

theorem profileChain_fails (w : PoolLookups) (project : String) (pre post : List String)
    (pName : String) (err : Err) (acc : String × String)
    (hload : ∀ n ∈ pre, ∃ p, w.ProfileGet project n = .ok p)
    (hfail : w.ProfileGet project pName = .error err) :
    profileChain w project (pre ++ pName :: post) acc = .error err := by
  rw [profileChain_append]
  obtain ⟨acc1, hacc⟩ := profileChain_loads w project pre acc hload
  rw [hacc]
  dsimp only
  unfold profileChain
  rw [hfail]

theorem profileChain_strip (w : PoolLookups) (project : String) (ps : List String)
    (acc : String × String) :
    profileChain { w with GetRootDiskDevice := fun devices =>
        ((w.GetRootDiskDevice devices).1, (w.GetRootDiskDevice devices).2.1, none) }
      project ps acc = profileChain w project ps acc := by
  induction ps generalizing acc with
  | nil => rfl
  | cons pName rest ih =>
    unfold profileChain
    dsimp only
    cases w.ProfileGet project pName with
    | error err => rfl
    | ok p =>
      dsimp only
      rw [ih, ih]

theorem resolver_errors (p : PoolLookups) (project : String) (q : InstancesPost) :
    (noLocalPool p q →
      (∀ pre pName post err, q.Profiles.getD [] = pre ++ pName :: post →
        (∀ n ∈ pre, ∃ profile, p.ProfileGet project n = .ok profile) →
        p.ProfileGet project pName = .error err →
        (containerFindStoragePool p project q).1.resp = some (.SmartError err)) ∧
      ((∀ n ∈ q.Profiles.getD [], ∃ profile, p.ProfileGet project n = .ok profile) →
        (∀ n ∈ q.Profiles.getD [], ∀ profile, p.ProfileGet project n = .ok profile →
          ¬ definesRootPool p profile) →
        ∀ err, p.StoragePools = .error err →
          (err ≠ .ErrNoSuchObject →
            (containerFindStoragePool p project q).1.resp = some (.SmartError err)) ∧
          (err = .ErrNoSuchObject →
            (containerFindStoragePool p project q).1.resp = some (.BadRequest
              (.msg "This LXD instance does not have any storage pools configured"))))) ∧
    (∀ k dev e err, p.GetRootDiskDevice (q.Devices.getD []) = (k, dev, e) → k ≠ "" →
      prop dev "pool" ≠ "" → p.StoragePoolGetID (prop dev "pool") = .error err →
      (err ≠ .ErrNoSuchObject →
        containerFindStoragePool p project q =
          (⟨prop dev "pool", "", k, dev, none⟩, q.Devices)) ∧
      (err = .ErrNoSuchObject → (localRootPool p q).1 = "")) ∧
    containerFindStoragePool
        { p with GetRootDiskDevice := fun devices =>
          ((p.GetRootDiskDevice devices).1, (p.GetRootDiskDevice devices).2.1, none) }
        project q =
      containerFindStoragePool p project q := by
  refine ⟨?_, ?_, ?_⟩
  · intro hlocal
    have hl := localRootPool_of_noLocalPool p q hlocal
    refine ⟨?_, ?_⟩
    · intro pre pName post err hps hload hfail
      have hchain := profileChain_fails p project pre post pName err ("", "") hload hfail
      rw [← hps] at hchain
      unfold containerFindStoragePool
      rcases hlr : localRootPool p q with ⟨sp, key, dev, devices⟩
      rw [hlr] at hl
      dsimp only at hl
      subst hl
      simp [hchain, FoundPool.failed]
    · intro hload hnone err hpools
      have hres := containerFindStoragePool_no_hint p project q hlocal hload hnone
      refine ⟨?_, ?_⟩
      · intro hne
        rw [hres, singlePool_error p err hpools hne]
        rfl
      · intro heq
        subst heq
        rw [hres, singlePool_none p hpools]
        rfl
  · intro k dev e err hroot hk hpool hget
    refine ⟨?_, ?_⟩
    · intro hne
      have hns : isNoSuchObject (p.StoragePoolGetID (prop dev "pool")) = false := by
        rw [hget]
        cases err with
        | ErrNoSuchObject => exact absurd rfl hne
        | ErrUnknownDriver => rfl
        | msg t => rfl
        | other c => rfl
      simp [containerFindStoragePool, localRootPool, hroot, hk, hpool, hns]
    · intro heq
      subst heq
      apply localRootPool_of_noLocalPool
      right; right
      rw [hroot]
      dsimp only
      rw [hget]
      rfl
  · unfold containerFindStoragePool localRootPool singlePool
    dsimp only
    simp only [profileChain_strip]

theorem earlyRefresh_off (w : MigrationCalls) (project : String) (req : InstancesPost)
    (h : req.Source.Refresh = false ∨ ∃ e, w.LoadByProjectAndName project req.Name = .error e) :
    earlyRefresh w project req = .ok (false, none) := by
  unfold earlyRefresh
  by_cases hr : req.Source.Refresh = true
  · rcases h with h | ⟨e, h⟩
    · rw [h] at hr
      cases hr
    · rw [if_pos hr, h]
  · rw [if_neg hr]

theorem createFromMigration_of_body (w : MigrationCalls) (project : String)
    (req : InstancesPost) (plan : MigrationPlan) (refresh : Bool) (inst0 : Option Instance)
    (hplan : migrationPlan w project req = .ok plan)
    (he : earlyRefresh w project plan.req = .ok (refresh, inst0)) :
    createFromMigration w project req =
      ((migrationBody w plan refresh inst0).resp,
        (migrationBody w plan refresh inst0).events ++
          deferredRevert refresh (migrationBody w plan refresh inst0)) := by
  unfold createFromMigration
  rw [hplan]
  dsimp only
  rw [he]

theorem createFromMigration_of_record_error (w : MigrationCalls) (project : String)
    (req : InstancesPost) (plan : MigrationPlan) (r : Response)
    (hplan : migrationPlan w project req = .ok plan)
    (he : earlyRefresh w project plan.req = .ok (false, none))
    (hrec : createRecord w plan.req plan.args plan.storagePool = .error r) :
    createFromMigration w project req = (r, []) := by
  rw [createFromMigration_of_body w project req plan false none hplan he]
  unfold migrationBody
  simp [hrec, deferredRevert]

theorem createFromMigration_of_sink_error (w : MigrationCalls) (project : String)
    (req : InstancesPost) (plan : MigrationPlan) (refresh : Bool)
    (inst0 inst : Option Instance) (r : Response)
    (hplan : migrationPlan w project req = .ok plan)
    (he : earlyRefresh w project plan.req = .ok (refresh, inst0))
    (hinst : (refresh = true ∧ inst = inst0) ∨
      (refresh = false ∧ ∃ i, createRecord w plan.req plan.args plan.storagePool = .ok i ∧
        inst = some i))
    (hsink : newSink w plan.req refresh inst = .error r) :
    (createFromMigration w project req).1 = r := by
  rw [createFromMigration_of_body w project req plan refresh inst0 hplan he]
  unfold migrationBody
  rcases hinst with ⟨hr, hi⟩ | ⟨hr, i, hrec, hi⟩
  · subst hr
    subst hi
    simp [hsink]
  · subst hr
    subst hi
    simp [hrec, hsink]

theorem createFromMigration_of_register_error (w : MigrationCalls) (project : String)
    (req : InstancesPost) (plan : MigrationPlan) (refresh : Bool)
    (inst0 inst : Option Instance) (sink : Sink) (err : Err)
    (hplan : migrationPlan w project req = .ok plan)
    (he : earlyRefresh w project plan.req = .ok (refresh, inst0))
    (hinst : (refresh = true ∧ inst = inst0) ∨
      (refresh = false ∧ ∃ i, createRecord w plan.req plan.args plan.storagePool = .ok i ∧
        inst = some i))
    (hsink : newSink w plan.req refresh inst = .ok sink)
    (hcreate : w.OperationCreate (migrationOperation plan.req sink) = some err) :
    (createFromMigration w project req).1 = .InternalError err := by
  rw [createFromMigration_of_body w project req plan refresh inst0 hplan he]
  unfold migrationBody
  rcases hinst with ⟨hr, hi⟩ | ⟨hr, i, hrec, hi⟩
  · subst hr
    subst hi
    simp [hsink, hcreate]
  · subst hr
    subst hi
    simp [hrec, hsink, hcreate]

theorem migration_validation_errors (m : MigrationCalls) (project : String)
    (q : InstancesPost) (hmode : q.Source.Mode = "pull" ∨ q.Source.Mode = "push") :
    (∀ err, m.ArchitectureId q.Architecture = .error err →
      createFromMigration m project q = (.BadRequest err, [])) ∧
    (∀ architecture, m.ArchitectureId q.Architecture = .ok architecture →
      (∀ err, m.instancetypeNew q.InstanceKind = .error err →
        createFromMigration m project q = (.BadRequest err, [])) ∧
      (m.instancetypeNew q.InstanceKind = .ok .Container →
        (∀ err, m.Profiles project = .error err →
          createFromMigration m project q = (.InternalError err, [])) ∧
        (∀ profiles resp, m.Profiles project = .ok profiles →
          (∀ n ∈ (prefillProfiles q).Profiles.getD [], StringInSlice n profiles = true) →
          (containerFindStoragePool m.pools project (prefillProfiles q)).1.resp = some resp →
          createFromMigration m project q = (resp, [])))) := by
  have hm : ¬ (q.Source.Mode ≠ "pull" ∧ q.Source.Mode ≠ "push") := by
    rintro ⟨h1, h2⟩
    rcases hmode with h | h
    · exact h1 h
    · exact h2 h
  refine ⟨?_, ?_⟩
  · intro err harch
    apply createFromMigration_of_plan_error
    unfold migrationPlan
    rw [if_neg hm, harch]
  · intro architecture harch
    refine ⟨?_, ?_⟩
    · intro err htype
      apply createFromMigration_of_plan_error
      unfold migrationPlan
      rw [if_neg hm, harch]
      dsimp only
      rw [htype]
    · intro htype
      refine ⟨?_, ?_⟩
      · intro err hprofiles
        apply createFromMigration_of_plan_error
        unfold migrationPlan
        rw [if_neg hm, harch]
        dsimp only
        rw [htype]
        dsimp only
        rw [if_neg (by simp), hprofiles]
      · intro profiles resp hprofiles hall hresp
        apply createFromMigration_of_plan_error
        have hfind : ((prefillProfiles q).Profiles.getD []).find?
            (fun profile => !StringInSlice profile profiles) = none := by
          rw [List.find?_eq_none]
          intro n hn
          simp [hall n hn]
        unfold migrationPlan
        rw [if_neg hm, harch]
        dsimp only
        rw [htype]
        dsimp only
        rw [if_neg (by simp), hprofiles]
        dsimp only
        rw [hfind]
        dsimp only
        rcases hc : containerFindStoragePool m.pools project (prefillProfiles q) with
          ⟨found, devices⟩
        rw [hc] at hresp
        dsimp only at hresp ⊢
        rw [hresp]

theorem migration_record_errors (m : MigrationCalls) (project : String) (q : InstancesPost)
    (plan : MigrationPlan) (hplan : migrationPlan m project q = .ok plan) :
    (∀ err, plan.req.Source.Refresh = true →
      m.LoadByProjectAndName project plan.req.Name = .error err →
      earlyRefresh m project plan.req = .ok (false, none)) ∧
    (plan.req.Source.Refresh = false ∨
        (∃ e, m.LoadByProjectAndName project plan.req.Name = .error e) →
      (∀ err, m.GetPoolByName plan.storagePool = some err → err ≠ .ErrUnknownDriver →
        createFromMigration m project q = (.InternalError err, [])) ∧
      (∀ err, m.GetPoolByName plan.storagePool = none →
        m.instanceCreateInternal plan.args = .error err →
        createFromMigration m project q = (.InternalError err, [])) ∧
      (m.GetPoolByName plan.storagePool = some .ErrUnknownDriver →
        (∀ e, m.ImageGet plan.args.Project plan.req.Source.BaseImage = some e →
          (∀ err, m.instanceCreateAsEmpty plan.args = .error err →
            createFromMigration m project q = (.InternalError err, [])) ∧
          (∀ inst, m.instanceCreateAsEmpty plan.args = .ok inst →
            createRecord m plan.req plan.args plan.storagePool = .ok inst)) ∧
        (m.ImageGet plan.args.Project plan.req.Source.BaseImage = none →
          (∀ err, m.instanceLoad plan.args = .error err →
            createFromMigration m project q = (.InternalError err, [])) ∧
          (∀ devices, m.instanceLoad plan.args = .ok devices →
            (∀ k d err, m.pools.GetRootDiskDevice devices = (k, d, some err) →
              createFromMigration m project q = (.InternalError err, [])) ∧
            (∀ k d, m.pools.GetRootDiskDevice devices = (k, d, none) → prop d "pool" ≠ "" →
              (∀ err, m.storagePoolInit (prop d "pool") = .error err →
                createFromMigration m project q = (.InternalError err, [])) ∧
              (∀ migrationType err, m.storagePoolInit (prop d "pool") = .ok migrationType →
                (migrationType = .RSYNC →
                  m.instanceCreateFromImage plan.args plan.req.Source.BaseImage = .error err →
                  createFromMigration m project q = (.InternalError err, [])) ∧
                (migrationType ≠ .RSYNC → m.instanceCreateAsEmpty plan.args = .error err →
                  createFromMigration m project q = (.InternalError err, [])))))))) := by
  refine ⟨?_, ?_⟩
  · intro err hr hload
    exact earlyRefresh_off m project plan.req (Or.inr ⟨err, hload⟩)
  · intro hoff
    have he := earlyRefresh_off m project plan.req hoff
    have hrec : ∀ r, createRecord m plan.req plan.args plan.storagePool = .error r →
        createFromMigration m project q = (r, []) :=
      fun r h => createFromMigration_of_record_error m project q plan r hplan he h
    refine ⟨?_, ?_, ?_⟩
    · intro err hpool hne
      apply hrec
      unfold createRecord
      rw [hpool]
      cases err with
      | ErrUnknownDriver => exact absurd rfl hne
      | ErrNoSuchObject => rfl
      | msg t => rfl
      | other c => rfl
    · intro err hpool hcreate
      apply hrec
      unfold createRecord
      rw [hpool]
      dsimp only
      rw [hcreate]
    · intro hpool
      refine ⟨?_, ?_⟩
      · intro e himage
        refine ⟨?_, ?_⟩
        · intro err hcreate
          apply hrec
          unfold createRecord
          rw [hpool]
          dsimp only
          rw [himage]
          dsimp only
          rw [hcreate]
        · intro inst hcreate
          unfold createRecord
          rw [hpool]
          dsimp only
          rw [himage]
          dsimp only
          rw [hcreate]
      · intro himage
        refine ⟨?_, ?_⟩
        · intro err hload
          apply hrec
          unfold createRecord
          rw [hpool]
          dsimp only
          rw [himage]
          dsimp only
          rw [hload]
        · intro devices hload
          refine ⟨?_, ?_⟩
          · intro k d err hroot
            apply hrec
            unfold createRecord
            rw [hpool]
            dsimp only
            rw [himage]
            dsimp only
            rw [hload]
            dsimp only
            rw [hroot]
          · intro k d hroot hp
            refine ⟨?_, ?_⟩
            · intro err hinit
              apply hrec
              unfold createRecord
              rw [hpool]
              dsimp only
              rw [himage]
              dsimp only
              rw [hload]
              dsimp only
              rw [hroot]
              dsimp only
              rw [if_neg hp, hinit]
            · intro migrationType err hinit
              refine ⟨?_, ?_⟩
              · intro ht hcreate
                apply hrec
                unfold createRecord
                rw [hpool]
                dsimp only
                rw [himage]
                dsimp only
                rw [hload]
                dsimp only
                rw [hroot]
                dsimp only
                rw [if_neg hp, hinit]
                dsimp only
                rw [if_pos ht, hcreate]
              · intro ht hcreate
                apply hrec
                unfold createRecord
                rw [hpool]
                dsimp only
                rw [himage]
                dsimp only
                rw [hload]
                dsimp only
                rw [hroot]
                dsimp only
                rw [if_neg hp, hinit]
                dsimp only
                rw [if_neg ht, hcreate]

theorem earlyRefresh_on (w : MigrationCalls) (project : String) (req : InstancesPost)
    (i : Instance) (hr : req.Source.Refresh = true)
    (hload : w.LoadByProjectAndName project req.Name = .ok i) (hrun : i.IsRunning = false) :
    earlyRefresh w project req = .ok (true, some i) := by
  unfold earlyRefresh
  rw [if_pos hr, hload]
  dsimp only
  rw [if_neg (by rw [hrun]; decide)]

theorem migration_sink_errors (m : MigrationCalls) (project : String) (q : InstancesPost)
    (plan : MigrationPlan) (refresh : Bool) (inst : Option Instance)
    (hplan : migrationPlan m project q = .ok plan)
    (hinst :
      (refresh = true ∧ plan.req.Source.Refresh = true ∧
        ∃ i, m.LoadByProjectAndName project plan.req.Name = .ok i ∧ i.IsRunning = false ∧
          inst = some i) ∨
      (refresh = false ∧
        (plan.req.Source.Refresh = false ∨
          ∃ e, m.LoadByProjectAndName project plan.req.Name = .error e) ∧
        ∃ i, createRecord m plan.req plan.args plan.storagePool = .ok i ∧ inst = some i)) :
    (∀ certBlock err, plan.req.Source.Certificate ≠ "" →
      m.pemDecode plan.req.Source.Certificate = some certBlock →
      m.ParseCertificate certBlock = .error err →
      (createFromMigration m project q).1 = .InternalError err) ∧
    (∀ cert,
      (plan.req.Source.Certificate = "" ∧ cert = none) ∨
        (plan.req.Source.Certificate ≠ "" ∧
          ∃ certBlock c, m.pemDecode plan.req.Source.Certificate = some certBlock ∧
            m.ParseCertificate certBlock = .ok c ∧ cert = some c) →
      (∀ err, m.GetTLSConfig cert = .error err →
        (createFromMigration m project q).1 = .InternalError err) ∧
      (∀ config, m.GetTLSConfig cert = .ok config →
        (∀ err,
          m.NewMigrationSink
            { Url := plan.req.Source.Operation
              Instance := inst
              Secrets := plan.req.Source.Websockets
              Push := decide (plan.req.Source.Mode = "push")
              Live := plan.req.Source.Live
              InstanceOnly := plan.req.Source.InstanceOnly || plan.req.Source.ContainerOnly
              Refresh := refresh } = .error err →
          (createFromMigration m project q).1 = .InternalError err) ∧
        (∀ sink err,
          m.NewMigrationSink
            { Url := plan.req.Source.Operation
              Instance := inst
              Secrets := plan.req.Source.Websockets
              Push := decide (plan.req.Source.Mode = "push")
              Live := plan.req.Source.Live
              InstanceOnly := plan.req.Source.InstanceOnly || plan.req.Source.ContainerOnly
              Refresh := refresh } = .ok sink →
          m.OperationCreate (migrationOperation plan.req sink) = some err →
          (createFromMigration m project q).1 = .InternalError err))) := by
  have hpath : ∃ inst0, earlyRefresh m project plan.req = .ok (refresh, inst0) ∧
      ((refresh = true ∧ inst = inst0) ∨
        (refresh = false ∧ ∃ i, createRecord m plan.req plan.args plan.storagePool = .ok i ∧
          inst = some i)) := by
    rcases hinst with ⟨hr, hreq, i, hload, hrun, hi⟩ | ⟨hr, hoff, hi⟩
    · subst hr
      exact ⟨some i, earlyRefresh_on m project plan.req i hreq hload hrun, Or.inl ⟨rfl, hi⟩⟩
    · subst hr
      exact ⟨none, earlyRefresh_off m project plan.req hoff, Or.inr ⟨rfl, hi⟩⟩
  obtain ⟨inst0, he, hinst1⟩ := hpath
  refine ⟨?_, ?_⟩
  · intro certBlock err hcert hpem hparse
    apply createFromMigration_of_sink_error m project q plan refresh inst0 inst _ hplan he hinst1
    unfold newSink sourceCertificate
    rw [if_pos hcert, hpem]
    dsimp only
    rw [hparse]
  · intro cert hcases
    have hcert : sourceCertificate m plan.req = .ok cert := by
      unfold sourceCertificate
      rcases hcases with ⟨hempty, hc⟩ | ⟨hne, certBlock, c, hpem, hparse, hc⟩
      · rw [if_neg (not_not.mpr hempty), hc]
      · rw [if_pos hne, hpem]
        dsimp only
        rw [hparse, hc]
    refine ⟨?_, ?_⟩
    · intro err htls
      apply createFromMigration_of_sink_error m project q plan refresh inst0 inst _ hplan he
        hinst1
      unfold newSink
      rw [hcert]
      dsimp only
      rw [htls]
    · intro config htls
      refine ⟨?_, ?_⟩
      · intro err hsink
        apply createFromMigration_of_sink_error m project q plan refresh inst0 inst _ hplan he
          hinst1
        unfold newSink
        rw [hcert]
        dsimp only
        rw [htls]
        dsimp only
        rw [hsink]
      · intro sink err hsink hcreate
        apply createFromMigration_of_register_error m project q plan refresh inst0 inst sink err
          hplan he hinst1 _ hcreate
        unfold newSink
        rw [hcert]
        dsimp only
        rw [htls]
        dsimp only
        rw [hsink]

theorem copyRoute_copy_req (w : CopyCalls) (project : String) (req req1 : InstancesPost)
    (source : SourceInstance) (h : copyRoute w project req source = .copy req1) :
    req1 = { req with Devices := req1.Devices } := by
  unfold copyRoute at h
  dsimp only at h
  repeat' split at h
  all_goals (cases h <;> rfl)

theorem createFromCopy_of_source (w : CopyCalls) (project : String) (req : InstancesPost)
    (source : SourceInstance) (hsrc : req.Source.Source ≠ "")
    (hload : w.LoadByProjectAndName
      (if req.Source.Project = "" then project else req.Source.Project)
      req.Source.Source = .ok source) :
    createFromCopy w project req =
      (match copyRoute w project req source with
        | .reject resp => (resp, [])
        | .migrate req1 => clusterCopyContainerInternal w source project req1
        | .copy req1 => copyLocal w project req1 source) := by
  unfold createFromCopy
  rw [if_neg hsrc]
  dsimp only
  rw [hload]

theorem copy_errors (c : CopyCalls) (project : String) (q : InstancesPost)
    (hsrc : q.Source.Source ≠ "") :
    (∀ err,
      c.LoadByProjectAndName (if q.Source.Project = "" then project else q.Source.Project)
        q.Source.Source = .error err →
      createFromCopy c project q = (.SmartError err, [])) ∧
    (∀ source,
      c.LoadByProjectAndName (if q.Source.Project = "" then project else q.Source.Project)
        q.Source.Source = .ok source →
      (∀ err, c.Enabled = .error err → createFromCopy c project q = (.SmartError err, [])) ∧
      (c.Enabled = .ok true →
        (∀ err, c.NodeName = .error err →
          createFromCopy c project q = (.SmartError err, [])) ∧
        (∀ serverName, c.NodeName = .ok serverName → serverName ≠ source.Location →
          (∀ resp,
            (containerFindStoragePool c.migration.pools project q).1.resp = some resp →
            createFromCopy c project q = (resp, [])) ∧
          (∀ err, (containerFindStoragePool c.migration.pools project q).1.resp = none →
            prop (c.migration.pools.GetRootDiskDevice source.ExpandedDevices).2.1 "pool" =
              (containerFindStoragePool c.migration.pools project q).1.storagePool →
            c.StoragePoolGet
              (prop (c.migration.pools.GetRootDiskDevice source.ExpandedDevices).2.1 "pool") =
                .error err →
            createFromCopy c project q = (.SmartError err, [])))) ∧
      (∀ req1, copyRoute c project q source = .copy req1 →
        ¬ (q.Stateful = true ∧ (c.InstanceGetParentAndSnapshotName source.Name).1 ≠ q.Name) →
        q.Source.Refresh = false ∨
          (∃ e, c.LoadByProjectAndName project q.Name = .error e) ∨
          (∃ t, c.LoadByProjectAndName project q.Name = .ok t ∧ t.IsRunning = false) →
        (∀ err, c.migration.instancetypeNew q.InstanceKind = .error err →
          createFromCopy c project q = (.BadRequest err, [])) ∧
        (∀ dbType, c.migration.instancetypeNew q.InstanceKind = .ok dbType →
          dbType = .Any ∨ dbType = source.InstType →
          (∀ err,
            c.migration.OperationCreate
              { opClass := .Task
                resources := [("instances", [q.Name, q.Source.Source]),
                  ("containers", [q.Name, q.Source.Source])]
                metadata := none
                connect := false } = some err →
            createFromCopy c project q = (.InternalError err, [])) ∧
          (c.migration.OperationCreate
              { opClass := .Task
                resources := [("instances", [q.Name, q.Source.Source]),
                  ("containers", [q.Name, q.Source.Source])]
                metadata := none
                connect := false } = none →
            (createFromCopy c project q).1.isError = false)))) := by
  refine ⟨?_, ?_⟩
  · intro err hload
    unfold createFromCopy
    rw [if_neg hsrc]
    dsimp only
    rw [hload]
  · intro source hload
    have hcopy := createFromCopy_of_source c project q source hsrc hload
    refine ⟨?_, ?_, ?_⟩
    · intro err henabled
      rw [hcopy]
      unfold copyRoute
      rw [henabled]
    · intro henabled
      refine ⟨?_, ?_⟩
      · intro err hnode
        rw [hcopy]
        unfold copyRoute
        rw [henabled]
        dsimp only
        rw [if_pos rfl, hnode]
      · intro serverName hnode hserver
        refine ⟨?_, ?_⟩
        · intro resp hresp
          rw [hcopy]
          unfold copyRoute
          rw [henabled]
          dsimp only
          rw [if_pos rfl, hnode]
          dsimp only
          rw [if_pos hserver]
          rcases hc : containerFindStoragePool c.migration.pools project q with
            ⟨found, devices⟩
          rw [hc] at hresp
          dsimp only at hresp ⊢
          rw [hresp]
        · intro err hresp hsame hget
          rw [hcopy]
          unfold copyRoute
          rw [henabled]
          dsimp only
          rw [if_pos rfl, hnode]
          dsimp only
          rw [if_pos hserver]
          rcases hc : containerFindStoragePool c.migration.pools project q with
            ⟨found, devices⟩
          rw [hc] at hresp hsame
          dsimp only at hresp hsame ⊢
          rw [hresp]
          dsimp only
          rw [if_neg (not_not.mpr hsame), hget]
          rfl
    · intro req1 hroute hstateful hquiet
      have hreq := copyRoute_copy_req c project q req1 source hroute
      have hS : req1.Stateful = q.Stateful := by
        have h := congrArg InstancesPost.Stateful hreq
        exact h
      have hN : req1.Name = q.Name := by
        have h := congrArg InstancesPost.Name hreq
        exact h
      have hSrc : req1.Source = q.Source := by
        have h := congrArg InstancesPost.Source hreq
        exact h
      have hK : req1.InstanceKind = q.InstanceKind := by
        have h := congrArg InstancesPost.InstanceKind hreq
        exact h
      have hrun : (if q.Source.Refresh = true then
          match c.LoadByProjectAndName project q.Name with
          | .error _ => false
          | .ok t => t.IsRunning
          else false) = false := by
        rcases hquiet with h | ⟨e, h⟩ | ⟨t, h, ht⟩
        · rw [if_neg (by rw [h]; decide)]
        · rw [h]
          split <;> rfl
        · rw [h]
          split
          · exact ht
          · rfl
      have hlocal : createFromCopy c project q =
          (match c.migration.instancetypeNew q.InstanceKind with
            | .error err => (.BadRequest err, [])
            | .ok dbType =>
              if dbType ≠ .Any ∧ dbType ≠ source.InstType then
                (.BadRequest (.msg
                  "Instance type should not be specified or should match source type"), [])
              else
                match c.migration.OperationCreate
                  { opClass := .Task
                    resources := [("instances", [q.Name, q.Source.Source]),
                      ("containers", [q.Name, q.Source.Source])]
                    metadata := none
                    connect := false } with
                | some err => (.InternalError err, [])
                | none => (.OperationResponse
                    { opClass := .Task
                      resources := [("instances", [q.Name, q.Source.Source]),
                        ("containers", [q.Name, q.Source.Source])]
                      metadata := none
                      connect := false },
                    [Event.createOperation
                      { opClass := .Task
                        resources := [("instances", [q.Name, q.Source.Source]),
                          ("containers", [q.Name, q.Source.Source])]
                        metadata := none
                        connect := false }])) := by
        rw [hcopy, hroute]
        dsimp only
        unfold copyLocal
        rw [hS, hN, hSrc, hK, if_neg hstateful]
        dsimp only
        rw [hrun, if_neg (by decide)]
      refine ⟨?_, ?_⟩
      · intro err htype
        rw [hlocal, htype]
      · intro dbType htype hmatch
        have hok : ¬ (dbType ≠ .Any ∧ dbType ≠ source.InstType) := by
          rintro ⟨h1, h2⟩
          rcases hmatch with h | h
          · exact h1 h
          · exact h2 h
        refine ⟨?_, ?_⟩
        · intro err hcreate
          rw [hlocal, htype]
          dsimp only
          rw [if_neg hok, hcreate]
        · intro hcreate
          rw [hlocal, htype]
          dsimp only
          rw [if_neg hok, hcreate]
          rfl

theorem clusterCopy_errors (c : CopyCalls) (source : SourceInstance) (project : String)
    (q : InstancesPost) :
    (∀ err, c.ContainerNodeAddress project q.Source.Source source.InstType = .error err →
      clusterCopyContainerInternal c source project q = (.SmartError err, [])) ∧
    (∀ nodeAddress,
      c.ContainerNodeAddress project q.Source.Source source.InstType = .ok nodeAddress →
      nodeAddress ≠ "" →
      (∀ err, c.Connect nodeAddress = some err →
        clusterCopyContainerInternal c source project q = (.SmartError err, [])) ∧
      (c.Connect nodeAddress = none →
        (∀ err, c.IsSnapshot q.Source.Source = true →
          c.MigrateInstanceSnapshot (c.InstanceGetParentAndSnapshotName q.Source.Source).1
            (c.InstanceGetParentAndSnapshotName q.Source.Source).2 q.Source.Live q.Name =
              .error err →
          clusterCopyContainerInternal c source project q = (.SmartError err, [])) ∧
        (∀ err, c.IsSnapshot q.Source.Source = false →
          c.MigrateInstance q.Source.Source q.Source.Live
            (q.Source.InstanceOnly || q.Source.ContainerOnly) q.Name = .error err →
          clusterCopyContainerInternal c source project q = (.SmartError err, [])))) := by
  refine ⟨?_, ?_⟩
  · intro err haddr
    unfold clusterCopyContainerInternal
    rw [haddr]
    rfl
  · intro nodeAddress haddr hne
    refine ⟨?_, ?_⟩
    · intro err hconnect
      unfold clusterCopyContainerInternal
      rw [haddr]
      dsimp only
      rw [if_neg hne, hconnect]
    · intro hconnect
      refine ⟨?_, ?_⟩
      · intro err hsnap hmigrate
        unfold clusterCopyContainerInternal
        rw [haddr]
        dsimp only
        rw [if_neg hne, hconnect]
        dsimp only
        rw [if_pos hsnap, hmigrate]
      · intro err hsnap hmigrate
        unfold clusterCopyContainerInternal
        rw [haddr]
        dsimp only
        rw [if_neg hne, hconnect]
        dsimp only
        rw [if_neg (by rw [hsnap]; decide), hmigrate]

theorem containerFindStoragePool_strip (p : PoolLookups) (project : String)
    (q : InstancesPost) :
    containerFindStoragePool
        { p with GetRootDiskDevice := fun devices =>
          ((p.GetRootDiskDevice devices).1, (p.GetRootDiskDevice devices).2.1, none) }
        project q =
      containerFindStoragePool p project q :=
  (resolver_errors p project q).2.2

theorem copyRoute_strip (c : CopyCalls) (project : String) (q : InstancesPost)
    (source : SourceInstance) :
    copyRoute
        { c with migration := { c.migration with pools :=
          { c.migration.pools with GetRootDiskDevice := fun devices =>
            ((c.migration.pools.GetRootDiskDevice devices).1,
              (c.migration.pools.GetRootDiskDevice devices).2.1, none) } } }
        project q source =
      copyRoute c project q source := by
  unfold copyRoute
  dsimp only
  rw [containerFindStoragePool_strip]

theorem image_errors (i : ImageCalls) (project : String) (q : InstancesPost) :
    (∀ err, i.ResolveImage project q.Source = .error err →
      createFromImage i project q = (.BadRequest err, [])) ∧
    (∀ hash, i.ResolveImage project q.Source = .ok hash →
      (∀ err, i.instancetypeNew q.InstanceKind = .error err →
        createFromImage i project q = (.BadRequest err, [])) ∧
      (∀ dbType err, i.instancetypeNew q.InstanceKind = .ok dbType →
        i.OperationCreate (createOperation q) = some err →
        createFromImage i project q = (.InternalError err, []))) ∧
    (∀ err, i.instancetypeNew q.InstanceKind = .error err →
      createFromNone i project q = (.BadRequest err, [])) ∧
    (∀ dbType, i.instancetypeNew q.InstanceKind = .ok dbType →
      (∀ err, q.Architecture ≠ "" → i.ArchitectureId q.Architecture = .error err →
        createFromNone i project q = (.InternalError err, [])) ∧
      (∀ err, q.Architecture = "" ∨ (∃ a, i.ArchitectureId q.Architecture = .ok a) →
        i.OperationCreate (createOperation q) = some err →
        createFromNone i project q = (.InternalError err, []))) := by
  refine ⟨?_, ?_, ?_, ?_⟩
  · intro err h
    unfold createFromImage
    rw [h]
  · intro hash h
    refine ⟨?_, ?_⟩
    · intro err ht
      unfold createFromImage
      rw [h]
      dsimp only
      rw [ht]
    · intro dbType err ht hc
      unfold createFromImage
      rw [h]
      dsimp only
      rw [ht]
      dsimp only
      rw [hc]
  · intro err ht
    unfold createFromNone
    rw [ht]
  · intro dbType ht
    refine ⟨?_, ?_⟩
    · intro err ha harch
      unfold createFromNone
      rw [ht]
      dsimp only
      rw [if_pos ha, harch]
    · intro err ha hc
      unfold createFromNone
      rw [ht]
      dsimp only
      rcases ha with ha | ⟨a, ha⟩
      · rw [if_neg (not_not.mpr ha)]
        dsimp only
        rw [hc]
      · by_cases hne : q.Architecture ≠ ""
        · rw [if_pos hne, ha]
          dsimp only
          rw [hc]
        · rw [if_neg hne]
          dsimp only
          rw [hc]

theorem backupPlan_of_info (b : BackupCalls) (project pool algo : String)
    (info : BackupInfo) (h1 : b.TempFile "lxd_backup_" = none) (h2 : b.Copy = none)
    (h3 : b.DetectCompressionFile = .ok algo)
    (h4 : algo ≠ ".squashfs" ∨
      (b.TempFile "lxd_decompress_" = none ∧ b.RunCommandWithFds = none))
    (hinfo : b.GetInfo = .ok info) :
    backupPlan b project pool = backupPool b info project pool := by
  have hup : backupUpload b = none := by
    unfold backupUpload
    rw [h1]
    dsimp only
    rw [h2]
    dsimp only
    rw [h3]
    dsimp only
    by_cases ha : algo = ".squashfs"
    · rcases h4 with h | ⟨h5, h6⟩
      · exact absurd ha h
      · rw [if_pos ha, h5]
        dsimp only
        rw [h6]
    · rw [if_neg ha]
  unfold backupPlan
  rw [hup]
  dsimp only
  rw [hinfo]

theorem backup_errors (b : BackupCalls) (project pool : String) :
    (∀ err, b.TempFile "lxd_backup_" = some err →
      createFromBackup b project pool = (.InternalError err, [])) ∧
    (b.TempFile "lxd_backup_" = none →
      (∀ err, b.Copy = some err →
        createFromBackup b project pool = (.InternalError err, [])) ∧
      (b.Copy = none →
        (∀ err, b.DetectCompressionFile = .error err →
          createFromBackup b project pool = (.InternalError err, [])) ∧
        (∀ algo, b.DetectCompressionFile = .ok algo →
          (algo = ".squashfs" →
            (∀ err, b.TempFile "lxd_decompress_" = some err →
              createFromBackup b project pool = (.InternalError err, [])) ∧
            (∀ err, b.TempFile "lxd_decompress_" = none → b.RunCommandWithFds = some err →
              createFromBackup b project pool = (.InternalError err, []))) ∧
          (algo ≠ ".squashfs" ∨
              (b.TempFile "lxd_decompress_" = none ∧ b.RunCommandWithFds = none) →
            (∀ err, b.GetInfo = .error err →
              createFromBackup b project pool = (.BadRequest err, [])) ∧
            (∀ info, b.GetInfo = .ok info →
              (∀ err, b.StoragePoolGet (if pool ≠ "" then pool else info.Pool) = some err →
                err ≠ .ErrNoSuchObject ∨ info.HasBinaryFormat = true ∨ pool ≠ "" →
                createFromBackup b project pool = (.InternalError err, [])) ∧
              (b.StoragePoolGet (if pool ≠ "" then pool else info.Pool) = none →
                ∀ err, b.OperationCreate (backupOperation info) = some err →
                  createFromBackup b project pool = (.InternalError err, [])) ∧
              (b.StoragePoolGet (if pool ≠ "" then pool else info.Pool) =
                  some .ErrNoSuchObject →
                info.HasBinaryFormat = false → pool = "" →
                (∀ err, b.ProfileGet project "default" = .error err →
                  createFromBackup b project pool = (.InternalError err, [])) ∧
                (∀ profile, b.ProfileGet project "default" = .ok profile →
                  (∀ k v err, b.GetRootDiskDevice profile.Devices = (k, v, some err) →
                    createFromBackup b project pool = (.InternalError err, [])) ∧
                  (∀ k v, b.GetRootDiskDevice profile.Devices = (k, v, none) →
                    (∀ err, b.OperationCreate (backupOperation info) = some err →
                      createFromBackup b project pool = (.InternalError err, [])) ∧
                    (b.OperationCreate (backupOperation info) = none →
                      createFromBackup b project pool =
                        (.OperationResponse (backupOperation info),
                          [Event.createOperation (backupOperation info)])))))))))) := by
  refine ⟨?_, ?_⟩
  · intro err h
    simp [createFromBackup, backupPlan, backupUpload, h]
  · intro h1
    refine ⟨?_, ?_⟩
    · intro err h
      simp [createFromBackup, backupPlan, backupUpload, h1, h]
    · intro h2
      refine ⟨?_, ?_⟩
      · intro err h
        simp [createFromBackup, backupPlan, backupUpload, h1, h2, h]
      · intro algo h3
        refine ⟨?_, ?_⟩
        · intro ha
          subst ha
          refine ⟨?_, ?_⟩
          · intro err h
            simp [createFromBackup, backupPlan, backupUpload, h1, h2, h3, h]
          · intro err h4 h
            simp [createFromBackup, backupPlan, backupUpload, h1, h2, h3, h4, h]
        · intro h4
          refine ⟨?_, ?_⟩
          · intro err h
            have hup : backupUpload b = none := by
              unfold backupUpload
              rw [h1]
              dsimp only
              rw [h2]
              dsimp only
              rw [h3]
              dsimp only
              by_cases ha : algo = ".squashfs"
              · rcases h4 with h | ⟨h5, h6⟩
                · exact absurd ha h
                · rw [if_pos ha, h5]
                  dsimp only
                  rw [h6]
              · rw [if_neg ha]
            simp [createFromBackup, backupPlan, hup, h]
          · intro info hinfo
            have hplan := backupPlan_of_info b project pool algo info h1 h2 h3 h4 hinfo
            refine ⟨?_, ?_, ?_⟩
            · intro err hget hcase
              have hpool : backupPool b info project pool = .error (.InternalError err) := by
                unfold backupPool
                by_cases hp : pool ≠ ""
                · rw [if_pos hp] at hget
                  simp only [if_pos hp]
                  rw [hget]
                  cases err with
                  | ErrNoSuchObject =>
                    dsimp only
                    rw [if_pos (Or.inr hp)]
                    rfl
                  | ErrUnknownDriver => rfl
                  | msg t => rfl
                  | other n => rfl
                · rw [if_neg hp] at hget
                  simp only [if_neg hp]
                  rw [hget]
                  cases err with
                  | ErrNoSuchObject =>
                    dsimp only
                    rcases hcase with h | h | h
                    · exact absurd rfl h
                    · rw [if_pos (Or.inl h)]
                      rfl
                    · exact absurd h hp
                  | ErrUnknownDriver => rfl
                  | msg t => rfl
                  | other n => rfl
              unfold createFromBackup
              rw [hplan, hpool]
            · intro hget err hcreate
              have hpool : ∃ bInfo, backupPool b info project pool = .ok bInfo ∧
                  backupOperation bInfo = backupOperation info := by
                unfold backupPool
                by_cases hp : pool ≠ ""
                · rw [if_pos hp] at hget
                  simp only [if_pos hp]
                  rw [hget]
                  exact ⟨_, rfl, rfl⟩
                · rw [if_neg hp] at hget
                  simp only [if_neg hp]
                  rw [hget]
                  exact ⟨_, rfl, rfl⟩
              obtain ⟨bInfo, hb, hop⟩ := hpool
              unfold createFromBackup
              rw [hplan, hb]
              dsimp only
              rw [hop, hcreate]
            · intro hget hbin hpool
              have hp : ¬ pool ≠ "" := not_not.mpr hpool
              rw [if_neg hp] at hget
              have hfall : ¬ (info.HasBinaryFormat = true ∨ pool ≠ "") := by
                rintro (h | h)
                · rw [hbin] at h
                  cases h
                · exact hp h
              refine ⟨?_, ?_⟩
              · intro err hprofile
                have hbp : backupPool b info project pool = .error (.InternalError err) := by
                  unfold backupPool
                  simp only [if_neg hp]
                  rw [hget]
                  dsimp only
                  rw [if_neg hfall, hprofile]
                  rfl
                unfold createFromBackup
                rw [hplan, hbp]
              · intro profile hprofile
                refine ⟨?_, ?_⟩
                · intro k v err hroot
                  have hbp : backupPool b info project pool =
                      .error (.InternalError err) := by
                    unfold backupPool
                    simp only [if_neg hp]
                    rw [hget]
                    dsimp only
                    rw [if_neg hfall, hprofile]
                    dsimp only
                    rw [hroot]
                    rfl
                  unfold createFromBackup
                  rw [hplan, hbp]
                · intro k v hroot
                  have hbp : backupPool b info project pool =
                      .ok { info with Project := project, Pool := prop v "pool" } := by
                    unfold backupPool
                    simp only [if_neg hp]
                    rw [hget]
                    dsimp only
                    rw [if_neg hfall, hprofile]
                    dsimp only
                    rw [hroot]
                  refine ⟨?_, ?_⟩
                  · intro err hcreate
                    unfold createFromBackup
                    rw [hplan, hbp]
                    dsimp only
                    have hop : backupOperation
                        { info with Project := project, Pool := prop v "pool" } =
                        backupOperation info := rfl
                    rw [hop, hcreate]
                  · intro hcreate
                    unfold createFromBackup
                    rw [hplan, hbp]
                    dsimp only
                    have hop : backupOperation
                        { info with Project := project, Pool := prop v "pool" } =
                        backupOperation info := rfl
                    rw [hop, hcreate]

theorem imageRun_errors (iw : ImageRunCalls) (project : String) (q : InstancesPost)
    (hash : String) (dbType : InstanceType) :
    (q.Source.Server ≠ "" →
      (∀ err, iw.ConfigGetBool "images.auto_update_cached" = .error err →
        imageRun iw project q hash dbType = some err) ∧
      (∀ autoUpdate err, iw.ConfigGetBool "images.auto_update_cached" = .ok autoUpdate →
        iw.ImageDownload q.Source.Server q.Source.Protocol q.Source.Certificate q.Source.Secret
          hash (if q.InstanceKind = "virtual-machine" then "virtual-machine" else "container")
          autoUpdate = .error err →
        imageRun iw project q hash dbType = some err)) ∧
    (q.Source.Server = "" →
      ∀ err, iw.ImageGet project hash = .error err →
        imageRun iw project q hash dbType = some err) ∧
    (∀ info,
      (q.Source.Server ≠ "" ∧
          ∃ autoUpdate, iw.ConfigGetBool "images.auto_update_cached" = .ok autoUpdate ∧
            iw.ImageDownload q.Source.Server q.Source.Protocol q.Source.Certificate
              q.Source.Secret hash
              (if q.InstanceKind = "virtual-machine" then "virtual-machine" else "container")
              autoUpdate = .ok info) ∨
        (q.Source.Server = "" ∧ iw.ImageGet project hash = .ok info) →
      (∀ err, iw.ArchitectureId info.Architecture = .error err →
        imageRun iw project q hash dbType = some err) ∧
      (∀ architecture err, iw.ArchitectureId info.Architecture = .ok architecture →
        iw.instanceCreateFromImage
          { Project := project
            Architecture := architecture
            BaseImage := ""
            Config := q.Config
            InstType := dbType
            Devices := q.Devices.getD []
            Description := q.Description
            Ephemeral := q.Ephemeral
            Name := q.Name
            Profiles := q.Profiles.getD []
            Stateful := false }
          info.Fingerprint = some err →
        imageRun iw project q hash dbType = some err)) := by
  refine ⟨?_, ?_, ?_⟩
  · intro hs
    refine ⟨?_, ?_⟩
    · intro err h
      unfold imageRun
      dsimp only
      rw [if_pos hs, h]
    · intro autoUpdate err h hd
      unfold imageRun
      dsimp only
      rw [if_pos hs, h]
      dsimp only
      rw [hd]
  · intro hs err h
    unfold imageRun
    dsimp only
    rw [if_neg (not_not.mpr hs), h]
  · intro info hinfo
    have hi : (if q.Source.Server ≠ "" then
        match iw.ConfigGetBool "images.auto_update_cached" with
        | .error err => .error err
        | .ok autoUpdate =>
          iw.ImageDownload q.Source.Server q.Source.Protocol q.Source.Certificate
            q.Source.Secret hash
            (if q.InstanceKind = "virtual-machine" then "virtual-machine" else "container")
            autoUpdate
        else iw.ImageGet project hash) = .ok info := by
      rcases hinfo with ⟨hs, autoUpdate, h, hd⟩ | ⟨hs, h⟩
      · rw [if_pos hs, h]
        exact hd
      · rw [if_neg (not_not.mpr hs), h]
    refine ⟨?_, ?_⟩
    · intro err ha
      unfold imageRun
      dsimp only
      rw [hi]
      dsimp only
      rw [ha]
    · intro architecture err ha hc
      unfold imageRun
      dsimp only
      rw [hi]
      dsimp only
      rw [ha]
      dsimp only
      rw [hc]

theorem run_errors (instanceCreateAsEmpty : InstanceArgs → Except Err Instance)
    (instanceCreateAsCopy : InstanceArgs → SourceInstance → Bool → Bool → Except Err Instance)
    (bw : BackupRunCalls) (project : String) (q : InstancesPost) (args : InstanceArgs)
    (source : SourceInstance) (refresh : Bool) (inst : Option Instance)
    (deferTemplateApply : String → Option Err) (bInfo : BackupInfo) :
    (∀ err, instanceCreateAsEmpty args = .error err →
      noneRun instanceCreateAsEmpty args = some err) ∧
    (∀ err,
      instanceCreateAsCopy args source (q.Source.InstanceOnly || q.Source.ContainerOnly)
        refresh = .error err →
      copyRun instanceCreateAsCopy q args source refresh = some err) ∧
    (∀ err, (migrationRun refresh inst (some err) deferTemplateApply).1 =
      some (.msg ("Error transferring container data: " ++ err.Error))) ∧
    (∀ err, deferTemplateApply "copy" = some err →
      (migrationRun refresh inst none deferTemplateApply).1 = some err) ∧
    (∀ err, bw.instanceCreateFromBackup bInfo = .error err →
      (backupRun bw project bInfo).1 = some (errorsWrap err "Create instance from backup")) ∧
    (∀ hooks, bw.instanceCreateFromBackup bInfo = .ok hooks →
      (∀ err, bw.Marshal = some err →
        (backupRun bw project bInfo).1 =
          some (errorsWrap err "Marshal internal import request")) ∧
      (bw.Marshal = none → bw.internalImport bInfo.Name project = "success" →
        (∀ err, bw.LoadByProjectAndName project bInfo.Name = .error err →
          (backupRun bw project bInfo).1 = some (errorsWrap err "Load instance")) ∧
        (∀ c hook err, bw.LoadByProjectAndName project bInfo.Name = .ok c →
          hooks.postHook = some hook → hook c = some err →
          (backupRun bw project bInfo).1 = some (errorsWrap err "Post hook")))) := by
  refine ⟨?_, ?_, ?_, ?_, ?_, ?_⟩
  · intro err h
    unfold noneRun
    rw [h]
  · intro err h
    unfold copyRun
    dsimp only
    rw [h]
  · intro err
    rfl
  · intro err h
    unfold migrationRun
    dsimp only
    rw [h]
  · intro err h
    unfold backupRun
    rw [h]
  · intro hooks hh
    refine ⟨?_, ?_⟩
    · intro err h
      unfold backupRun
      rw [hh]
      dsimp only
      unfold backupAfterImport
      rw [h]
    · intro hm hi
      refine ⟨?_, ?_⟩
      · intro err h
        unfold backupRun
        rw [hh]
        dsimp only
        unfold backupAfterImport
        rw [hm]
        dsimp only
        rw [if_neg (not_not.mpr hi), h]
      · intro c hook err h hp he
        unfold backupRun
        rw [hh]
        dsimp only
        unfold backupAfterImport
        rw [hm]
        dsimp only
        rw [if_neg (not_not.mpr hi), h]
        dsimp only
        rw [hp]
        dsimp only
        rw [he]

/-! ## Which collaborator errors reach the caller -/

/-- C19 (amended): every error returned by a collaborator call of the dispatcher, of the pool
resolver or of a strategy is the error of the response, and every error returned by a call of
a work function is the error the work function returns (the failure of the operation), with
the exceptions listed below. In order: `containersPost`; `containerFindStoragePool`;
`createFromMigration` (validation, instance record, certificate and sink, registration);
`createFromCopy` and `clusterCopyContainerInternal`; `createFromImage` and `createFromNone`;
`createFromBackup`; and the work functions of the five strategies. Errors wrapped with
`errors.Wrap` keep their cause, and the error of `sink.Do` is reported inside the text of a
new error. Not surfaced are: an error from listing the storage pools in `containersPost`
(answered like an empty list); in the resolver the error of `GetRootDiskDevice` (the result
is the same without it), an error from the pool-existence lookup ("no such object" unsets the
pool, any other error is ignored and the pool used) and "no such object" from the pool
listing (answered with the resolver's own bad request); in `createFromMigration` an error
from loading the instance for the early refresh check (refresh is switched off), "unknown
driver" from `GetPoolByName` (the legacy path is taken) and an error from `ImageGet` (the
instance is created empty); in `createFromCopy` the error of `GetRootDiskDevice` for the
source (the route is the same without it) and an error from loading the target for the early
refresh check; and in `createFromBackup` "no such object" from `StoragePoolGet` for a
tarball backup without explicit pool (the pool of the default profile is used). -/
theorem collaborator_errors (w : DispatchCalls) (s : Strategies) (r : HttpRequest)
    (p : PoolLookups) (m : MigrationCalls) (c : CopyCalls) (i : ImageCalls) (b : BackupCalls)
    (iw : ImageRunCalls) (bw : BackupRunCalls)
    (instanceCreateAsEmpty : InstanceArgs → Except Err Instance)
    (instanceCreateAsCopy : InstanceArgs → SourceInstance → Bool → Bool → Except Err Instance)
    (deferTemplateApply : String → Option Err)
    (project pool hash : String) (q : InstancesPost) (plan : MigrationPlan)
    (source : SourceInstance) (args : InstanceArgs) (dbType : InstanceType) (refresh : Bool)
    (inst : Option Instance) (bInfo : BackupInfo) :
    (r.ContentType ≠ "application/octet-stream" →
      (∀ err, r.body = .error err → (containersPost w s r).resp = .BadRequest err) ∧
      (∀ req err, r.body = .ok req → r.target = "" → w.NodeWithLeastContainers = .error err →
        (containersPost w s r).resp = .SmartError err) ∧
      (∀ req targetNode, r.body = .ok req → targetMember w r targetNode →
        (targetNode ≠ "" →
          (∀ err, w.ResolveTarget targetNode = .error err →
            (containersPost w s r).resp = .SmartError err) ∧
          (∀ address, w.ResolveTarget targetNode = .ok address → address ≠ "" →
            (∀ err, w.Connect address = some err →
              (containersPost w s r).resp = .SmartError err) ∧
            (∀ err, w.Connect address = none → w.CreateInstance address req = .error err →
              (containersPost w s r).resp = .SmartError err))) ∧
        (targetNode = "" ∨ w.ResolveTarget targetNode = .ok "" →
          (∀ err, w.StoragePools = .error err →
            (containersPost w s r).resp =
              .BadRequest (.msg "No storage pool found. Please create a new storage pool")) ∧
          (∀ pools, w.StoragePools = .ok pools → pools ≠ [] →
            (∀ err, req.Name = "" → w.InstanceNames r.project = .error err →
              (containersPost w s r).resp = .SmartError err) ∧
            (∀ err, req.Name ≠ "" → req.InstanceType ≠ "" →
              w.instanceParseType req.InstanceType = .error err →
              (containersPost w s r).resp = .BadRequest err) ∧
            (∀ names name steps err, req.Name = "" → w.InstanceNames r.project = .ok names →
              generateName w.Generate names 101 0 = (.ok name, steps) →
              req.InstanceType ≠ "" → w.instanceParseType req.InstanceType = .error err →
              (containersPost w s r).resp = .BadRequest err))))) ∧
    ((noLocalPool p q →
      (∀ pre pName post err, q.Profiles.getD [] = pre ++ pName :: post →
        (∀ n ∈ pre, ∃ profile, p.ProfileGet project n = .ok profile) →
        p.ProfileGet project pName = .error err →
        (containerFindStoragePool p project q).1.resp = some (.SmartError err)) ∧
      ((∀ n ∈ q.Profiles.getD [], ∃ profile, p.ProfileGet project n = .ok profile) →
        (∀ n ∈ q.Profiles.getD [], ∀ profile, p.ProfileGet project n = .ok profile →
          ¬ definesRootPool p profile) →
        ∀ err, p.StoragePools = .error err →
          (err ≠ .ErrNoSuchObject →
            (containerFindStoragePool p project q).1.resp = some (.SmartError err)) ∧
          (err = .ErrNoSuchObject →
            (containerFindStoragePool p project q).1.resp = some (.BadRequest
              (.msg "This LXD instance does not have any storage pools configured"))))) ∧
    (∀ k dev e err, p.GetRootDiskDevice (q.Devices.getD []) = (k, dev, e) → k ≠ "" →
      prop dev "pool" ≠ "" → p.StoragePoolGetID (prop dev "pool") = .error err →
      (err ≠ .ErrNoSuchObject →
        containerFindStoragePool p project q =
          (⟨prop dev "pool", "", k, dev, none⟩, q.Devices)) ∧
      (err = .ErrNoSuchObject → (localRootPool p q).1 = "")) ∧
    containerFindStoragePool
        { p with GetRootDiskDevice := fun devices =>
          ((p.GetRootDiskDevice devices).1, (p.GetRootDiskDevice devices).2.1, none) }
        project q =
      containerFindStoragePool p project q) ∧
    (q.Source.Mode = "pull" ∨ q.Source.Mode = "push" →
      (∀ err, m.ArchitectureId q.Architecture = .error err →
        createFromMigration m project q = (.BadRequest err, [])) ∧
      (∀ architecture, m.ArchitectureId q.Architecture = .ok architecture →
        (∀ err, m.instancetypeNew q.InstanceKind = .error err →
          createFromMigration m project q = (.BadRequest err, [])) ∧
        (m.instancetypeNew q.InstanceKind = .ok .Container →
          (∀ err, m.Profiles project = .error err →
            createFromMigration m project q = (.InternalError err, [])) ∧
          (∀ profiles resp, m.Profiles project = .ok profiles →
            (∀ n ∈ (prefillProfiles q).Profiles.getD [], StringInSlice n profiles = true) →
            (containerFindStoragePool m.pools project (prefillProfiles q)).1.resp = some resp →
            createFromMigration m project q = (resp, []))))) ∧
    (migrationPlan m project q = .ok plan →
      ((∀ err, plan.req.Source.Refresh = true →
      m.LoadByProjectAndName project plan.req.Name = .error err →
      earlyRefresh m project plan.req = .ok (false, none)) ∧
    (plan.req.Source.Refresh = false ∨
        (∃ e, m.LoadByProjectAndName project plan.req.Name = .error e) →
      (∀ err, m.GetPoolByName plan.storagePool = some err → err ≠ .ErrUnknownDriver →
        createFromMigration m project q = (.InternalError err, [])) ∧
      (∀ err, m.GetPoolByName plan.storagePool = none →
        m.instanceCreateInternal plan.args = .error err →
        createFromMigration m project q = (.InternalError err, [])) ∧
      (m.GetPoolByName plan.storagePool = some .ErrUnknownDriver →
        (∀ e, m.ImageGet plan.args.Project plan.req.Source.BaseImage = some e →
          (∀ err, m.instanceCreateAsEmpty plan.args = .error err →
            createFromMigration m project q = (.InternalError err, [])) ∧
          (∀ inst, m.instanceCreateAsEmpty plan.args = .ok inst →
            createRecord m plan.req plan.args plan.storagePool = .ok inst)) ∧
        (m.ImageGet plan.args.Project plan.req.Source.BaseImage = none →
          (∀ err, m.instanceLoad plan.args = .error err →
            createFromMigration m project q = (.InternalError err, [])) ∧
          (∀ devices, m.instanceLoad plan.args = .ok devices →
            (∀ k d err, m.pools.GetRootDiskDevice devices = (k, d, some err) →
              createFromMigration m project q = (.InternalError err, [])) ∧
            (∀ k d, m.pools.GetRootDiskDevice devices = (k, d, none) → prop d "pool" ≠ "" →
              (∀ err, m.storagePoolInit (prop d "pool") = .error err →
                createFromMigration m project q = (.InternalError err, [])) ∧
              (∀ migrationType err, m.storagePoolInit (prop d "pool") = .ok migrationType →
                (migrationType = .RSYNC →
                  m.instanceCreateFromImage plan.args plan.req.Source.BaseImage = .error err →
                  createFromMigration m project q = (.InternalError err, [])) ∧
                (migrationType ≠ .RSYNC → m.instanceCreateAsEmpty plan.args = .error err →
                  createFromMigration m project q = (.InternalError err, []))))))))) ∧
      ((refresh = true ∧ plan.req.Source.Refresh = true ∧
            ∃ i, m.LoadByProjectAndName project plan.req.Name = .ok i ∧ i.IsRunning = false ∧
              inst = some i) ∨
          (refresh = false ∧
            (plan.req.Source.Refresh = false ∨
              ∃ e, m.LoadByProjectAndName project plan.req.Name = .error e) ∧
            ∃ i, createRecord m plan.req plan.args plan.storagePool = .ok i ∧ inst = some i) →
        (∀ certBlock err, plan.req.Source.Certificate ≠ "" →
          m.pemDecode plan.req.Source.Certificate = some certBlock →
          m.ParseCertificate certBlock = .error err →
          (createFromMigration m project q).1 = .InternalError err) ∧
        (∀ cert,
          (plan.req.Source.Certificate = "" ∧ cert = none) ∨
            (plan.req.Source.Certificate ≠ "" ∧
              ∃ certBlock c, m.pemDecode plan.req.Source.Certificate = some certBlock ∧
                m.ParseCertificate certBlock = .ok c ∧ cert = some c) →
          (∀ err, m.GetTLSConfig cert = .error err →
            (createFromMigration m project q).1 = .InternalError err) ∧
          (∀ config, m.GetTLSConfig cert = .ok config →
            (∀ err,
              m.NewMigrationSink
                { Url := plan.req.Source.Operation
                  Instance := inst
                  Secrets := plan.req.Source.Websockets
                  Push := decide (plan.req.Source.Mode = "push")
                  Live := plan.req.Source.Live
                  InstanceOnly := plan.req.Source.InstanceOnly || plan.req.Source.ContainerOnly
                  Refresh := refresh } = .error err →
              (createFromMigration m project q).1 = .InternalError err) ∧
            (∀ sink err,
              m.NewMigrationSink
                { Url := plan.req.Source.Operation
                  Instance := inst
                  Secrets := plan.req.Source.Websockets
                  Push := decide (plan.req.Source.Mode = "push")
                  Live := plan.req.Source.Live
                  InstanceOnly := plan.req.Source.InstanceOnly || plan.req.Source.ContainerOnly
                  Refresh := refresh } = .ok sink →
              m.OperationCreate (migrationOperation plan.req sink) = some err →
              (createFromMigration m project q).1 = .InternalError err))))) ∧
    (q.Source.Source ≠ "" →
      (∀ err,
        c.LoadByProjectAndName (if q.Source.Project = "" then project else q.Source.Project)
          q.Source.Source = .error err →
        createFromCopy c project q = (.SmartError err, [])) ∧
      (∀ source,
        c.LoadByProjectAndName (if q.Source.Project = "" then project else q.Source.Project)
          q.Source.Source = .ok source →
        (∀ err, c.Enabled = .error err → createFromCopy c project q = (.SmartError err, [])) ∧
        (c.Enabled = .ok true →
          (∀ err, c.NodeName = .error err →
            createFromCopy c project q = (.SmartError err, [])) ∧
          (∀ serverName, c.NodeName = .ok serverName → serverName ≠ source.Location →
            (∀ resp,
              (containerFindStoragePool c.migration.pools project q).1.resp = some resp →
              createFromCopy c project q = (resp, [])) ∧
            (∀ err, (containerFindStoragePool c.migration.pools project q).1.resp = none →
              prop (c.migration.pools.GetRootDiskDevice source.ExpandedDevices).2.1 "pool" =
                (containerFindStoragePool c.migration.pools project q).1.storagePool →
              c.StoragePoolGet
                (prop (c.migration.pools.GetRootDiskDevice source.ExpandedDevices).2.1 "pool") =
                  .error err →
              createFromCopy c project q = (.SmartError err, [])))) ∧
        (∀ req1, copyRoute c project q source = .copy req1 →
          ¬ (q.Stateful = true ∧ (c.InstanceGetParentAndSnapshotName source.Name).1 ≠ q.Name) →
          q.Source.Refresh = false ∨
            (∃ e, c.LoadByProjectAndName project q.Name = .error e) ∨
            (∃ t, c.LoadByProjectAndName project q.Name = .ok t ∧ t.IsRunning = false) →
          (∀ err, c.migration.instancetypeNew q.InstanceKind = .error err →
            createFromCopy c project q = (.BadRequest err, [])) ∧
          (∀ dbType, c.migration.instancetypeNew q.InstanceKind = .ok dbType →
            dbType = .Any ∨ dbType = source.InstType →
            (∀ err,
              c.migration.OperationCreate
                { opClass := .Task
                  resources := [("instances", [q.Name, q.Source.Source]),
                    ("containers", [q.Name, q.Source.Source])]
                  metadata := none
                  connect := false } = some err →
              createFromCopy c project q = (.InternalError err, [])) ∧
            (c.migration.OperationCreate
                { opClass := .Task
                  resources := [("instances", [q.Name, q.Source.Source]),
                    ("containers", [q.Name, q.Source.Source])]
                  metadata := none
                  connect := false } = none →
              (createFromCopy c project q).1.isError = false))))) ∧
    (copyRoute
        { c with migration := { c.migration with pools :=
          { c.migration.pools with GetRootDiskDevice := fun devices =>
            ((c.migration.pools.GetRootDiskDevice devices).1,
              (c.migration.pools.GetRootDiskDevice devices).2.1, none) } } }
        project q source =
      copyRoute c project q source) ∧
    ((∀ err, c.ContainerNodeAddress project q.Source.Source source.InstType = .error err →
      clusterCopyContainerInternal c source project q = (.SmartError err, [])) ∧
    (∀ nodeAddress,
      c.ContainerNodeAddress project q.Source.Source source.InstType = .ok nodeAddress →
      nodeAddress ≠ "" →
      (∀ err, c.Connect nodeAddress = some err →
        clusterCopyContainerInternal c source project q = (.SmartError err, [])) ∧
      (c.Connect nodeAddress = none →
        (∀ err, c.IsSnapshot q.Source.Source = true →
          c.MigrateInstanceSnapshot (c.InstanceGetParentAndSnapshotName q.Source.Source).1
            (c.InstanceGetParentAndSnapshotName q.Source.Source).2 q.Source.Live q.Name =
              .error err →
          clusterCopyContainerInternal c source project q = (.SmartError err, [])) ∧
        (∀ err, c.IsSnapshot q.Source.Source = false →
          c.MigrateInstance q.Source.Source q.Source.Live
            (q.Source.InstanceOnly || q.Source.ContainerOnly) q.Name = .error err →
          clusterCopyContainerInternal c source project q = (.SmartError err, []))))) ∧
    ((∀ err, i.ResolveImage project q.Source = .error err →
      createFromImage i project q = (.BadRequest err, [])) ∧
    (∀ hash, i.ResolveImage project q.Source = .ok hash →
      (∀ err, i.instancetypeNew q.InstanceKind = .error err →
        createFromImage i project q = (.BadRequest err, [])) ∧
      (∀ dbType err, i.instancetypeNew q.InstanceKind = .ok dbType →
        i.OperationCreate (createOperation q) = some err →
        createFromImage i project q = (.InternalError err, []))) ∧
    (∀ err, i.instancetypeNew q.InstanceKind = .error err →
      createFromNone i project q = (.BadRequest err, [])) ∧
    (∀ dbType, i.instancetypeNew q.InstanceKind = .ok dbType →
      (∀ err, q.Architecture ≠ "" → i.ArchitectureId q.Architecture = .error err →
        createFromNone i project q = (.InternalError err, [])) ∧
      (∀ err, q.Architecture = "" ∨ (∃ a, i.ArchitectureId q.Architecture = .ok a) →
        i.OperationCreate (createOperation q) = some err →
        createFromNone i project q = (.InternalError err, [])))) ∧
    ((∀ err, b.TempFile "lxd_backup_" = some err →
      createFromBackup b project pool = (.InternalError err, [])) ∧
    (b.TempFile "lxd_backup_" = none →
      (∀ err, b.Copy = some err →
        createFromBackup b project pool = (.InternalError err, [])) ∧
      (b.Copy = none →
        (∀ err, b.DetectCompressionFile = .error err →
          createFromBackup b project pool = (.InternalError err, [])) ∧
        (∀ algo, b.DetectCompressionFile = .ok algo →
          (algo = ".squashfs" →
            (∀ err, b.TempFile "lxd_decompress_" = some err →
              createFromBackup b project pool = (.InternalError err, [])) ∧
            (∀ err, b.TempFile "lxd_decompress_" = none → b.RunCommandWithFds = some err →
              createFromBackup b project pool = (.InternalError err, []))) ∧
          (algo ≠ ".squashfs" ∨
              (b.TempFile "lxd_decompress_" = none ∧ b.RunCommandWithFds = none) →
            (∀ err, b.GetInfo = .error err →
              createFromBackup b project pool = (.BadRequest err, [])) ∧
            (∀ info, b.GetInfo = .ok info →
              (∀ err, b.StoragePoolGet (if pool ≠ "" then pool else info.Pool) = some err →
                err ≠ .ErrNoSuchObject ∨ info.HasBinaryFormat = true ∨ pool ≠ "" →
                createFromBackup b project pool = (.InternalError err, [])) ∧
              (b.StoragePoolGet (if pool ≠ "" then pool else info.Pool) = none →
                ∀ err, b.OperationCreate (backupOperation info) = some err →
                  createFromBackup b project pool = (.InternalError err, [])) ∧
              (b.StoragePoolGet (if pool ≠ "" then pool else info.Pool) =
                  some .ErrNoSuchObject →
                info.HasBinaryFormat = false → pool = "" →
                (∀ err, b.ProfileGet project "default" = .error err →
                  createFromBackup b project pool = (.InternalError err, [])) ∧
                (∀ profile, b.ProfileGet project "default" = .ok profile →
                  (∀ k v err, b.GetRootDiskDevice profile.Devices = (k, v, some err) →
                    createFromBackup b project pool = (.InternalError err, [])) ∧
                  (∀ k v, b.GetRootDiskDevice profile.Devices = (k, v, none) →
                    (∀ err, b.OperationCreate (backupOperation info) = some err →
                      createFromBackup b project pool = (.InternalError err, [])) ∧
                    (b.OperationCreate (backupOperation info) = none →
                      createFromBackup b project pool =
                        (.OperationResponse (backupOperation info),
                          [Event.createOperation (backupOperation info)]))))))))))) ∧
    ((q.Source.Server ≠ "" →
      (∀ err, iw.ConfigGetBool "images.auto_update_cached" = .error err →
        imageRun iw project q hash dbType = some err) ∧
      (∀ autoUpdate err, iw.ConfigGetBool "images.auto_update_cached" = .ok autoUpdate →
        iw.ImageDownload q.Source.Server q.Source.Protocol q.Source.Certificate q.Source.Secret
          hash (if q.InstanceKind = "virtual-machine" then "virtual-machine" else "container")
          autoUpdate = .error err →
        imageRun iw project q hash dbType = some err)) ∧
    (q.Source.Server = "" →
      ∀ err, iw.ImageGet project hash = .error err →
        imageRun iw project q hash dbType = some err) ∧
    (∀ info,
      (q.Source.Server ≠ "" ∧
          ∃ autoUpdate, iw.ConfigGetBool "images.auto_update_cached" = .ok autoUpdate ∧
            iw.ImageDownload q.Source.Server q.Source.Protocol q.Source.Certificate
              q.Source.Secret hash
              (if q.InstanceKind = "virtual-machine" then "virtual-machine" else "container")
              autoUpdate = .ok info) ∨
        (q.Source.Server = "" ∧ iw.ImageGet project hash = .ok info) →
      (∀ err, iw.ArchitectureId info.Architecture = .error err →
        imageRun iw project q hash dbType = some err) ∧
      (∀ architecture err, iw.ArchitectureId info.Architecture = .ok architecture →
        iw.instanceCreateFromImage
          { Project := project
            Architecture := architecture
            BaseImage := ""
            Config := q.Config
            InstType := dbType
            Devices := q.Devices.getD []
            Description := q.Description
            Ephemeral := q.Ephemeral
            Name := q.Name
            Profiles := q.Profiles.getD []
            Stateful := false }
          info.Fingerprint = some err →
        imageRun iw project q hash dbType = some err))) ∧
    ((∀ err, instanceCreateAsEmpty args = .error err →
      noneRun instanceCreateAsEmpty args = some err) ∧
    (∀ err,
      instanceCreateAsCopy args source (q.Source.InstanceOnly || q.Source.ContainerOnly)
        refresh = .error err →
      copyRun instanceCreateAsCopy q args source refresh = some err) ∧
    (∀ err, (migrationRun refresh inst (some err) deferTemplateApply).1 =
      some (.msg ("Error transferring container data: " ++ err.Error))) ∧
    (∀ err, deferTemplateApply "copy" = some err →
      (migrationRun refresh inst none deferTemplateApply).1 = some err) ∧
    (∀ err, bw.instanceCreateFromBackup bInfo = .error err →
      (backupRun bw project bInfo).1 = some (errorsWrap err "Create instance from backup")) ∧
    (∀ hooks, bw.instanceCreateFromBackup bInfo = .ok hooks →
      (∀ err, bw.Marshal = some err →
        (backupRun bw project bInfo).1 =
          some (errorsWrap err "Marshal internal import request")) ∧
      (bw.Marshal = none → bw.internalImport bInfo.Name project = "success" →
        (∀ err, bw.LoadByProjectAndName project bInfo.Name = .error err →
          (backupRun bw project bInfo).1 = some (errorsWrap err "Load instance")) ∧
        (∀ c hook err, bw.LoadByProjectAndName project bInfo.Name = .ok c →
          hooks.postHook = some hook → hook c = some err →
          (backupRun bw project bInfo).1 = some (errorsWrap err "Post hook"))))) :=
  ⟨fun hct => dispatcher_errors w s r hct,
    resolver_errors p project q,
    fun hmode => migration_validation_errors m project q hmode,
    fun hplan => ⟨migration_record_errors m project q plan hplan,
      fun hinst => migration_sink_errors m project q plan refresh inst hplan hinst⟩,
    fun hsrc => copy_errors c project q hsrc,
    copyRoute_strip c project q source,
    clusterCopy_errors c source project q,
    image_errors i project q,
    backup_errors b project pool,
    imageRun_errors iw project q hash dbType,
    run_errors instanceCreateAsEmpty instanceCreateAsCopy bw project q args source refresh inst
      deferTemplateApply bInfo⟩

/-- C19 (counterexample): collaborator errors that do not reach the caller. A database error
from listing the storage pools in `containersPost` is answered with the bad request "No
storage pool found"; a database error from the pool-existence lookup in
`containerFindStoragePool` is ignored and the pool used; in `createFromCopy` the error of
`GetRootDiskDevice` for a source without root disk is discarded, the request going on to the
migration path; and in `createFromMigration` neither a database error from loading the
instance for the refresh check nor one from `ImageGet` on the legacy path keeps the
operation from being registered. -/
theorem collaborator_errors_dropped :
    (containersPost
        { dispatchCallsOf [("node1", "")] "" [] [] with StoragePools := .error (.other 5) }
        strategiesOfNode1
        { body := .ok { Name := "c1", Source := { SourceType := "none" } } }).resp =
      .BadRequest (.msg "No storage pool found. Please create a new storage pool") ∧
    (containerFindStoragePool
        { clusterOf ["fast"] [] with StoragePoolGetID := fun _ => .error (.other 5) }
        "default"
        { Devices := some [("disk0", [("type", "disk"), ("path", "/"), ("pool", "fast")])] }
      ).1 = ⟨"fast", "", "disk0", [("type", "disk"), ("path", "/"), ("pool", "fast")], none⟩ ∧
    (GetRootDiskDevice []).2.2 = some (.msg "No root device could be found") ∧
    copyRoute
        (copyCallsOf (clusterOf ["local"] [("default", rootProfile "local")])
          [("local", "zfs")] "node1" [] ⟨"op-1", []⟩)
        "default" { Name := "c2", Source := { SourceType := "copy", Source := "c1" } }
        { containerOn "c1" "node2" "local" with ExpandedDevices := [] } =
      .migrate { Name := "c2", Source := { SourceType := "copy", Source := "c1" } } ∧
    (createFromMigration
        { callsOf (clusterOf ["default"] [("default", ⟨[]⟩)]) ["default"] with
          LoadByProjectAndName := fun _ _ => .error (.other 5) }
        "default" { Name := "c1", Source := { Mode := "pull", Refresh := true } }).1 =
      .OperationResponse ⟨.Task, [("instances", ["c1"]), ("containers", ["c1"])], none, false⟩ ∧
    (createFromMigration
        { callsOf (clusterOf ["default"] [("default", ⟨[]⟩)]) ["default"] with
          GetPoolByName := fun _ => some .ErrUnknownDriver
          ImageGet := fun _ _ => some (.other 5) }
        "default" { Name := "c1", Source := { Mode := "pull" } }).1 =
      .OperationResponse
        ⟨.Task, [("instances", ["c1"]), ("containers", ["c1"])], none, false⟩ := by
  refine ⟨by decide, by decide, by decide, by decide, by decide, by decide⟩

theorem collaborator_errors_witness :
    (containersPost
        { dispatchCallsOf [("node1", ""), ("node2", "10.0.0.2:8443")] "" ["default"] [] with
          Connect := fun _ => some (.msg "connection refused") }
        strategiesOfNode1
        { target := "node2", body := .ok { Name := "c1", Source := { SourceType := "none" } } }
      ).resp = .SmartError (.msg "connection refused") :=
  (((((collaborator_errors
    { dispatchCallsOf [("node1", ""), ("node2", "10.0.0.2:8443")] "" ["default"] [] with
      Connect := fun _ => some (.msg "connection refused") }
    strategiesOfNode1
    { target := "node2", body := .ok { Name := "c1", Source := { SourceType := "none" } } }
    (clusterOf ["default"] [])
    (callsOf (clusterOf ["default"] [("default", ⟨[]⟩)]) ["default"])
    (copyCallsOf (clusterOf ["default"] [("default", rootProfile "default")])
      [("default", "zfs")] "node1" [] ⟨"op-1", []⟩)
    imageCallsOf
    (backupCallsOf ⟨"c1", "default", "default", false⟩ ["default"] (rootProfile "default"))
    imageRunCallsOf (backupRunCallsOf none "success")
    (fun args => .ok ⟨args.Name, false⟩) (fun args _ _ _ => .ok ⟨args.Name, false⟩)
    (fun _ => none) "default" "" "8f3a" {}
    ⟨copyArgs "default" {} (containerOn "c1" "node1" "default"), "default", {}⟩
    (containerOn "c1" "node1" "default")
    (copyArgs "default" {} (containerOn "c1" "node1" "default")) .Container false none
    ⟨"c1", "default", "default", false⟩).1 (by decide)).2.2
    { Name := "c1", Source := { SourceType := "none" } } "node2" rfl
    (Or.inl ⟨by decide, rfl⟩)).1 (by decide)).2 "10.0.0.2:8443" rfl (by decide)).1
    (.msg "connection refused") rfl

end Lxd
